import Mathlib

/-!
Raspberry Pi Pico RGB macro pad: the key loop, the action table and lock-indicator sync

A shallow embedding of `src/RGBMacroLibrary.cpp` (and the report ids of `src/Main.cpp`).

* The file-scope variables of the library become the fields of `State`.
* Bytes and the 16-bit button mask are natural numbers; the theorems carry the range
  hypotheses they need.
* The three tables are total maps on row indices; a row is a tuple.  Rows `0..15`
  (`0..2` for the lock records) are the C arrays, and the theorems that state a claim
  about key `k` fix `k < 16`.
* The collaborators (TinyUSB, the Pimoroni keypad driver, the Pico timer service and the
  boot ROM) are modelled by what the library asks of them: every call is appended to
  `State.trace`, and the keypad's buffered and committed colours, the brightness and the
  number of armed timers are kept next to it.
* The answers of the environment inside one call of `Loop` (clock, suspended, the three
  `tud_hid_ready()` calls, the button mask) are the fields of `TickInput`.
-/

namespace RGBMacroPad

/-! ## Constants -/

/-- Report id of the keyboard interface (`Main.cpp`, line 12). -/
def REPORT_ID_KEYBOARD : Nat := 1
/-- Report id of the consumer-control interface (`Main.cpp`, line 13). -/
def REPORT_ID_CONSUMER_CONTROL : Nat := 2
/-- Report id used for the reset-to-bootloader key (`Main.cpp`, line 14). -/
def REPORT_ID_TINYPICO : Nat := 4

/-- TinyUSB `hid.h`: usage id of the Caps Lock key. -/
def HID_KEY_CAPS_LOCK : Nat := 0x39
/-- TinyUSB `hid.h`: usage id of the Scroll Lock key. -/
def HID_KEY_SCROLL_LOCK : Nat := 0x47
/-- TinyUSB `hid.h`: usage id of the Num Lock key. -/
def HID_KEY_NUM_LOCK : Nat := 0x53
/-- TinyUSB `hid.h`: consumer usage Play/Pause. -/
def HID_USAGE_CONSUMER_PLAY_PAUSE : Nat := 0xCD

/-- TinyUSB `hid.h`: Num Lock bit of the keyboard LED output report. -/
def KEYBOARD_LED_NUMLOCK : Nat := 1
/-- TinyUSB `hid.h`: Caps Lock bit of the keyboard LED output report. -/
def KEYBOARD_LED_CAPSLOCK : Nat := 2
/-- TinyUSB `hid.h`: Scroll Lock bit of the keyboard LED output report. -/
def KEYBOARD_LED_SCROLLLOCK : Nat := 4

/-- TinyUSB `hid.h`: `hid_report_type_t` value of an output report. -/
def HID_REPORT_TYPE_OUTPUT : Nat := 2

/-- The brightness `MaxBrightness` (`1.0f`), in tenths. -/
def MaxBrightness : Nat := 10
/-- The brightness `MinBrightness` (`0.2f`), in tenths. -/
def MinBrightness : Nat := 2

/-! ## Data model -/

/-- A row of `ColourAssignments`, or a colour held by the keypad: `(r, g, b)`. -/
abbrev Colour := Nat × Nat × Nat

/-- A row of `ButtonAssignments`: `(KeyCode, ModifierKeys, KeyboardType)`. -/
abbrev Assignment := Nat × Nat × Nat

/-- A row of `LockKeysOrigionalColours`: `(r, g, b, ButtonNum)`. -/
abbrev LockRecord := Nat × Nat × Nat × Nat

/-- One call made by the library to a collaborator. -/
inductive Effect where
  /-- A keyboard report on the wire: report id, modifier byte, the six keycodes. -/
  | hid_keyboard_report (report_id modifier : Nat) (keycode : List Nat)
  /-- A raw report on the wire: report id and payload bytes. -/
  | hid_report (report_id : Nat) (data : List Nat)
  /-- The call `tud_remote_wakeup()`. -/
  | remote_wakeup
  /-- The call `PicoKeypad.illuminate(i, r, g, b)`. -/
  | illuminate (i r g b : Nat)
  /-- The call `PicoKeypad.update()`. -/
  | update
  /-- The call `PicoKeypad.set_brightness(v)`, `v` in tenths. -/
  | set_brightness (v : Nat)
  /-- The call `PicoKeypad.init()`. -/
  | keypad_init
  /-- The call `add_repeating_timer_ms(DimLedDuration, DimLEDTimer, NULL, &timer)`. -/
  | add_repeating_timer
  /-- The call `cancel_repeating_timer(&timer)`. -/
  | cancel_repeating_timer
  /-- The call `add_alarm_in_ms(ms, ResetLEDsRepeat, NULL, false)`. -/
  | add_alarm_in_ms (ms : Nat)
  /-- The call `reset_usb_boot(0, 0)`. -/
  | reset_usb_boot
  deriving DecidableEq, Repr

/-- True of the two effects that put a HID report on the wire. -/
def Effect.isHid : Effect → Bool
  | .hid_keyboard_report _ _ _ => true
  | .hid_report _ _ => true
  | _ => false

/-- The file-scope variables of `RGBMacroLibrary.cpp` and the state of its collaborators. -/
@[ext]
structure State where
  /-- Per key `(KeyCode, ModifierKeys, KeyboardType)`. -/
  ButtonAssignments : Nat → Assignment
  /-- Per key the colour restored after a press. -/
  ColourAssignments : Nat → Colour
  /-- Rows 0, 1, 2: caps, num and scroll lock; `(r, g, b, ButtonNum)`. -/
  LockKeysOrigionalColours : Nat → LockRecord
  button_states : Nat
  last_button_states : Nat
  has_keyboard_key : Bool
  has_consumer_key : Bool
  TimerCancelled : Bool
  LEDDimClock : Bool
  /-- The static `start_ms` of `Loop`. -/
  start_ms : Nat
  /-- Keypad driver: colours buffered by `illuminate`. -/
  leds : Nat → Colour
  /-- Keypad driver: colours committed by the last `update`. -/
  shown : Nat → Colour
  /-- Keypad driver: brightness last set, in tenths. -/
  brightness : Nat
  /-- Timer service: armed instances of the dim timer. -/
  dim_timers : Nat
  /-- Timer service: pending flash-reset alarms. -/
  flash_alarms : Nat
  /-- Boot ROM: `reset_usb_boot` has been entered. -/
  in_bootloader : Bool
  /-- Every collaborator call so far, oldest first. -/
  trace : List Effect

/-- The state at program start: zero-initialised statics, dark keypad, nothing called. -/
def State.zero : State where
  ButtonAssignments := fun _ => (0, 0, 0)
  ColourAssignments := fun _ => (0, 0, 0)
  LockKeysOrigionalColours := fun _ => (0, 0, 0, 0)
  button_states := 0
  last_button_states := 0
  has_keyboard_key := false
  has_consumer_key := false
  TimerCancelled := false
  LEDDimClock := false
  start_ms := 0
  leds := fun _ => (0, 0, 0)
  shown := fun _ => (0, 0, 0)
  brightness := 0
  dim_timers := 0
  flash_alarms := 0
  in_bootloader := false
  trace := []

/-- What the environment answers during one call of `Loop`. -/
structure TickInput where
  /-- `board_millis()`. -/
  board_millis : Nat
  /-- `tud_suspended()`. -/
  suspended : Bool
  /-- `tud_hid_ready()` at the release check (line 419). -/
  ready_release : Bool
  /-- `PicoKeypad.get_button_states()`. -/
  buttons : Nat
  /-- `tud_hid_ready()` at the press check (line 478). -/
  ready_press : Bool
  /-- `tud_hid_ready()` inside `SendKeypress` (line 117). -/
  ready_send : Bool

/-! ## Assignments to the file-scope variables -/

/-- The three stores `ButtonAssignments[ButtonNum][0..2] = ...`. -/
def set_ButtonAssignments (ButtonNum : Nat) (row : Assignment) (s : State) : State :=
  { s with ButtonAssignments := Function.update s.ButtonAssignments ButtonNum row }

/-- The three stores `ColourAssignments[ButtonNum][0..2] = ...`. -/
def set_ColourAssignments (ButtonNum : Nat) (row : Colour) (s : State) : State :=
  { s with ColourAssignments := Function.update s.ColourAssignments ButtonNum row }

/-- The four stores `LockKeysOrigionalColours[role][0..3] = ...`. -/
def set_LockKeysOrigionalColours (role : Nat) (row : LockRecord) (s : State) : State :=
  { s with LockKeysOrigionalColours := Function.update s.LockKeysOrigionalColours role row }

/-- The store `button_states = v`. -/
def set_button_states (v : Nat) (s : State) : State := { s with button_states := v }

/-- The store `last_button_states = v`. -/
def set_last_button_states (v : Nat) (s : State) : State := { s with last_button_states := v }

/-- The store `has_keyboard_key = v`. -/
def set_has_keyboard_key (v : Bool) (s : State) : State := { s with has_keyboard_key := v }

/-- The store `has_consumer_key = v`. -/
def set_has_consumer_key (v : Bool) (s : State) : State := { s with has_consumer_key := v }

/-- The store `TimerCancelled = v`. -/
def set_TimerCancelled (v : Bool) (s : State) : State := { s with TimerCancelled := v }

/-- The store `LEDDimClock = v`. -/
def set_LEDDimClock (v : Bool) (s : State) : State := { s with LEDDimClock := v }

/-- The store `start_ms = v`. -/
def set_start_ms (v : Nat) (s : State) : State := { s with start_ms := v }

/-! ## Collaborator calls -/

/-- Keypad driver `illuminate`: buffers the colour of one key, does not commit. -/
def illuminate (i r g b : Nat) (s : State) : State :=
  { s with leds := Function.update s.leds i (r, g, b),
           trace := s.trace ++ [Effect.illuminate i r g b] }

/-- Keypad driver `update`: commits the buffered colours. -/
def update (s : State) : State :=
  { s with shown := s.leds, trace := s.trace ++ [Effect.update] }

/-- Keypad driver `set_brightness`. -/
def set_brightness (v : Nat) (s : State) : State :=
  { s with brightness := v, trace := s.trace ++ [Effect.set_brightness v] }

/-- Keypad driver `init`. -/
def keypad_init (s : State) : State :=
  { s with trace := s.trace ++ [Effect.keypad_init] }

/-- TinyUSB `tud_hid_keyboard_report`: a `NULL` keycode array is sent as six zeros. -/
def tud_hid_keyboard_report (report_id modifier : Nat) (keycode : Option (List Nat))
    (s : State) : State :=
  { s with trace := s.trace ++
      [Effect.hid_keyboard_report report_id modifier (keycode.getD [0, 0, 0, 0, 0, 0])] }

/-- TinyUSB `tud_hid_report` of a `uint16_t` value with length 2: low byte first. -/
def tud_hid_report (report_id value : Nat) (s : State) : State :=
  { s with trace := s.trace ++ [Effect.hid_report report_id [value % 256, value / 256 % 256]] }

/-- TinyUSB `tud_remote_wakeup`. -/
def tud_remote_wakeup (s : State) : State :=
  { s with trace := s.trace ++ [Effect.remote_wakeup] }

/-- Timer service `add_repeating_timer_ms` for the dim timer. -/
def add_repeating_timer_ms (s : State) : State :=
  { s with dim_timers := s.dim_timers + 1, trace := s.trace ++ [Effect.add_repeating_timer] }

/-- Timer service `cancel_repeating_timer(&timer)`; nothing to cancel is not an error. -/
def cancel_repeating_timer (s : State) : State :=
  { s with dim_timers := s.dim_timers - 1, trace := s.trace ++ [Effect.cancel_repeating_timer] }

/-- Timer service `add_alarm_in_ms` for the flash-reset alarm. -/
def add_alarm_in_ms (ms : Nat) (s : State) : State :=
  { s with flash_alarms := s.flash_alarms + 1, trace := s.trace ++ [Effect.add_alarm_in_ms ms] }

/-- Boot ROM `reset_usb_boot(0, 0)`; it does not return. -/
def reset_usb_boot (s : State) : State :=
  { s with in_bootloader := true, trace := s.trace ++ [Effect.reset_usb_boot] }

/-- The loops `for (i = 0; i <= 15; i++) PicoKeypad.illuminate(i, r, g, b)`. -/
def illuminateAll (r g b : Nat) (s : State) : State :=
  (List.range 16).foldl (fun st i => illuminate i r g b st) s

/-! ## Library code -/

/-- The loop `while (number >>= 1) ++ButtonLEDAddr;` of `Loop` (lines 447-449);
`ButtonLEDAddr` is a `uint8_t`. -/
def bitScan (number ButtonLEDAddr : Nat) : Nat :=
  if number >>> 1 ≠ 0 then bitScan (number >>> 1) ((ButtonLEDAddr + 1) % 256)
  else ButtonLEDAddr
termination_by number
decreasing_by
  rename_i h
  rw [Nat.shiftRight_eq_div_pow] at h ⊢
  exact Nat.div_lt_self (Nat.pos_of_ne_zero (fun h0 => h (by simp [h0]))) (by decide)

/-- The test used twice in `Loop`: the key code is one of the three lock keys. -/
def isLockKey (KeyCode : Nat) : Bool :=
  KeyCode == HID_KEY_CAPS_LOCK || KeyCode == HID_KEY_NUM_LOCK || KeyCode == HID_KEY_SCROLL_LOCK

/-- `RGBMacroPad::SendKeypress` (lines 114-148); `ready` is the answer of `tud_hid_ready()`. -/
def SendKeypress (ready : Bool) (report_id KeyCode Modifiers : Nat) (s : State) : State :=
  if !ready then s
  else if report_id = REPORT_ID_KEYBOARD then
    if !s.has_consumer_key then
      set_has_keyboard_key true
        (tud_hid_keyboard_report REPORT_ID_KEYBOARD Modifiers (some [KeyCode, 0, 0, 0, 0, 0]) s)
    else s
  else if report_id = REPORT_ID_CONSUMER_CONTROL then
    if !s.has_keyboard_key then
      set_has_consumer_key true (tud_hid_report REPORT_ID_CONSUMER_CONTROL KeyCode s)
    else s
  else s

/-- One lock role of `tud_hid_set_report_cb` (lines 192-210, 213-231, 234-252): `role` is the
row of `LockKeysOrigionalColours`, `led_bit` the role's bit of the indicator byte. -/
def syncLock (role led_bit kbd_leds : Nat) (s : State) : State :=
  let record := s.LockKeysOrigionalColours role
  let key := record.2.2.2
  if key ≠ 0 then
    let s :=
      if kbd_leds &&& led_bit ≠ 0 then set_ColourAssignments key (0x20, 0x20, 0x20) s
      else set_ColourAssignments key (record.1, record.2.1, record.2.2.1) s
    illuminate key (s.ColourAssignments key).1 (s.ColourAssignments key).2.1
      (s.ColourAssignments key).2.2 s
  else s

/-- `tud_hid_set_report_cb` (lines 175-256); `buffer[0]` is the head of `buffer`. -/
def tud_hid_set_report_cb (_instance report_id report_type : Nat) (buffer : List Nat)
    (bufsize : Nat) (s : State) : State :=
  if report_type = HID_REPORT_TYPE_OUTPUT then
    if report_id = REPORT_ID_KEYBOARD then
      if bufsize < 1 then s
      else
        let kbd_leds := buffer.headD 0
        update (syncLock 2 KEYBOARD_LED_SCROLLLOCK kbd_leds
          (syncLock 1 KEYBOARD_LED_NUMLOCK kbd_leds
            (syncLock 0 KEYBOARD_LED_CAPSLOCK kbd_leds s)))
    else s
  else s

/-- The head of `RemoveButtonSetup` (lines 285-306): clear the record of the lock role whose
key code the descriptor holds. -/
def clearLockRecord (KeyCode : Nat) (s : State) : State :=
  if KeyCode = HID_KEY_CAPS_LOCK then set_LockKeysOrigionalColours 0 (0, 0, 0, 0) s
  else if KeyCode = HID_KEY_NUM_LOCK then set_LockKeysOrigionalColours 1 (0, 0, 0, 0) s
  else if KeyCode = HID_KEY_SCROLL_LOCK then set_LockKeysOrigionalColours 2 (0, 0, 0, 0) s
  else s

/-- `RGBMacroPad::RemoveButtonSetup` (lines 283-315). -/
def RemoveButtonSetup (ButtonNum : Nat) (s : State) : State :=
  set_ButtonAssignments ButtonNum (0, 0, 0)
    (update (illuminate ButtonNum 0 0 0
      (set_ColourAssignments ButtonNum (0, 0, 0)
        (clearLockRecord (s.ButtonAssignments ButtonNum).1 s))))

/-- The head of `SetupButton` (lines 320-341): record colour and key for a lock key code. -/
def recordLockKey (ButtonNum r g b KeyCode : Nat) (s : State) : State :=
  if KeyCode = HID_KEY_CAPS_LOCK then set_LockKeysOrigionalColours 0 (r, g, b, ButtonNum) s
  else if KeyCode = HID_KEY_NUM_LOCK then set_LockKeysOrigionalColours 1 (r, g, b, ButtonNum) s
  else if KeyCode = HID_KEY_SCROLL_LOCK then set_LockKeysOrigionalColours 2 (r, g, b, ButtonNum) s
  else s

/-- `RGBMacroPad::SetupButton` (lines 318-350). -/
def SetupButton (ButtonNum r g b KeyCode ModifierKeys KeyboardType : Nat) (s : State) : State :=
  set_ButtonAssignments ButtonNum (KeyCode, ModifierKeys, KeyboardType)
    (update (illuminate ButtonNum r g b
      (set_ColourAssignments ButtonNum (r, g, b)
        (recordLockKey ButtonNum r g b KeyCode s))))

/-- The loop of `ResetLEDsRepeat` (lines 354-357), for `i` below `n`. -/
def repaint (n : Nat) (s : State) : State :=
  (List.range n).foldl
    (fun st i => illuminate i (st.ColourAssignments i).1 (st.ColourAssignments i).2.1
      (st.ColourAssignments i).2.2 st) s

/-- `RGBMacroPad::ResetLEDsRepeat` (lines 352-361), the flash-reset alarm callback; the value
it returns is `ResetLEDsRepeat_result`. -/
def ResetLEDsRepeat (s : State) : State :=
  set_TimerCancelled true (update (repaint 16 s))

/-- The value returned by `ResetLEDsRepeat`: 0, do not reschedule. -/
def ResetLEDsRepeat_result : Int := 0

/-- `RGBMacroPad::DimLEDTimer` (lines 364-371), the dim timer callback. -/
def DimLEDTimer (s : State) : State :=
  cancel_repeating_timer (set_LEDDimClock false (update (set_brightness MinBrightness s)))

/-- `RGBMacroPad::InitializeDevice` (lines 374-388), up to the board and TinyUSB set-up. -/
def InitializeDevice (s : State) : State :=
  set_LEDDimClock true (add_repeating_timer_ms (set_brightness MaxBrightness (keypad_init
    (set_LEDDimClock false (set_TimerCancelled true s)))))

/-- Lines 451-465 of `Loop`: cancel the running dim timer or restore the brightness, then
start the dim timer again. -/
def rearmDimTimer (s : State) : State :=
  set_LEDDimClock true (add_repeating_timer_ms
    (if s.LEDDimClock = true then set_LEDDimClock false (cancel_repeating_timer s)
     else update (set_brightness MaxBrightness s)))

/-- Lines 478-496 of `Loop`: highlight and send when the transport is ready, else paint
every key red. -/
def pressFeedback (i : TickInput) (ButtonLEDAddr : Nat) (s : State) : State :=
  if i.ready_press then
    SendKeypress i.ready_send (s.ButtonAssignments ButtonLEDAddr).2.2
      (s.ButtonAssignments ButtonLEDAddr).1 (s.ButtonAssignments ButtonLEDAddr).2.1
      (if !isLockKey (s.ButtonAssignments ButtonLEDAddr).1 then
         illuminate ButtonLEDAddr 0x20 0x20 0x00 s
       else s)
  else illuminateAll 0x20 0x00 0x00 s

/-- Lines 499-504 of `Loop`: schedule the flash-reset alarm. -/
def startFlashReset (ButtonLEDAddr : Nat) (s : State) : State :=
  if s.TimerCancelled = true && !isLockKey (s.ButtonAssignments ButtonLEDAddr).1 then
    add_alarm_in_ms 300 (set_TimerCancelled false s)
  else s

/-- Lines 467-504 of `Loop`: the action of the decoded key.  `reset_usb_boot` does not
return, so nothing after it runs. -/
def pressAction (i : TickInput) (ButtonLEDAddr : Nat) (s : State) : State :=
  if (s.ButtonAssignments ButtonLEDAddr).2.2 = REPORT_ID_TINYPICO then
    reset_usb_boot (update (illuminateAll 0x00 0x00 0x00 s))
  else startFlashReset ButtonLEDAddr (update (pressFeedback i ButtonLEDAddr s))

/-- Lines 438-506 of `Loop`: sample the buttons and act on a changed, nonzero mask. -/
def sampleButtons (i : TickInput) (s : State) : State :=
  let s := set_button_states i.buttons s
  if s.last_button_states ≠ s.button_states then
    let s := set_last_button_states s.button_states s
    if s.button_states > 0 then
      pressAction i (bitScan s.button_states 0) (rearmDimTimer s)
    else s
  else s

/-- The body of `Loop` once the 10 ms gate has passed (lines 410-507): one poll tick. -/
def pollTick (i : TickInput) (s : State) : State :=
  if i.suspended then tud_remote_wakeup s
  else if i.ready_release && s.has_keyboard_key then
    set_has_keyboard_key false (tud_hid_keyboard_report REPORT_ID_KEYBOARD 0 none s)
  else if i.ready_release && s.has_consumer_key then
    set_has_consumer_key false (tud_hid_report REPORT_ID_CONSUMER_CONTROL 0 s)
  else sampleButtons i s

/-- `RGBMacroPad::Loop` (lines 395-508): the 10 ms gate on the 32-bit millisecond clock, then
the poll tick.  `tud_task()` is the USB stack's own work (its callback into this library is
`tud_hid_set_report_cb`) and `led_blinking_task()` only drives the board LED. -/
def Loop (i : TickInput) (s : State) : State :=
  if (i.board_millis + 2 ^ 32 - s.start_ms % 2 ^ 32) % 2 ^ 32 < 10 then s
  else pollTick i (set_start_ms ((s.start_ms + 10) % 2 ^ 32) s)

/-- A run of `Loop` calls, one for each element of `inputs`. -/
def runLoop (inputs : List TickInput) (s : State) : State :=
  inputs.foldl (fun st i => Loop i st) s

/-! ## The configuration of `Main.cpp` -/

/-- TinyUSB `hid.h` key codes and modifier bits used by `main`. -/
def HID_KEY_A : Nat := 0x04
/-- TinyUSB `hid.h`. -/
def HID_KEY_D : Nat := 0x07
/-- TinyUSB `hid.h`. -/
def HID_KEY_K : Nat := 0x0E
/-- TinyUSB `hid.h`. -/
def HID_KEY_L : Nat := 0x0F
/-- TinyUSB `hid.h`. -/
def HID_KEY_M : Nat := 0x10
/-- TinyUSB `hid.h`. -/
def HID_KEY_O : Nat := 0x12
/-- TinyUSB `hid.h`. -/
def HID_KEY_ARROW_DOWN : Nat := 0x51
/-- TinyUSB `hid.h`. -/
def HID_KEY_ARROW_UP : Nat := 0x52
/-- TinyUSB `hid.h`. -/
def HID_KEY_KEYPAD_0 : Nat := 0x62
/-- TinyUSB `hid.h`. -/
def HID_USAGE_CONSUMER_SCAN_NEXT : Nat := 0xB5
/-- TinyUSB `hid.h`. -/
def HID_USAGE_CONSUMER_SCAN_PREVIOUS : Nat := 0xB6
/-- TinyUSB `hid.h`. -/
def KEYBOARD_MODIFIER_LEFTCTRL : Nat := 1
/-- TinyUSB `hid.h`. -/
def KEYBOARD_MODIFIER_LEFTSHIFT : Nat := 2
/-- TinyUSB `hid.h`. -/
def KEYBOARD_MODIFIER_LEFTALT : Nat := 4
/-- TinyUSB `hid.h`. -/
def KEYBOARD_MODIFIER_LEFTGUI : Nat := 8

/-- The calls of `main` (`Main.cpp`, lines 19-40), in order. -/
def mainCalls : List (State → State) :=
  [ InitializeDevice,
    SetupButton 0 0x00 0x00 0x20 HID_KEY_O
      (KEYBOARD_MODIFIER_LEFTCTRL + KEYBOARD_MODIFIER_LEFTSHIFT) REPORT_ID_KEYBOARD,
    SetupButton 1 0x00 0x20 0x00 HID_KEY_ARROW_UP KEYBOARD_MODIFIER_LEFTCTRL REPORT_ID_KEYBOARD,
    SetupButton 2 0x20 0x05 0x20 HID_USAGE_CONSUMER_PLAY_PAUSE 0 REPORT_ID_CONSUMER_CONTROL,
    SetupButton 3 0x20 0x00 0x00 HID_KEY_KEYPAD_0
      (KEYBOARD_MODIFIER_LEFTCTRL + KEYBOARD_MODIFIER_LEFTALT) REPORT_ID_KEYBOARD,
    SetupButton 4 0x00 0x00 0x20 HID_KEY_M
      (KEYBOARD_MODIFIER_LEFTCTRL + KEYBOARD_MODIFIER_LEFTSHIFT) REPORT_ID_KEYBOARD,
    SetupButton 5 0x00 0x20 0x00 HID_KEY_ARROW_DOWN KEYBOARD_MODIFIER_LEFTCTRL
      REPORT_ID_KEYBOARD,
    SetupButton 6 0x20 0x00 0x20 HID_USAGE_CONSUMER_SCAN_PREVIOUS 0 REPORT_ID_CONSUMER_CONTROL,
    SetupButton 7 0x20 0x00 0x20 HID_USAGE_CONSUMER_SCAN_NEXT 0 REPORT_ID_CONSUMER_CONTROL,
    SetupButton 8 0x00 0x00 0x20 HID_KEY_K
      (KEYBOARD_MODIFIER_LEFTCTRL + KEYBOARD_MODIFIER_LEFTSHIFT) REPORT_ID_KEYBOARD,
    SetupButton 9 0x00 0x20 0x20 HID_KEY_A
      (KEYBOARD_MODIFIER_LEFTGUI + KEYBOARD_MODIFIER_LEFTCTRL + KEYBOARD_MODIFIER_LEFTSHIFT +
        KEYBOARD_MODIFIER_LEFTALT) REPORT_ID_KEYBOARD,
    SetupButton 10 0x00 0x00 0x20 HID_KEY_D
      (KEYBOARD_MODIFIER_LEFTGUI + KEYBOARD_MODIFIER_LEFTCTRL + KEYBOARD_MODIFIER_LEFTSHIFT +
        KEYBOARD_MODIFIER_LEFTALT) REPORT_ID_KEYBOARD,
    SetupButton 11 0x20 0x00 0x00 0 0 REPORT_ID_TINYPICO,
    SetupButton 12 0x00 0x00 0x00 HID_KEY_CAPS_LOCK 0 REPORT_ID_KEYBOARD,
    SetupButton 13 0x00 0x00 0x00 HID_KEY_NUM_LOCK 0 REPORT_ID_KEYBOARD,
    SetupButton 14 0x00 0x00 0x00 HID_KEY_SCROLL_LOCK 0 REPORT_ID_KEYBOARD,
    SetupButton 15 0x00 0x20 0x20 HID_KEY_L KEYBOARD_MODIFIER_LEFTGUI REPORT_ID_KEYBOARD ]

/-- The state in which `main` enters its `while (true)` loop. -/
def mainSetup : State :=
  mainCalls.foldl (fun s call => call s) State.zero

/-- The effects of `b` that come after those of `a`, when `b` continues `a`. -/
def emitted (a b : State) : List Effect :=
  b.trace.drop a.trace.length

/-- The HID reports among `emitted a b`. -/
def hidReports (a b : State) : List Effect :=
  (emitted a b).filter Effect.isHid

/-- The poll tick gets as far as `get_button_states()`: the bus is not suspended and no
release report is due. -/
def reachesSampling (i : TickInput) (s : State) : Prop :=
  i.suspended = false ∧
    ¬ (i.ready_release = true ∧ (s.has_keyboard_key = true ∨ s.has_consumer_key = true))

instance (i : TickInput) (s : State) : Decidable (reachesSampling i s) := by
  unfold reachesSampling; infer_instance

/-- The key code that binds a key to a row of `LockKeysOrigionalColours` in `SetupButton`:
row 0 caps lock, row 1 num lock, row 2 scroll lock. -/
def lockKeyCode : Nat → Nat
  | 0 => HID_KEY_CAPS_LOCK
  | 1 => HID_KEY_NUM_LOCK
  | _ => HID_KEY_SCROLL_LOCK

/-- The indicator bit tested for a row of `LockKeysOrigionalColours` in
`tud_hid_set_report_cb`. -/
def lockLedBit : Nat → Nat
  | 0 => KEYBOARD_LED_CAPSLOCK
  | 1 => KEYBOARD_LED_NUMLOCK
  | _ => KEYBOARD_LED_SCROLLLOCK

/-- The lock-sync code takes `record` as naming key `k`: its key column is nonzero and
equals `k`. -/
def boundTo (record : LockRecord) (k : Nat) : Prop :=
  record.2.2.2 ≠ 0 ∧ record.2.2.2 = k

instance (record : LockRecord) (k : Nat) : Decidable (boundTo record k) := by
  unfold boundTo; infer_instance

/-- The colour lock sync gives to a cell holding `c`, for key `k` and one lock record. -/
def syncCell (record : LockRecord) (led_bit kbd_leds k : Nat) (c : Colour) : Colour :=
  if record.2.2.2 ≠ 0 ∧ record.2.2.2 = k then
    if kbd_leds &&& led_bit ≠ 0 then (0x20, 0x20, 0x20)
    else (record.1, record.2.1, record.2.2.1)
  else c

/-- The `illuminate` call lock sync makes for one lock record. -/
def syncCall (record : LockRecord) (led_bit kbd_leds : Nat) : List Effect :=
  if record.2.2.2 ≠ 0 then
    if kbd_leds &&& led_bit ≠ 0 then [Effect.illuminate record.2.2.2 0x20 0x20 0x20]
    else [Effect.illuminate record.2.2.2 record.1 record.2.1 record.2.2.1]
  else []

/-- The state a release tick leaves: `s` with the held flag cleared and the all-zero report
of that kind appended to the trace. -/
def released (keyboard : Bool) (s : State) : State :=
  if keyboard then
    { s with has_keyboard_key := false,
             trace := s.trace ++ [Effect.hid_keyboard_report REPORT_ID_KEYBOARD 0 [0, 0, 0, 0, 0, 0]] }
  else
    { s with has_consumer_key := false,
             trace := s.trace ++ [Effect.hid_report REPORT_ID_CONSUMER_CONTROL [0, 0]] }

/-- The value returned by `DimLEDTimer`. -/
def DimLEDTimer_result : Bool := true

/-! ## Timer firings and runs of events -/

/-- Timer service: a fired one-shot alarm whose callback returned 0 leaves the pool. -/
def alarm_done (s : State) : State :=
  { s with flash_alarms := s.flash_alarms - 1 }

/-- The pending flash-reset alarm fires: the timer service calls `ResetLEDsRepeat` and, as
the callback returns 0, does not schedule it again.  Without a pending alarm nothing fires. -/
def fireFlashAlarm (s : State) : State :=
  if 0 < s.flash_alarms then
    if ResetLEDsRepeat_result = 0 then alarm_done (ResetLEDsRepeat s) else ResetLEDsRepeat s
  else s

/-- The armed dim timer fires: the timer service calls `DimLEDTimer`, which cancels its own
timer, so the `true` it returns re-arms nothing.  Without an armed timer nothing fires. -/
def fireDimTimer (s : State) : State :=
  if 0 < s.dim_timers then DimLEDTimer s else s

/-- What can happen to the device after start-up. -/
inductive Event where
  /-- A call of `Loop` from `main`. -/
  | tick (i : TickInput)
  /-- The pending flash-reset alarm fires. -/
  | flashAlarm
  /-- The armed dim timer fires. -/
  | dimTimer
  /-- The USB stack calls `tud_hid_set_report_cb`. -/
  | hostReport (inst report_id report_type : Nat) (buffer : List Nat) (bufsize : Nat)
  /-- A call of `SetupButton`. -/
  | setup (ButtonNum r g b KeyCode ModifierKeys KeyboardType : Nat)
  /-- A call of `RemoveButtonSetup`. -/
  | remove (ButtonNum : Nat)

/-- The state after one event. -/
def step (e : Event) (s : State) : State :=
  match e with
  | .tick i => Loop i s
  | .flashAlarm => fireFlashAlarm s
  | .dimTimer => fireDimTimer s
  | .hostReport inst report_id report_type buffer bufsize =>
      tud_hid_set_report_cb inst report_id report_type buffer bufsize s
  | .setup ButtonNum r g b KeyCode ModifierKeys KeyboardType =>
      SetupButton ButtonNum r g b KeyCode ModifierKeys KeyboardType s
  | .remove ButtonNum => RemoveButtonSetup ButtonNum s

/-- The state after a sequence of events, oldest first. -/
def run (events : List Event) (s : State) : State :=
  events.foldl (fun st e => step e st) s

/-- The state `main` is in after `InitializeDevice()` on the zero-initialised statics. -/
def booted : State := InitializeDevice State.zero

/-- The state once `Loop` has stored the sampled mask (lines 438 and 442). -/
def sampled (i : TickInput) (s : State) : State :=
  set_last_button_states i.buttons (set_button_states i.buttons s)

/-- How many flash-reset alarms the effects schedule. -/
def alarmsScheduled (effects : List Effect) : Nat :=
  (effects.filter (fun e => e == Effect.add_alarm_in_ms 300)).length

/-- The report `SendKeypress` puts on the wire in state `s`, if any. -/
def sendCalls (ready : Bool) (report_id KeyCode Modifiers : Nat) (s : State) : List Effect :=
  if ready = true ∧ report_id = REPORT_ID_KEYBOARD ∧ s.has_consumer_key = false then
    [Effect.hid_keyboard_report REPORT_ID_KEYBOARD Modifiers [KeyCode, 0, 0, 0, 0, 0]]
  else if ready = true ∧ report_id = REPORT_ID_CONSUMER_CONTROL ∧ s.has_keyboard_key = false then
    [Effect.hid_report REPORT_ID_CONSUMER_CONTROL [KeyCode % 256, KeyCode / 256 % 256]]
  else []

/-- The collaborator calls of lines 478-496 of `Loop` for the decoded key `k`. -/
def feedbackCalls (i : TickInput) (k : Nat) (s : State) : List Effect :=
  if i.ready_press = true then
    (if isLockKey (s.ButtonAssignments k).1 = true then []
     else [Effect.illuminate k 0x20 0x20 0x00]) ++
      sendCalls i.ready_send (s.ButtonAssignments k).2.2 (s.ButtonAssignments k).1
        (s.ButtonAssignments k).2.1 s
  else (List.range 16).map (fun j => Effect.illuminate j 0x20 0x00 0x00)

/-- The collaborator calls of lines 467-504 of `Loop` for the decoded key `k`. -/
def pressCalls (i : TickInput) (k : Nat) (s : State) : List Effect :=
  if (s.ButtonAssignments k).2.2 = REPORT_ID_TINYPICO then
    (List.range 16).map (fun j => Effect.illuminate j 0x00 0x00 0x00) ++
      [Effect.update, Effect.reset_usb_boot]
  else
    feedbackCalls i k s ++ [Effect.update] ++
      (if s.TimerCancelled = true ∧ isLockKey (s.ButtonAssignments k).1 = false then
        [Effect.add_alarm_in_ms 300] else [])

/-- The collaborator calls of lines 451-465 of `Loop`. -/
def rearmCalls (s : State) : List Effect :=
  (if s.LEDDimClock = true then [Effect.cancel_repeating_timer]
   else [Effect.set_brightness MaxBrightness, Effect.update]) ++ [Effect.add_repeating_timer]

/-- At most one flash-reset alarm is outstanding, and one is outstanding exactly when
`TimerCancelled` is false. -/
def flashInv (s : State) : Prop :=
  s.flash_alarms ≤ 1 ∧ (s.flash_alarms = 1 ↔ s.TimerCancelled = false)

/-- The dim state machine: the dim timer is armed at full brightness, or it has fired and the
keypad is dimmed. -/
def dimInv (s : State) : Prop :=
  (s.LEDDimClock = true ∧ s.dim_timers = 1 ∧ s.brightness = MaxBrightness) ∨
  (s.LEDDimClock = false ∧ s.dim_timers = 0 ∧ s.brightness = MinBrightness)

/-- A run for the two-press scenario: keys 0 and 1 are configured as on lines 22 and 23 of
`Main.cpp`; key 0 is pressed, its release report goes out, and key 1 is pressed 20 ms after
key 0, all with the transport ready. -/
def twoPresses : List Event :=
  [ Event.setup 0 0x00 0x00 0x20 HID_KEY_O 3 REPORT_ID_KEYBOARD,
    Event.setup 1 0x00 0x20 0x00 HID_KEY_ARROW_UP 1 REPORT_ID_KEYBOARD,
    Event.tick ⟨10, false, true, 1, true, true⟩,
    Event.tick ⟨20, false, true, 1, true, true⟩,
    Event.tick ⟨30, false, true, 2, true, true⟩ ]

/-- A configuration call that keeps the lock records in step with the action table: the key
index is in 0..15, and a lock key code is given neither to key 0 nor to a key while another
key holds it. -/
def admissible (e : Event) (s : State) : Prop :=
  match e with
  | .setup ButtonNum _ _ _ KeyCode _ _ =>
      ButtonNum < 16 ∧ (isLockKey KeyCode = true →
        ButtonNum ≠ 0 ∧ ∀ j, j < 16 → j ≠ ButtonNum → (s.ButtonAssignments j).1 ≠ KeyCode)
  | .remove ButtonNum => ButtonNum < 16
  | _ => False

instance (e : Event) (s : State) : Decidable (admissible e s) := by
  cases e <;> unfold admissible <;> infer_instance

/-- Every call of the run is admissible in the state it is made in. -/
def admissibleRun : List Event → State → Prop
  | [], _ => True
  | e :: rest, s => admissible e s ∧ admissibleRun rest (step e s)

instance (events : List Event) (s : State) : Decidable (admissibleRun events s) := by
  induction events generalizing s with
  | nil => exact isTrue trivial
  | cons e rest ih =>
    unfold admissibleRun
    exact @instDecidableAnd _ _ _ (ih (step e s))

/-- The lock-record invariant of the specification: a role whose record is unset has no key
holding its key code. -/
def unsetMeansUnused (s : State) : Prop :=
  ∀ role, role < 3 → (s.LockKeysOrigionalColours role).2.2.2 = 0 →
    ∀ j, j < 16 → (s.ButtonAssignments j).1 ≠ lockKeyCode role

/-- At most one key holds the key code of each lock role. -/
def oneKeyPerRole (s : State) : Prop :=
  ∀ role, role < 3 → ∀ j1, j1 < 16 → ∀ j2, j2 < 16 →
    (s.ButtonAssignments j1).1 = lockKeyCode role →
    (s.ButtonAssignments j2).1 = lockKeyCode role → j1 = j2

/-- The poll tick is neither a device-reset press nor a press of a lock key with the
transport not ready at the press check. -/
def ordinaryTick (i : TickInput) (s : State) : Prop :=
  reachesSampling i s → i.buttons ≠ s.last_button_states → 0 < i.buttons →
    (s.ButtonAssignments (bitScan i.buttons 0)).2.2 ≠ REPORT_ID_TINYPICO ∧
    (i.ready_press = false → isLockKey (s.ButtonAssignments (bitScan i.buttons 0)).1 = false)

/-- Every call of `Loop` in the run is an ordinary tick in the state it is made in. -/
def ordinaryRun : List Event → State → Prop
  | [], _ => True
  | Event.tick i :: rest, s => ordinaryTick i s ∧ ordinaryRun rest (step (Event.tick i) s)
  | e :: rest, s => ordinaryRun rest (step e s)

/-- The buffered colours are committed, and while no flash-reset alarm is pending every key
shows the colour of `ColourAssignments`. -/
def restoreInv (s : State) : Prop :=
  (∀ j, j < 16 → s.leds j = s.shown j) ∧
  (s.TimerCancelled = true → ∀ j, j < 16 → s.shown j = s.ColourAssignments j)

/-- The lock bindings track the action table: a record that names a key (key column not 0)
names a key whose descriptor holds the role's lock key code and whose colour row is the
colour saved in the record. -/
def bindingInv (s : State) : Prop :=
  ∀ role, role < 3 → (s.LockKeysOrigionalColours role).2.2.2 ≠ 0 →
    (s.ButtonAssignments (s.LockKeysOrigionalColours role).2.2.2).1 = lockKeyCode role ∧
    s.ColourAssignments (s.LockKeysOrigionalColours role).2.2.2 =
      ((s.LockKeysOrigionalColours role).1, (s.LockKeysOrigionalColours role).2.1,
        (s.LockKeysOrigionalColours role).2.2.1)

/-- A configuration call with a key index in 0..15 that does not give the bound key of a
lock role another key code through `SetupButton`. -/
def keepsBindings (e : Event) (s : State) : Prop :=
  match e with
  | .setup ButtonNum _ _ _ KeyCode _ _ =>
      ButtonNum < 16 ∧ ∀ role, role < 3 →
        boundTo (s.LockKeysOrigionalColours role) ButtonNum → KeyCode = lockKeyCode role
  | .remove ButtonNum => ButtonNum < 16
  | _ => False

instance (e : Event) (s : State) : Decidable (keepsBindings e s) := by
  cases e <;> unfold keepsBindings <;> infer_instance

/-- Every call of the run keeps the bindings in the state it is made in. -/
def keepsBindingsRun : List Event → State → Prop
  | [], _ => True
  | e :: rest, s => keepsBindings e s ∧ keepsBindingsRun rest (step e s)

instance (events : List Event) (s : State) : Decidable (keepsBindingsRun events s) := by
  induction events generalizing s with
  | nil => exact isTrue trivial
  | cons e rest ih =>
    unfold keepsBindingsRun
    exact @instDecidableAnd _ _ _ (ih (step e s))

/-- Lines 451-465 of `Loop` when an interrupt is taken between the test of `LEDDimClock` on
line 453 and the branch the test selects: `interrupt` is what runs in between.  The timer
callbacks run in interrupt context and `Loop` does not mask interrupts. -/
def rearmDimTimerInterrupted (interrupt : State → State) (s : State) : State :=
  set_LEDDimClock true (add_repeating_timer_ms
    (if s.LEDDimClock = true then set_LEDDimClock false (cancel_repeating_timer (interrupt s))
     else update (set_brightness MaxBrightness (interrupt s))))

/-- Lines 438-506 of `Loop` with an interrupt taken after the test on line 453. -/
def sampleButtonsInterrupted (interrupt : State → State) (i : TickInput) (s : State) : State :=
  let s := set_button_states i.buttons s
  if s.last_button_states ≠ s.button_states then
    let s := set_last_button_states s.button_states s
    if s.button_states > 0 then
      pressAction i (bitScan s.button_states 0) (rearmDimTimerInterrupted interrupt s)
    else s
  else s

/-- One poll tick (lines 410-507 of `Loop`) with an interrupt taken after the test on
line 453, if the tick gets there. -/
def pollTickInterrupted (interrupt : State → State) (i : TickInput) (s : State) : State :=
  if i.suspended then tud_remote_wakeup s
  else if i.ready_release && s.has_keyboard_key then
    set_has_keyboard_key false (tud_hid_keyboard_report REPORT_ID_KEYBOARD 0 none s)
  else if i.ready_release && s.has_consumer_key then
    set_has_consumer_key false (tud_hid_report REPORT_ID_CONSUMER_CONTROL 0 s)
  else sampleButtonsInterrupted interrupt i s

/-! ## Key decode -/

theorem bitScan_spec (n : Nat) : ∀ number a, number < 2 ^ n → number ≠ 0 → a + n ≤ 256 →
    bitScan number a = a + Nat.log2 number := by
  induction n with
  | zero => intro number a h h0; omega
  | succ n ih =>
    intro number a h h0 ha
    rw [bitScan]
    by_cases h1 : number >>> 1 ≠ 0
    · rw [if_pos h1]
      have hs : number >>> 1 = number / 2 := by simp [Nat.shiftRight_eq_div_pow]
      rw [hs] at h1 ⊢
      have hlt : number / 2 < 2 ^ n := by
        rw [Nat.div_lt_iff_lt_mul (by decide)]; rw [pow_succ] at h; exact h
      have hn : 0 < n := by
        rcases Nat.eq_zero_or_pos n with h | h
        · subst h; omega
        · exact h
      have hmod : (a + 1) % 256 = a + 1 := Nat.mod_eq_of_lt (by omega)
      rw [hmod, ih (number / 2) (a + 1) hlt h1 (by omega)]
      have h2 : number ≥ 2 := by omega
      conv_rhs => rw [Nat.log2]
      rw [if_pos h2]; omega
    · rw [if_neg h1]
      have hs : number >>> 1 = number / 2 := by simp [Nat.shiftRight_eq_div_pow]
      rw [hs] at h1
      have h2 : ¬ number ≥ 2 := by omega
      rw [Nat.log2, if_neg h2]; rfl

theorem bitScan_eq_log2 (B : Nat) (h0 : B ≠ 0) (h16 : B < 2 ^ 16) :
    bitScan B 0 = Nat.log2 B := by
  have h := bitScan_spec 16 B 0 h16 h0 (by decide)
  simpa using h

/-- C1. For every nonzero 16-bit button mask `B` the bit-scan loop of `Loop` returns the
position of the highest set bit of `B`: it equals `log2 B`, bit `k` of `B` is set and no
higher bit is, `2 ^ k ≤ B < 2 ^ (k + 1)`, the index lies in `0..15`, and any mask with the
same highest bit and other lower bits decodes to the same index. -/
theorem C1_bitScan_highest_bit (B : Nat) (h0 : B ≠ 0) (h16 : B < 2 ^ 16) :
    bitScan B 0 = Nat.log2 B ∧
    bitScan B 0 ≤ 15 ∧
    2 ^ bitScan B 0 ≤ B ∧ B < 2 ^ (bitScan B 0 + 1) ∧
    B.testBit (bitScan B 0) = true ∧
    (∀ j, bitScan B 0 < j → B.testBit j = false) ∧
    (∀ low, low < 2 ^ bitScan B 0 → bitScan (2 ^ bitScan B 0 + low) 0 = bitScan B 0) := by
  have hk := bitScan_eq_log2 B h0 h16
  have hle : 2 ^ Nat.log2 B ≤ B := Nat.log2_self_le h0
  have hlt : B < 2 ^ (Nat.log2 B + 1) := Nat.lt_log2_self
  have h15 : Nat.log2 B < 16 := (Nat.log2_lt h0).2 h16
  rw [hk]
  have hlog : ∀ m, m ≠ 0 → m < 2 ^ 16 → bitScan m 0 = Nat.log2 m := bitScan_eq_log2
  have hlog2 : ∀ m k, m ≠ 0 → (Nat.log2 m < k ↔ m < 2 ^ k) := fun m k h => Nat.log2_lt h
  generalize Nat.log2 B = k at *
  refine ⟨rfl, by omega, hle, hlt, ?_, ?_, ?_⟩
  · obtain ⟨low, hlow⟩ := Nat.exists_eq_add_of_le hle
    have hl : low < 2 ^ k := by rw [pow_succ] at hlt; omega
    rw [hlow, Nat.testBit_two_pow_add_eq, Nat.testBit_lt_two_pow hl]; rfl
  · intro j hj
    apply Nat.testBit_lt_two_pow
    exact lt_of_lt_of_le hlt (Nat.pow_le_pow_right (by decide) hj)
  · intro low hl
    have hpos : 0 < 2 ^ k := Nat.two_pow_pos k
    have hne : 2 ^ k + low ≠ 0 := by omega
    have hlt2 : 2 ^ k + low < 2 ^ (k + 1) := by rw [pow_succ]; omega
    have hb : 2 ^ k + low < 2 ^ 16 :=
      lt_of_lt_of_le hlt2 (Nat.pow_le_pow_right (by decide) h15)
    rw [hlog _ hne hb]
    have h1 : Nat.log2 (2 ^ k + low) < k + 1 := (hlog2 _ _ hne).2 hlt2
    have h2 : ¬ Nat.log2 (2 ^ k + low) < k := by
      rw [hlog2 _ _ hne]; omega
    omega

/-- C1 at the two masks named by the specification: `0b100000` decodes to 5 and `0b11`
decodes to 1. -/
theorem C1_bitScan_highest_bit_witness :
    (bitScan 0b100000 0 = 5 ∧ bitScan 0b100000 0 ≤ 15) ∧
    (bitScan 0b11 0 = 1 ∧ (0b11).testBit (bitScan 0b11 0) = true) := by
  have a := C1_bitScan_highest_bit 0b100000 (by decide) (by decide)
  have b := C1_bitScan_highest_bit 0b11 (by decide) (by decide)
  refine ⟨⟨?_, a.2.1⟩, ?_, b.2.2.2.2.1⟩
  · have h1 := a.2.2.1
    have h2 := a.2.2.2.1
    have h3 : ¬ bitScan 0b100000 0 < 5 := fun h =>
      absurd (lt_of_lt_of_le h2 (Nat.pow_le_pow_right (by decide) h)) (by decide)
    have h4 : ¬ 6 ≤ bitScan 0b100000 0 := fun h =>
      absurd (le_trans (Nat.pow_le_pow_right (by decide) h) h1) (by decide)
    omega
  · have h1 := b.2.2.1
    have h2 := b.2.2.2.1
    have h3 : ¬ bitScan 0b11 0 < 1 := fun h =>
      absurd (lt_of_lt_of_le h2 (Nat.pow_le_pow_right (by decide) h)) (by decide)
    have h4 : ¬ 2 ≤ bitScan 0b11 0 := fun h =>
      absurd (le_trans (Nat.pow_le_pow_right (by decide) h) h1) (by decide)
    omega

/-! ## What each assignment and collaborator call changes, field by field -/

@[simp]
theorem set_ButtonAssignments_fields (k : Nat) (row : Assignment) (s : State) :
    (set_ButtonAssignments k row s).ButtonAssignments = Function.update s.ButtonAssignments k row ∧
    (set_ButtonAssignments k row s).ColourAssignments = s.ColourAssignments ∧
    (set_ButtonAssignments k row s).LockKeysOrigionalColours = s.LockKeysOrigionalColours ∧
    (set_ButtonAssignments k row s).button_states = s.button_states ∧
    (set_ButtonAssignments k row s).last_button_states = s.last_button_states ∧
    (set_ButtonAssignments k row s).has_keyboard_key = s.has_keyboard_key ∧
    (set_ButtonAssignments k row s).has_consumer_key = s.has_consumer_key ∧
    (set_ButtonAssignments k row s).TimerCancelled = s.TimerCancelled ∧
    (set_ButtonAssignments k row s).LEDDimClock = s.LEDDimClock ∧
    (set_ButtonAssignments k row s).start_ms = s.start_ms ∧
    (set_ButtonAssignments k row s).leds = s.leds ∧
    (set_ButtonAssignments k row s).shown = s.shown ∧
    (set_ButtonAssignments k row s).brightness = s.brightness ∧
    (set_ButtonAssignments k row s).dim_timers = s.dim_timers ∧
    (set_ButtonAssignments k row s).flash_alarms = s.flash_alarms ∧
    (set_ButtonAssignments k row s).in_bootloader = s.in_bootloader ∧
    (set_ButtonAssignments k row s).trace = s.trace := by
  simp [set_ButtonAssignments]

@[simp]
theorem set_ColourAssignments_fields (k : Nat) (row : Colour) (s : State) :
    (set_ColourAssignments k row s).ButtonAssignments = s.ButtonAssignments ∧
    (set_ColourAssignments k row s).ColourAssignments = Function.update s.ColourAssignments k row ∧
    (set_ColourAssignments k row s).LockKeysOrigionalColours = s.LockKeysOrigionalColours ∧
    (set_ColourAssignments k row s).button_states = s.button_states ∧
    (set_ColourAssignments k row s).last_button_states = s.last_button_states ∧
    (set_ColourAssignments k row s).has_keyboard_key = s.has_keyboard_key ∧
    (set_ColourAssignments k row s).has_consumer_key = s.has_consumer_key ∧
    (set_ColourAssignments k row s).TimerCancelled = s.TimerCancelled ∧
    (set_ColourAssignments k row s).LEDDimClock = s.LEDDimClock ∧
    (set_ColourAssignments k row s).start_ms = s.start_ms ∧
    (set_ColourAssignments k row s).leds = s.leds ∧
    (set_ColourAssignments k row s).shown = s.shown ∧
    (set_ColourAssignments k row s).brightness = s.brightness ∧
    (set_ColourAssignments k row s).dim_timers = s.dim_timers ∧
    (set_ColourAssignments k row s).flash_alarms = s.flash_alarms ∧
    (set_ColourAssignments k row s).in_bootloader = s.in_bootloader ∧
    (set_ColourAssignments k row s).trace = s.trace := by
  simp [set_ColourAssignments]

@[simp]
theorem set_LockKeysOrigionalColours_fields (k : Nat) (row : LockRecord) (s : State) :
    (set_LockKeysOrigionalColours k row s).ButtonAssignments = s.ButtonAssignments ∧
    (set_LockKeysOrigionalColours k row s).ColourAssignments = s.ColourAssignments ∧
    (set_LockKeysOrigionalColours k row s).LockKeysOrigionalColours = Function.update s.LockKeysOrigionalColours k row ∧
    (set_LockKeysOrigionalColours k row s).button_states = s.button_states ∧
    (set_LockKeysOrigionalColours k row s).last_button_states = s.last_button_states ∧
    (set_LockKeysOrigionalColours k row s).has_keyboard_key = s.has_keyboard_key ∧
    (set_LockKeysOrigionalColours k row s).has_consumer_key = s.has_consumer_key ∧
    (set_LockKeysOrigionalColours k row s).TimerCancelled = s.TimerCancelled ∧
    (set_LockKeysOrigionalColours k row s).LEDDimClock = s.LEDDimClock ∧
    (set_LockKeysOrigionalColours k row s).start_ms = s.start_ms ∧
    (set_LockKeysOrigionalColours k row s).leds = s.leds ∧
    (set_LockKeysOrigionalColours k row s).shown = s.shown ∧
    (set_LockKeysOrigionalColours k row s).brightness = s.brightness ∧
    (set_LockKeysOrigionalColours k row s).dim_timers = s.dim_timers ∧
    (set_LockKeysOrigionalColours k row s).flash_alarms = s.flash_alarms ∧
    (set_LockKeysOrigionalColours k row s).in_bootloader = s.in_bootloader ∧
    (set_LockKeysOrigionalColours k row s).trace = s.trace := by
  simp [set_LockKeysOrigionalColours]

@[simp]
theorem set_button_states_fields (v : Nat) (s : State) :
    (set_button_states v s).ButtonAssignments = s.ButtonAssignments ∧
    (set_button_states v s).ColourAssignments = s.ColourAssignments ∧
    (set_button_states v s).LockKeysOrigionalColours = s.LockKeysOrigionalColours ∧
    (set_button_states v s).button_states = v ∧
    (set_button_states v s).last_button_states = s.last_button_states ∧
    (set_button_states v s).has_keyboard_key = s.has_keyboard_key ∧
    (set_button_states v s).has_consumer_key = s.has_consumer_key ∧
    (set_button_states v s).TimerCancelled = s.TimerCancelled ∧
    (set_button_states v s).LEDDimClock = s.LEDDimClock ∧
    (set_button_states v s).start_ms = s.start_ms ∧
    (set_button_states v s).leds = s.leds ∧
    (set_button_states v s).shown = s.shown ∧
    (set_button_states v s).brightness = s.brightness ∧
    (set_button_states v s).dim_timers = s.dim_timers ∧
    (set_button_states v s).flash_alarms = s.flash_alarms ∧
    (set_button_states v s).in_bootloader = s.in_bootloader ∧
    (set_button_states v s).trace = s.trace := by
  simp [set_button_states]

@[simp]
theorem set_last_button_states_fields (v : Nat) (s : State) :
    (set_last_button_states v s).ButtonAssignments = s.ButtonAssignments ∧
    (set_last_button_states v s).ColourAssignments = s.ColourAssignments ∧
    (set_last_button_states v s).LockKeysOrigionalColours = s.LockKeysOrigionalColours ∧
    (set_last_button_states v s).button_states = s.button_states ∧
    (set_last_button_states v s).last_button_states = v ∧
    (set_last_button_states v s).has_keyboard_key = s.has_keyboard_key ∧
    (set_last_button_states v s).has_consumer_key = s.has_consumer_key ∧
    (set_last_button_states v s).TimerCancelled = s.TimerCancelled ∧
    (set_last_button_states v s).LEDDimClock = s.LEDDimClock ∧
    (set_last_button_states v s).start_ms = s.start_ms ∧
    (set_last_button_states v s).leds = s.leds ∧
    (set_last_button_states v s).shown = s.shown ∧
    (set_last_button_states v s).brightness = s.brightness ∧
    (set_last_button_states v s).dim_timers = s.dim_timers ∧
    (set_last_button_states v s).flash_alarms = s.flash_alarms ∧
    (set_last_button_states v s).in_bootloader = s.in_bootloader ∧
    (set_last_button_states v s).trace = s.trace := by
  simp [set_last_button_states]

@[simp]
theorem set_has_keyboard_key_fields (v : Bool) (s : State) :
    (set_has_keyboard_key v s).ButtonAssignments = s.ButtonAssignments ∧
    (set_has_keyboard_key v s).ColourAssignments = s.ColourAssignments ∧
    (set_has_keyboard_key v s).LockKeysOrigionalColours = s.LockKeysOrigionalColours ∧
    (set_has_keyboard_key v s).button_states = s.button_states ∧
    (set_has_keyboard_key v s).last_button_states = s.last_button_states ∧
    (set_has_keyboard_key v s).has_keyboard_key = v ∧
    (set_has_keyboard_key v s).has_consumer_key = s.has_consumer_key ∧
    (set_has_keyboard_key v s).TimerCancelled = s.TimerCancelled ∧
    (set_has_keyboard_key v s).LEDDimClock = s.LEDDimClock ∧
    (set_has_keyboard_key v s).start_ms = s.start_ms ∧
    (set_has_keyboard_key v s).leds = s.leds ∧
    (set_has_keyboard_key v s).shown = s.shown ∧
    (set_has_keyboard_key v s).brightness = s.brightness ∧
    (set_has_keyboard_key v s).dim_timers = s.dim_timers ∧
    (set_has_keyboard_key v s).flash_alarms = s.flash_alarms ∧
    (set_has_keyboard_key v s).in_bootloader = s.in_bootloader ∧
    (set_has_keyboard_key v s).trace = s.trace := by
  simp [set_has_keyboard_key]

@[simp]
theorem set_has_consumer_key_fields (v : Bool) (s : State) :
    (set_has_consumer_key v s).ButtonAssignments = s.ButtonAssignments ∧
    (set_has_consumer_key v s).ColourAssignments = s.ColourAssignments ∧
    (set_has_consumer_key v s).LockKeysOrigionalColours = s.LockKeysOrigionalColours ∧
    (set_has_consumer_key v s).button_states = s.button_states ∧
    (set_has_consumer_key v s).last_button_states = s.last_button_states ∧
    (set_has_consumer_key v s).has_keyboard_key = s.has_keyboard_key ∧
    (set_has_consumer_key v s).has_consumer_key = v ∧
    (set_has_consumer_key v s).TimerCancelled = s.TimerCancelled ∧
    (set_has_consumer_key v s).LEDDimClock = s.LEDDimClock ∧
    (set_has_consumer_key v s).start_ms = s.start_ms ∧
    (set_has_consumer_key v s).leds = s.leds ∧
    (set_has_consumer_key v s).shown = s.shown ∧
    (set_has_consumer_key v s).brightness = s.brightness ∧
    (set_has_consumer_key v s).dim_timers = s.dim_timers ∧
    (set_has_consumer_key v s).flash_alarms = s.flash_alarms ∧
    (set_has_consumer_key v s).in_bootloader = s.in_bootloader ∧
    (set_has_consumer_key v s).trace = s.trace := by
  simp [set_has_consumer_key]

@[simp]
theorem set_TimerCancelled_fields (v : Bool) (s : State) :
    (set_TimerCancelled v s).ButtonAssignments = s.ButtonAssignments ∧
    (set_TimerCancelled v s).ColourAssignments = s.ColourAssignments ∧
    (set_TimerCancelled v s).LockKeysOrigionalColours = s.LockKeysOrigionalColours ∧
    (set_TimerCancelled v s).button_states = s.button_states ∧
    (set_TimerCancelled v s).last_button_states = s.last_button_states ∧
    (set_TimerCancelled v s).has_keyboard_key = s.has_keyboard_key ∧
    (set_TimerCancelled v s).has_consumer_key = s.has_consumer_key ∧
    (set_TimerCancelled v s).TimerCancelled = v ∧
    (set_TimerCancelled v s).LEDDimClock = s.LEDDimClock ∧
    (set_TimerCancelled v s).start_ms = s.start_ms ∧
    (set_TimerCancelled v s).leds = s.leds ∧
    (set_TimerCancelled v s).shown = s.shown ∧
    (set_TimerCancelled v s).brightness = s.brightness ∧
    (set_TimerCancelled v s).dim_timers = s.dim_timers ∧
    (set_TimerCancelled v s).flash_alarms = s.flash_alarms ∧
    (set_TimerCancelled v s).in_bootloader = s.in_bootloader ∧
    (set_TimerCancelled v s).trace = s.trace := by
  simp [set_TimerCancelled]

@[simp]
theorem set_LEDDimClock_fields (v : Bool) (s : State) :
    (set_LEDDimClock v s).ButtonAssignments = s.ButtonAssignments ∧
    (set_LEDDimClock v s).ColourAssignments = s.ColourAssignments ∧
    (set_LEDDimClock v s).LockKeysOrigionalColours = s.LockKeysOrigionalColours ∧
    (set_LEDDimClock v s).button_states = s.button_states ∧
    (set_LEDDimClock v s).last_button_states = s.last_button_states ∧
    (set_LEDDimClock v s).has_keyboard_key = s.has_keyboard_key ∧
    (set_LEDDimClock v s).has_consumer_key = s.has_consumer_key ∧
    (set_LEDDimClock v s).TimerCancelled = s.TimerCancelled ∧
    (set_LEDDimClock v s).LEDDimClock = v ∧
    (set_LEDDimClock v s).start_ms = s.start_ms ∧
    (set_LEDDimClock v s).leds = s.leds ∧
    (set_LEDDimClock v s).shown = s.shown ∧
    (set_LEDDimClock v s).brightness = s.brightness ∧
    (set_LEDDimClock v s).dim_timers = s.dim_timers ∧
    (set_LEDDimClock v s).flash_alarms = s.flash_alarms ∧
    (set_LEDDimClock v s).in_bootloader = s.in_bootloader ∧
    (set_LEDDimClock v s).trace = s.trace := by
  simp [set_LEDDimClock]

@[simp]
theorem set_start_ms_fields (v : Nat) (s : State) :
    (set_start_ms v s).ButtonAssignments = s.ButtonAssignments ∧
    (set_start_ms v s).ColourAssignments = s.ColourAssignments ∧
    (set_start_ms v s).LockKeysOrigionalColours = s.LockKeysOrigionalColours ∧
    (set_start_ms v s).button_states = s.button_states ∧
    (set_start_ms v s).last_button_states = s.last_button_states ∧
    (set_start_ms v s).has_keyboard_key = s.has_keyboard_key ∧
    (set_start_ms v s).has_consumer_key = s.has_consumer_key ∧
    (set_start_ms v s).TimerCancelled = s.TimerCancelled ∧
    (set_start_ms v s).LEDDimClock = s.LEDDimClock ∧
    (set_start_ms v s).start_ms = v ∧
    (set_start_ms v s).leds = s.leds ∧
    (set_start_ms v s).shown = s.shown ∧
    (set_start_ms v s).brightness = s.brightness ∧
    (set_start_ms v s).dim_timers = s.dim_timers ∧
    (set_start_ms v s).flash_alarms = s.flash_alarms ∧
    (set_start_ms v s).in_bootloader = s.in_bootloader ∧
    (set_start_ms v s).trace = s.trace := by
  simp [set_start_ms]

@[simp]
theorem illuminate_fields (i r g b : Nat) (s : State) :
    (illuminate i r g b s).ButtonAssignments = s.ButtonAssignments ∧
    (illuminate i r g b s).ColourAssignments = s.ColourAssignments ∧
    (illuminate i r g b s).LockKeysOrigionalColours = s.LockKeysOrigionalColours ∧
    (illuminate i r g b s).button_states = s.button_states ∧
    (illuminate i r g b s).last_button_states = s.last_button_states ∧
    (illuminate i r g b s).has_keyboard_key = s.has_keyboard_key ∧
    (illuminate i r g b s).has_consumer_key = s.has_consumer_key ∧
    (illuminate i r g b s).TimerCancelled = s.TimerCancelled ∧
    (illuminate i r g b s).LEDDimClock = s.LEDDimClock ∧
    (illuminate i r g b s).start_ms = s.start_ms ∧
    (illuminate i r g b s).leds = Function.update s.leds i (r, g, b) ∧
    (illuminate i r g b s).shown = s.shown ∧
    (illuminate i r g b s).brightness = s.brightness ∧
    (illuminate i r g b s).dim_timers = s.dim_timers ∧
    (illuminate i r g b s).flash_alarms = s.flash_alarms ∧
    (illuminate i r g b s).in_bootloader = s.in_bootloader ∧
    (illuminate i r g b s).trace = s.trace ++ [Effect.illuminate i r g b] := by
  simp [illuminate]

@[simp]
theorem update_fields (s : State) :
    (update s).ButtonAssignments = s.ButtonAssignments ∧
    (update s).ColourAssignments = s.ColourAssignments ∧
    (update s).LockKeysOrigionalColours = s.LockKeysOrigionalColours ∧
    (update s).button_states = s.button_states ∧
    (update s).last_button_states = s.last_button_states ∧
    (update s).has_keyboard_key = s.has_keyboard_key ∧
    (update s).has_consumer_key = s.has_consumer_key ∧
    (update s).TimerCancelled = s.TimerCancelled ∧
    (update s).LEDDimClock = s.LEDDimClock ∧
    (update s).start_ms = s.start_ms ∧
    (update s).leds = s.leds ∧
    (update s).shown = s.leds ∧
    (update s).brightness = s.brightness ∧
    (update s).dim_timers = s.dim_timers ∧
    (update s).flash_alarms = s.flash_alarms ∧
    (update s).in_bootloader = s.in_bootloader ∧
    (update s).trace = s.trace ++ [Effect.update] := by
  simp [update]

@[simp]
theorem set_brightness_fields (v : Nat) (s : State) :
    (set_brightness v s).ButtonAssignments = s.ButtonAssignments ∧
    (set_brightness v s).ColourAssignments = s.ColourAssignments ∧
    (set_brightness v s).LockKeysOrigionalColours = s.LockKeysOrigionalColours ∧
    (set_brightness v s).button_states = s.button_states ∧
    (set_brightness v s).last_button_states = s.last_button_states ∧
    (set_brightness v s).has_keyboard_key = s.has_keyboard_key ∧
    (set_brightness v s).has_consumer_key = s.has_consumer_key ∧
    (set_brightness v s).TimerCancelled = s.TimerCancelled ∧
    (set_brightness v s).LEDDimClock = s.LEDDimClock ∧
    (set_brightness v s).start_ms = s.start_ms ∧
    (set_brightness v s).leds = s.leds ∧
    (set_brightness v s).shown = s.shown ∧
    (set_brightness v s).brightness = v ∧
    (set_brightness v s).dim_timers = s.dim_timers ∧
    (set_brightness v s).flash_alarms = s.flash_alarms ∧
    (set_brightness v s).in_bootloader = s.in_bootloader ∧
    (set_brightness v s).trace = s.trace ++ [Effect.set_brightness v] := by
  simp [set_brightness]

@[simp]
theorem keypad_init_fields (s : State) :
    (keypad_init s).ButtonAssignments = s.ButtonAssignments ∧
    (keypad_init s).ColourAssignments = s.ColourAssignments ∧
    (keypad_init s).LockKeysOrigionalColours = s.LockKeysOrigionalColours ∧
    (keypad_init s).button_states = s.button_states ∧
    (keypad_init s).last_button_states = s.last_button_states ∧
    (keypad_init s).has_keyboard_key = s.has_keyboard_key ∧
    (keypad_init s).has_consumer_key = s.has_consumer_key ∧
    (keypad_init s).TimerCancelled = s.TimerCancelled ∧
    (keypad_init s).LEDDimClock = s.LEDDimClock ∧
    (keypad_init s).start_ms = s.start_ms ∧
    (keypad_init s).leds = s.leds ∧
    (keypad_init s).shown = s.shown ∧
    (keypad_init s).brightness = s.brightness ∧
    (keypad_init s).dim_timers = s.dim_timers ∧
    (keypad_init s).flash_alarms = s.flash_alarms ∧
    (keypad_init s).in_bootloader = s.in_bootloader ∧
    (keypad_init s).trace = s.trace ++ [Effect.keypad_init] := by
  simp [keypad_init]

@[simp]
theorem tud_hid_keyboard_report_fields (report_id modifier : Nat) (keycode : Option (List Nat)) (s : State) :
    (tud_hid_keyboard_report report_id modifier keycode s).ButtonAssignments = s.ButtonAssignments ∧
    (tud_hid_keyboard_report report_id modifier keycode s).ColourAssignments = s.ColourAssignments ∧
    (tud_hid_keyboard_report report_id modifier keycode s).LockKeysOrigionalColours = s.LockKeysOrigionalColours ∧
    (tud_hid_keyboard_report report_id modifier keycode s).button_states = s.button_states ∧
    (tud_hid_keyboard_report report_id modifier keycode s).last_button_states = s.last_button_states ∧
    (tud_hid_keyboard_report report_id modifier keycode s).has_keyboard_key = s.has_keyboard_key ∧
    (tud_hid_keyboard_report report_id modifier keycode s).has_consumer_key = s.has_consumer_key ∧
    (tud_hid_keyboard_report report_id modifier keycode s).TimerCancelled = s.TimerCancelled ∧
    (tud_hid_keyboard_report report_id modifier keycode s).LEDDimClock = s.LEDDimClock ∧
    (tud_hid_keyboard_report report_id modifier keycode s).start_ms = s.start_ms ∧
    (tud_hid_keyboard_report report_id modifier keycode s).leds = s.leds ∧
    (tud_hid_keyboard_report report_id modifier keycode s).shown = s.shown ∧
    (tud_hid_keyboard_report report_id modifier keycode s).brightness = s.brightness ∧
    (tud_hid_keyboard_report report_id modifier keycode s).dim_timers = s.dim_timers ∧
    (tud_hid_keyboard_report report_id modifier keycode s).flash_alarms = s.flash_alarms ∧
    (tud_hid_keyboard_report report_id modifier keycode s).in_bootloader = s.in_bootloader ∧
    (tud_hid_keyboard_report report_id modifier keycode s).trace = s.trace ++ [Effect.hid_keyboard_report report_id modifier (keycode.getD [0, 0, 0, 0, 0, 0])] := by
  simp [tud_hid_keyboard_report]

@[simp]
theorem tud_hid_report_fields (report_id value : Nat) (s : State) :
    (tud_hid_report report_id value s).ButtonAssignments = s.ButtonAssignments ∧
    (tud_hid_report report_id value s).ColourAssignments = s.ColourAssignments ∧
    (tud_hid_report report_id value s).LockKeysOrigionalColours = s.LockKeysOrigionalColours ∧
    (tud_hid_report report_id value s).button_states = s.button_states ∧
    (tud_hid_report report_id value s).last_button_states = s.last_button_states ∧
    (tud_hid_report report_id value s).has_keyboard_key = s.has_keyboard_key ∧
    (tud_hid_report report_id value s).has_consumer_key = s.has_consumer_key ∧
    (tud_hid_report report_id value s).TimerCancelled = s.TimerCancelled ∧
    (tud_hid_report report_id value s).LEDDimClock = s.LEDDimClock ∧
    (tud_hid_report report_id value s).start_ms = s.start_ms ∧
    (tud_hid_report report_id value s).leds = s.leds ∧
    (tud_hid_report report_id value s).shown = s.shown ∧
    (tud_hid_report report_id value s).brightness = s.brightness ∧
    (tud_hid_report report_id value s).dim_timers = s.dim_timers ∧
    (tud_hid_report report_id value s).flash_alarms = s.flash_alarms ∧
    (tud_hid_report report_id value s).in_bootloader = s.in_bootloader ∧
    (tud_hid_report report_id value s).trace = s.trace ++ [Effect.hid_report report_id [value % 256, value / 256 % 256]] := by
  simp [tud_hid_report]

@[simp]
theorem tud_remote_wakeup_fields (s : State) :
    (tud_remote_wakeup s).ButtonAssignments = s.ButtonAssignments ∧
    (tud_remote_wakeup s).ColourAssignments = s.ColourAssignments ∧
    (tud_remote_wakeup s).LockKeysOrigionalColours = s.LockKeysOrigionalColours ∧
    (tud_remote_wakeup s).button_states = s.button_states ∧
    (tud_remote_wakeup s).last_button_states = s.last_button_states ∧
    (tud_remote_wakeup s).has_keyboard_key = s.has_keyboard_key ∧
    (tud_remote_wakeup s).has_consumer_key = s.has_consumer_key ∧
    (tud_remote_wakeup s).TimerCancelled = s.TimerCancelled ∧
    (tud_remote_wakeup s).LEDDimClock = s.LEDDimClock ∧
    (tud_remote_wakeup s).start_ms = s.start_ms ∧
    (tud_remote_wakeup s).leds = s.leds ∧
    (tud_remote_wakeup s).shown = s.shown ∧
    (tud_remote_wakeup s).brightness = s.brightness ∧
    (tud_remote_wakeup s).dim_timers = s.dim_timers ∧
    (tud_remote_wakeup s).flash_alarms = s.flash_alarms ∧
    (tud_remote_wakeup s).in_bootloader = s.in_bootloader ∧
    (tud_remote_wakeup s).trace = s.trace ++ [Effect.remote_wakeup] := by
  simp [tud_remote_wakeup]

@[simp]
theorem add_repeating_timer_ms_fields (s : State) :
    (add_repeating_timer_ms s).ButtonAssignments = s.ButtonAssignments ∧
    (add_repeating_timer_ms s).ColourAssignments = s.ColourAssignments ∧
    (add_repeating_timer_ms s).LockKeysOrigionalColours = s.LockKeysOrigionalColours ∧
    (add_repeating_timer_ms s).button_states = s.button_states ∧
    (add_repeating_timer_ms s).last_button_states = s.last_button_states ∧
    (add_repeating_timer_ms s).has_keyboard_key = s.has_keyboard_key ∧
    (add_repeating_timer_ms s).has_consumer_key = s.has_consumer_key ∧
    (add_repeating_timer_ms s).TimerCancelled = s.TimerCancelled ∧
    (add_repeating_timer_ms s).LEDDimClock = s.LEDDimClock ∧
    (add_repeating_timer_ms s).start_ms = s.start_ms ∧
    (add_repeating_timer_ms s).leds = s.leds ∧
    (add_repeating_timer_ms s).shown = s.shown ∧
    (add_repeating_timer_ms s).brightness = s.brightness ∧
    (add_repeating_timer_ms s).dim_timers = s.dim_timers + 1 ∧
    (add_repeating_timer_ms s).flash_alarms = s.flash_alarms ∧
    (add_repeating_timer_ms s).in_bootloader = s.in_bootloader ∧
    (add_repeating_timer_ms s).trace = s.trace ++ [Effect.add_repeating_timer] := by
  simp [add_repeating_timer_ms]

@[simp]
theorem cancel_repeating_timer_fields (s : State) :
    (cancel_repeating_timer s).ButtonAssignments = s.ButtonAssignments ∧
    (cancel_repeating_timer s).ColourAssignments = s.ColourAssignments ∧
    (cancel_repeating_timer s).LockKeysOrigionalColours = s.LockKeysOrigionalColours ∧
    (cancel_repeating_timer s).button_states = s.button_states ∧
    (cancel_repeating_timer s).last_button_states = s.last_button_states ∧
    (cancel_repeating_timer s).has_keyboard_key = s.has_keyboard_key ∧
    (cancel_repeating_timer s).has_consumer_key = s.has_consumer_key ∧
    (cancel_repeating_timer s).TimerCancelled = s.TimerCancelled ∧
    (cancel_repeating_timer s).LEDDimClock = s.LEDDimClock ∧
    (cancel_repeating_timer s).start_ms = s.start_ms ∧
    (cancel_repeating_timer s).leds = s.leds ∧
    (cancel_repeating_timer s).shown = s.shown ∧
    (cancel_repeating_timer s).brightness = s.brightness ∧
    (cancel_repeating_timer s).dim_timers = s.dim_timers - 1 ∧
    (cancel_repeating_timer s).flash_alarms = s.flash_alarms ∧
    (cancel_repeating_timer s).in_bootloader = s.in_bootloader ∧
    (cancel_repeating_timer s).trace = s.trace ++ [Effect.cancel_repeating_timer] := by
  simp [cancel_repeating_timer]

@[simp]
theorem add_alarm_in_ms_fields (ms : Nat) (s : State) :
    (add_alarm_in_ms ms s).ButtonAssignments = s.ButtonAssignments ∧
    (add_alarm_in_ms ms s).ColourAssignments = s.ColourAssignments ∧
    (add_alarm_in_ms ms s).LockKeysOrigionalColours = s.LockKeysOrigionalColours ∧
    (add_alarm_in_ms ms s).button_states = s.button_states ∧
    (add_alarm_in_ms ms s).last_button_states = s.last_button_states ∧
    (add_alarm_in_ms ms s).has_keyboard_key = s.has_keyboard_key ∧
    (add_alarm_in_ms ms s).has_consumer_key = s.has_consumer_key ∧
    (add_alarm_in_ms ms s).TimerCancelled = s.TimerCancelled ∧
    (add_alarm_in_ms ms s).LEDDimClock = s.LEDDimClock ∧
    (add_alarm_in_ms ms s).start_ms = s.start_ms ∧
    (add_alarm_in_ms ms s).leds = s.leds ∧
    (add_alarm_in_ms ms s).shown = s.shown ∧
    (add_alarm_in_ms ms s).brightness = s.brightness ∧
    (add_alarm_in_ms ms s).dim_timers = s.dim_timers ∧
    (add_alarm_in_ms ms s).flash_alarms = s.flash_alarms + 1 ∧
    (add_alarm_in_ms ms s).in_bootloader = s.in_bootloader ∧
    (add_alarm_in_ms ms s).trace = s.trace ++ [Effect.add_alarm_in_ms ms] := by
  simp [add_alarm_in_ms]

@[simp]
theorem reset_usb_boot_fields (s : State) :
    (reset_usb_boot s).ButtonAssignments = s.ButtonAssignments ∧
    (reset_usb_boot s).ColourAssignments = s.ColourAssignments ∧
    (reset_usb_boot s).LockKeysOrigionalColours = s.LockKeysOrigionalColours ∧
    (reset_usb_boot s).button_states = s.button_states ∧
    (reset_usb_boot s).last_button_states = s.last_button_states ∧
    (reset_usb_boot s).has_keyboard_key = s.has_keyboard_key ∧
    (reset_usb_boot s).has_consumer_key = s.has_consumer_key ∧
    (reset_usb_boot s).TimerCancelled = s.TimerCancelled ∧
    (reset_usb_boot s).LEDDimClock = s.LEDDimClock ∧
    (reset_usb_boot s).start_ms = s.start_ms ∧
    (reset_usb_boot s).leds = s.leds ∧
    (reset_usb_boot s).shown = s.shown ∧
    (reset_usb_boot s).brightness = s.brightness ∧
    (reset_usb_boot s).dim_timers = s.dim_timers ∧
    (reset_usb_boot s).flash_alarms = s.flash_alarms ∧
    (reset_usb_boot s).in_bootloader = true ∧
    (reset_usb_boot s).trace = s.trace ++ [Effect.reset_usb_boot] := by
  simp [reset_usb_boot]

/-! ## The painting loops -/

theorem foldl_illuminate_eq (r g b : Nat) (n : Nat) (s : State) :
    (List.range n).foldl (fun st i => illuminate i r g b st) s =
      { s with leds := fun j => if j < n then (r, g, b) else s.leds j,
               trace := s.trace ++ (List.range n).map (fun i => Effect.illuminate i r g b) } := by
  induction n with
  | zero => simp
  | succ n ih =>
    rw [List.range_succ, List.foldl_append, ih]
    simp only [List.foldl_cons, List.foldl_nil, illuminate, List.map_append, List.map_cons,
      List.map_nil, List.append_assoc]
    congr 1
    funext j
    by_cases hj : j = n
    · subst hj; simp
    · rw [Function.update_noteq hj]
      by_cases h1 : j < n
      · simp [h1, Nat.lt_succ_of_lt h1]
      · have h2 : ¬ j < n + 1 := by omega
        simp [h1, h2]

@[simp]
theorem illuminateAll_fields (r g b : Nat) (s : State) :
    (illuminateAll r g b s).ButtonAssignments = s.ButtonAssignments ∧
    (illuminateAll r g b s).ColourAssignments = s.ColourAssignments ∧
    (illuminateAll r g b s).LockKeysOrigionalColours = s.LockKeysOrigionalColours ∧
    (illuminateAll r g b s).button_states = s.button_states ∧
    (illuminateAll r g b s).last_button_states = s.last_button_states ∧
    (illuminateAll r g b s).has_keyboard_key = s.has_keyboard_key ∧
    (illuminateAll r g b s).has_consumer_key = s.has_consumer_key ∧
    (illuminateAll r g b s).TimerCancelled = s.TimerCancelled ∧
    (illuminateAll r g b s).LEDDimClock = s.LEDDimClock ∧
    (illuminateAll r g b s).start_ms = s.start_ms ∧
    (illuminateAll r g b s).leds = (fun j => if j < 16 then (r, g, b) else s.leds j) ∧
    (illuminateAll r g b s).shown = s.shown ∧
    (illuminateAll r g b s).brightness = s.brightness ∧
    (illuminateAll r g b s).dim_timers = s.dim_timers ∧
    (illuminateAll r g b s).flash_alarms = s.flash_alarms ∧
    (illuminateAll r g b s).in_bootloader = s.in_bootloader ∧
    (illuminateAll r g b s).trace = s.trace ++ (List.range 16).map (fun i => Effect.illuminate i r g b) := by
  simp [illuminateAll, foldl_illuminate_eq]

/-! ## The held flags -/

theorem SendKeypress_flags_exclusive (ready : Bool) (report_id KeyCode Modifiers : Nat)
    (s : State) (h : ¬ (s.has_keyboard_key = true ∧ s.has_consumer_key = true)) :
    ¬ ((SendKeypress ready report_id KeyCode Modifiers s).has_keyboard_key = true ∧
       (SendKeypress ready report_id KeyCode Modifiers s).has_consumer_key = true) := by
  unfold SendKeypress
  split_ifs <;> simp_all

@[simp]
theorem rearmDimTimer_frame (s : State) :
    (rearmDimTimer s).ButtonAssignments = s.ButtonAssignments ∧
    (rearmDimTimer s).ColourAssignments = s.ColourAssignments ∧
    (rearmDimTimer s).LockKeysOrigionalColours = s.LockKeysOrigionalColours ∧
    (rearmDimTimer s).button_states = s.button_states ∧
    (rearmDimTimer s).last_button_states = s.last_button_states ∧
    (rearmDimTimer s).has_keyboard_key = s.has_keyboard_key ∧
    (rearmDimTimer s).has_consumer_key = s.has_consumer_key ∧
    (rearmDimTimer s).TimerCancelled = s.TimerCancelled ∧
    (rearmDimTimer s).LEDDimClock = true ∧
    (rearmDimTimer s).start_ms = s.start_ms ∧
    (rearmDimTimer s).leds = s.leds ∧
    (rearmDimTimer s).flash_alarms = s.flash_alarms ∧
    (rearmDimTimer s).in_bootloader = s.in_bootloader := by
  unfold rearmDimTimer
  split_ifs <;> simp

@[simp]
theorem startFlashReset_frame (k : Nat) (s : State) :
    (startFlashReset k s).ButtonAssignments = s.ButtonAssignments ∧
    (startFlashReset k s).ColourAssignments = s.ColourAssignments ∧
    (startFlashReset k s).LockKeysOrigionalColours = s.LockKeysOrigionalColours ∧
    (startFlashReset k s).button_states = s.button_states ∧
    (startFlashReset k s).last_button_states = s.last_button_states ∧
    (startFlashReset k s).has_keyboard_key = s.has_keyboard_key ∧
    (startFlashReset k s).has_consumer_key = s.has_consumer_key ∧
    (startFlashReset k s).LEDDimClock = s.LEDDimClock ∧
    (startFlashReset k s).start_ms = s.start_ms ∧
    (startFlashReset k s).leds = s.leds ∧
    (startFlashReset k s).shown = s.shown ∧
    (startFlashReset k s).brightness = s.brightness ∧
    (startFlashReset k s).dim_timers = s.dim_timers ∧
    (startFlashReset k s).in_bootloader = s.in_bootloader := by
  unfold startFlashReset
  split_ifs <;> simp

@[simp]
theorem SendKeypress_frame (ready : Bool) (report_id KeyCode Modifiers : Nat) (s : State) :
    (SendKeypress ready report_id KeyCode Modifiers s).ButtonAssignments = s.ButtonAssignments ∧
    (SendKeypress ready report_id KeyCode Modifiers s).ColourAssignments = s.ColourAssignments ∧
    (SendKeypress ready report_id KeyCode Modifiers s).LockKeysOrigionalColours =
      s.LockKeysOrigionalColours ∧
    (SendKeypress ready report_id KeyCode Modifiers s).button_states = s.button_states ∧
    (SendKeypress ready report_id KeyCode Modifiers s).last_button_states =
      s.last_button_states ∧
    (SendKeypress ready report_id KeyCode Modifiers s).TimerCancelled = s.TimerCancelled ∧
    (SendKeypress ready report_id KeyCode Modifiers s).LEDDimClock = s.LEDDimClock ∧
    (SendKeypress ready report_id KeyCode Modifiers s).start_ms = s.start_ms ∧
    (SendKeypress ready report_id KeyCode Modifiers s).leds = s.leds ∧
    (SendKeypress ready report_id KeyCode Modifiers s).shown = s.shown ∧
    (SendKeypress ready report_id KeyCode Modifiers s).brightness = s.brightness ∧
    (SendKeypress ready report_id KeyCode Modifiers s).dim_timers = s.dim_timers ∧
    (SendKeypress ready report_id KeyCode Modifiers s).flash_alarms = s.flash_alarms ∧
    (SendKeypress ready report_id KeyCode Modifiers s).in_bootloader = s.in_bootloader := by
  unfold SendKeypress
  split_ifs <;> simp

theorem pressFeedback_flags_exclusive (i : TickInput) (k : Nat) (s : State)
    (h : ¬ (s.has_keyboard_key = true ∧ s.has_consumer_key = true)) :
    ¬ ((pressFeedback i k s).has_keyboard_key = true ∧
       (pressFeedback i k s).has_consumer_key = true) := by
  unfold pressFeedback
  split_ifs
  · exact SendKeypress_flags_exclusive _ _ _ _ _ (by simpa using h)
  · exact SendKeypress_flags_exclusive _ _ _ _ _ h
  · simpa using h

theorem pressAction_flags_exclusive (i : TickInput) (k : Nat) (s : State)
    (h : ¬ (s.has_keyboard_key = true ∧ s.has_consumer_key = true)) :
    ¬ ((pressAction i k s).has_keyboard_key = true ∧
       (pressAction i k s).has_consumer_key = true) := by
  unfold pressAction
  split_ifs
  · simpa using h
  · simpa using pressFeedback_flags_exclusive i k s h

theorem sampleButtons_flags_exclusive (i : TickInput) (s : State)
    (h : ¬ (s.has_keyboard_key = true ∧ s.has_consumer_key = true)) :
    ¬ ((sampleButtons i s).has_keyboard_key = true ∧
       (sampleButtons i s).has_consumer_key = true) := by
  simp only [sampleButtons]
  split_ifs
  · exact pressAction_flags_exclusive _ _ _ (by simpa using h)
  · simpa using h
  · simpa using h

theorem pollTick_flags_exclusive (i : TickInput) (s : State)
    (h : ¬ (s.has_keyboard_key = true ∧ s.has_consumer_key = true)) :
    ¬ ((pollTick i s).has_keyboard_key = true ∧ (pollTick i s).has_consumer_key = true) := by
  unfold pollTick
  split_ifs
  · simpa using h
  · simp
  · simp
  · exact sampleButtons_flags_exclusive i s h

theorem Loop_flags_exclusive (i : TickInput) (s : State)
    (h : ¬ (s.has_keyboard_key = true ∧ s.has_consumer_key = true)) :
    ¬ ((Loop i s).has_keyboard_key = true ∧ (Loop i s).has_consumer_key = true) := by
  unfold Loop
  split_ifs
  · exact h
  · exact pollTick_flags_exclusive _ _ (by simpa using h)

/-- C2. Starting from any state in which both held flags are false (the state at program
start is one), after any sequence of `Loop` calls, with arbitrary clock readings, button
masks and transport answers, `has_keyboard_key` and `has_consumer_key` are never both
true. -/
theorem C2_held_flags_exclusive (inputs : List TickInput) (s : State)
    (hk : s.has_keyboard_key = false) (hc : s.has_consumer_key = false) :
    ¬ ((runLoop inputs s).has_keyboard_key = true ∧
       (runLoop inputs s).has_consumer_key = true) := by
  have h0 : ¬ (s.has_keyboard_key = true ∧ s.has_consumer_key = true) := by simp [hk, hc]
  clear hk hc
  unfold runLoop
  induction inputs generalizing s with
  | nil => simpa using h0
  | cons i rest ih =>
    rw [List.foldl_cons]
    exact ih (Loop i s) (Loop_flags_exclusive i s h0)


/-- C2 on the configuration of `Main.cpp`: key 0 is pressed and released while the transport
is ready, over four calls of `Loop`. -/
theorem C2_held_flags_exclusive_witness :
    ¬ ((runLoop [⟨10, false, true, 1, true, true⟩, ⟨20, false, true, 1, true, true⟩,
          ⟨30, false, true, 0, true, true⟩, ⟨40, true, false, 4, false, false⟩]
          mainSetup).has_keyboard_key = true ∧
       (runLoop [⟨10, false, true, 1, true, true⟩, ⟨20, false, true, 1, true, true⟩,
          ⟨30, false, true, 0, true, true⟩, ⟨40, true, false, 4, false, false⟩]
          mainSetup).has_consumer_key = true) :=
  C2_held_flags_exclusive _ mainSetup rfl rfl

/-! ## Press and release -/

theorem mainSetup_flags :
    mainSetup.has_keyboard_key = false ∧ mainSetup.has_consumer_key = false ∧
    mainSetup.button_states = 0 ∧ mainSetup.last_button_states = 0 ∧
    mainSetup.TimerCancelled = true ∧ mainSetup.LEDDimClock = true :=
  ⟨rfl, rfl, rfl, rfl, rfl, rfl⟩

theorem mainSetup_keys :
    mainSetup.ButtonAssignments 0 = (HID_KEY_O, 3, REPORT_ID_KEYBOARD) ∧
    mainSetup.ButtonAssignments 1 = (HID_KEY_ARROW_UP, 1, REPORT_ID_KEYBOARD) ∧
    mainSetup.ButtonAssignments 2 =
      (HID_USAGE_CONSUMER_PLAY_PAUSE, 0, REPORT_ID_CONSUMER_CONTROL) ∧
    mainSetup.ButtonAssignments 12 = (HID_KEY_CAPS_LOCK, 0, REPORT_ID_KEYBOARD) :=
  ⟨rfl, rfl, rfl, rfl⟩

theorem bitScan_values : bitScan 1 0 = 0 ∧ bitScan 2 0 = 1 ∧ bitScan 4 0 = 2 := by
  simp [bitScan]


theorem pollTick_of_reachesSampling (i : TickInput) (s : State) (h : reachesSampling i s) :
    pollTick i s = sampleButtons i s := by
  obtain ⟨h1, h2⟩ := h
  unfold pollTick
  rw [if_neg (by simp [h1])]
  have a : ¬ ((i.ready_release && s.has_keyboard_key) = true) := by
    intro h; simp at h; exact h2 ⟨h.1, Or.inl h.2⟩
  have b : ¬ ((i.ready_release && s.has_consumer_key) = true) := by
    intro h; simp at h; exact h2 ⟨h.1, Or.inr h.2⟩
  rw [if_neg a, if_neg b]

theorem bitScan_of_bounds (B k : Nat) (hk : k < 16) (h1 : 2 ^ k ≤ B) (h2 : B < 2 ^ (k + 1)) :
    bitScan B 0 = k := by
  have hpos : 0 < 2 ^ k := Nat.two_pow_pos k
  have h0 : B ≠ 0 := by omega
  have h16 : B < 2 ^ 16 := lt_of_lt_of_le h2 (Nat.pow_le_pow_right (by decide) hk)
  rw [bitScan_eq_log2 B h0 h16]
  have a : Nat.log2 B < k + 1 := (Nat.log2_lt h0).2 h2
  have b : ¬ Nat.log2 B < k := by rw [Nat.log2_lt h0]; omega
  omega

theorem SendKeypress_sets_keyboard (ready : Bool) (report_id KeyCode Modifiers : Nat)
    (s : State) (h0 : s.has_keyboard_key = false)
    (h1 : (SendKeypress ready report_id KeyCode Modifiers s).has_keyboard_key = true) :
    (SendKeypress ready report_id KeyCode Modifiers s).has_consumer_key = false := by
  unfold SendKeypress at h1 ⊢
  split_ifs at h1 ⊢ <;> simp_all

theorem SendKeypress_sets_consumer (ready : Bool) (report_id KeyCode Modifiers : Nat)
    (s : State) (h0 : s.has_consumer_key = false)
    (h1 : (SendKeypress ready report_id KeyCode Modifiers s).has_consumer_key = true) :
    (SendKeypress ready report_id KeyCode Modifiers s).has_keyboard_key = false := by
  unfold SendKeypress at h1 ⊢
  split_ifs at h1 ⊢ <;> simp_all

theorem pollTick_sets_consumer (i : TickInput) (s : State) (h0 : s.has_consumer_key = false)
    (h1 : (pollTick i s).has_consumer_key = true) :
    (pollTick i s).has_keyboard_key = false := by
  unfold pollTick at h1 ⊢
  split_ifs at h1 ⊢
  · simp [h0] at h1
  · simp
  · simp at h1
  · simp only [sampleButtons] at h1 ⊢
    split_ifs at h1 ⊢
    · unfold pressAction at h1 ⊢
      split_ifs at h1 ⊢
      · simp [h0] at h1
      · simp only [startFlashReset_frame, update_fields] at h1 ⊢
        unfold pressFeedback at h1 ⊢
        split_ifs at h1 ⊢
        · exact SendKeypress_sets_consumer _ _ _ _ _ (by simpa using h0) h1
        · exact SendKeypress_sets_consumer _ _ _ _ _ (by simpa using h0) h1
        · simp [h0] at h1
    · simp [h0] at h1
    · simp [h0] at h1

theorem pollTick_release_keyboard (i : TickInput) (s : State)
    (hs : i.suspended = false) (hr : i.ready_release = true)
    (h : s.has_keyboard_key = true) : pollTick i s = released true s := by
  unfold pollTick
  simp [hs, hr, h, released, set_has_keyboard_key, tud_hid_keyboard_report]

theorem pollTick_release_consumer (i : TickInput) (s : State)
    (hs : i.suspended = false) (hr : i.ready_release = true)
    (hk : s.has_keyboard_key = false) (h : s.has_consumer_key = true) :
    pollTick i s = released false s := by
  unfold pollTick
  simp [hs, hr, h, hk, released, set_has_consumer_key, tud_hid_report]

/-- C3, as amended. Whenever a poll tick sets `has_keyboard_key` (or `has_consumer_key`), and
at the next poll tick the bus is not suspended and the transport is ready at the release
check, that next tick does exactly this: it emits the matching all-zero report and clears
the flag.  Every other field is unchanged, so the buttons are not sampled, no LED is
painted and no key-down report is sent, whatever the button mask is. -/
theorem C3_release_on_next_ready_tick (i1 i2 : TickInput) (s : State)
    (hs : i2.suspended = false) (hr : i2.ready_release = true) :
    (s.has_keyboard_key = false → (pollTick i1 s).has_keyboard_key = true →
      pollTick i2 (pollTick i1 s) = released true (pollTick i1 s)) ∧
    (s.has_consumer_key = false → (pollTick i1 s).has_consumer_key = true →
      pollTick i2 (pollTick i1 s) = released false (pollTick i1 s)) :=
  ⟨fun _ h1 => pollTick_release_keyboard i2 _ hs hr h1,
   fun h0 h1 => pollTick_release_consumer i2 _ hs hr (pollTick_sets_consumer i1 s h0 h1) h1⟩

/-- C3 on the configuration of `Main.cpp`: key 0 (a keyboard key) and key 2 (a consumer key)
are pressed with the transport ready; the next ready tick is the release tick. -/
theorem C3_release_on_next_ready_tick_witness :
    (pollTick ⟨20, false, true, 2, true, true⟩ (pollTick ⟨10, false, true, 1, true, true⟩ mainSetup)
        = released true (pollTick ⟨10, false, true, 1, true, true⟩ mainSetup)) ∧
    (pollTick ⟨20, false, true, 2, true, true⟩ (pollTick ⟨10, false, true, 4, true, true⟩ mainSetup)
        = released false (pollTick ⟨10, false, true, 4, true, true⟩ mainSetup)) :=
  ⟨(C3_release_on_next_ready_tick ⟨10, false, true, 1, true, true⟩ ⟨20, false, true, 2, true, true⟩
      mainSetup rfl rfl).1 rfl (by
        simp [pollTick, sampleButtons, pressAction, pressFeedback, startFlashReset, SendKeypress,
          rearmDimTimer, mainSetup_flags, mainSetup_keys, bitScan_values, REPORT_ID_KEYBOARD,
          REPORT_ID_TINYPICO, isLockKey, HID_KEY_O, HID_KEY_CAPS_LOCK, HID_KEY_NUM_LOCK,
          HID_KEY_SCROLL_LOCK]),
   (C3_release_on_next_ready_tick ⟨10, false, true, 4, true, true⟩ ⟨20, false, true, 2, true, true⟩
      mainSetup rfl rfl).2 rfl (by
        simp [pollTick, sampleButtons, pressAction, pressFeedback, startFlashReset, SendKeypress,
          rearmDimTimer, mainSetup_flags, mainSetup_keys, bitScan_values, REPORT_ID_KEYBOARD,
          REPORT_ID_CONSUMER_CONTROL, REPORT_ID_TINYPICO, isLockKey,
          HID_USAGE_CONSUMER_PLAY_PAUSE, HID_KEY_CAPS_LOCK, HID_KEY_NUM_LOCK,
          HID_KEY_SCROLL_LOCK])⟩

/-- C3 as stated fails. On the configuration of `Main.cpp`, key 0 is pressed with the
transport ready: the tick sends the key-down report and sets `has_keyboard_key`.  If at the
next poll tick the transport is not ready and key 1 is down, no report is sent, the flag
stays set, and the new press is processed (the mask is sampled and stored, key 1 is shown
red).  If instead the bus is suspended at the next poll tick, no report is sent and the flag
stays set as well. -/
theorem C3_counterexample_unready_next_tick :
    mainSetup.has_keyboard_key = false ∧
    (pollTick ⟨10, false, true, 1, true, true⟩ mainSetup).has_keyboard_key = true ∧
    hidReports mainSetup (pollTick ⟨10, false, true, 1, true, true⟩ mainSetup) =
      [Effect.hid_keyboard_report 1 3 [0x12, 0, 0, 0, 0, 0]] ∧
    hidReports (pollTick ⟨10, false, true, 1, true, true⟩ mainSetup)
      (pollTick ⟨20, false, false, 2, false, false⟩
        (pollTick ⟨10, false, true, 1, true, true⟩ mainSetup)) = [] ∧
    (pollTick ⟨20, false, false, 2, false, false⟩
      (pollTick ⟨10, false, true, 1, true, true⟩ mainSetup)).has_keyboard_key = true ∧
    (pollTick ⟨20, false, false, 2, false, false⟩
      (pollTick ⟨10, false, true, 1, true, true⟩ mainSetup)).last_button_states = 2 ∧
    (pollTick ⟨20, false, false, 2, false, false⟩
      (pollTick ⟨10, false, true, 1, true, true⟩ mainSetup)).shown 1 = (0x20, 0x00, 0x00) ∧
    pollTick ⟨20, false, false, 2, false, false⟩
        (pollTick ⟨10, false, true, 1, true, true⟩ mainSetup) ≠
      released true (pollTick ⟨10, false, true, 1, true, true⟩ mainSetup) ∧
    hidReports (pollTick ⟨10, false, true, 1, true, true⟩ mainSetup)
      (pollTick ⟨20, true, false, 1, false, false⟩
        (pollTick ⟨10, false, true, 1, true, true⟩ mainSetup)) = [] ∧
    (pollTick ⟨20, true, false, 1, false, false⟩
      (pollTick ⟨10, false, true, 1, true, true⟩ mainSetup)).has_keyboard_key = true := by
  refine ⟨rfl, ?_, ?_, ?_, ?_, ?_, ?_, ?_, ?_, ?_⟩
  all_goals
    try intro h
    try replace h := congrArg State.has_keyboard_key h
    simp [pollTick, sampleButtons, pressAction, pressFeedback, startFlashReset, SendKeypress,
      rearmDimTimer, mainSetup_flags, mainSetup_keys, bitScan_values, REPORT_ID_KEYBOARD,
      REPORT_ID_TINYPICO, isLockKey, HID_KEY_O, HID_KEY_ARROW_UP, HID_KEY_CAPS_LOCK,
      HID_KEY_NUM_LOCK, HID_KEY_SCROLL_LOCK, hidReports, emitted, Effect.isHid, released] at *

/-! ## Sampling without a press -/

@[simp]
theorem pressFeedback_frame (i : TickInput) (k : Nat) (s : State) :
    (pressFeedback i k s).ButtonAssignments = s.ButtonAssignments ∧
    (pressFeedback i k s).ColourAssignments = s.ColourAssignments ∧
    (pressFeedback i k s).LockKeysOrigionalColours = s.LockKeysOrigionalColours ∧
    (pressFeedback i k s).button_states = s.button_states ∧
    (pressFeedback i k s).last_button_states = s.last_button_states ∧
    (pressFeedback i k s).TimerCancelled = s.TimerCancelled ∧
    (pressFeedback i k s).LEDDimClock = s.LEDDimClock ∧
    (pressFeedback i k s).start_ms = s.start_ms ∧
    (pressFeedback i k s).shown = s.shown ∧
    (pressFeedback i k s).brightness = s.brightness ∧
    (pressFeedback i k s).dim_timers = s.dim_timers ∧
    (pressFeedback i k s).flash_alarms = s.flash_alarms ∧
    (pressFeedback i k s).in_bootloader = s.in_bootloader := by
  unfold pressFeedback
  split_ifs <;> simp

@[simp]
theorem pressAction_frame (i : TickInput) (k : Nat) (s : State) :
    (pressAction i k s).ButtonAssignments = s.ButtonAssignments ∧
    (pressAction i k s).ColourAssignments = s.ColourAssignments ∧
    (pressAction i k s).LockKeysOrigionalColours = s.LockKeysOrigionalColours ∧
    (pressAction i k s).button_states = s.button_states ∧
    (pressAction i k s).last_button_states = s.last_button_states ∧
    (pressAction i k s).LEDDimClock = s.LEDDimClock ∧
    (pressAction i k s).start_ms = s.start_ms ∧
    (pressAction i k s).brightness = s.brightness ∧
    (pressAction i k s).dim_timers = s.dim_timers := by
  unfold pressAction
  split_ifs <;> simp

theorem sampleButtons_masks (i : TickInput) (s : State) :
    (sampleButtons i s).button_states = i.buttons ∧
    (sampleButtons i s).last_button_states = i.buttons := by
  simp only [sampleButtons]
  split_ifs with h1 h2
  · simp
  · simp
  · simp at h1; simp [h1]

theorem sampleButtons_idle (i : TickInput) (s : State)
    (hm : i.buttons = s.last_button_states ∨ i.buttons = 0) :
    sampleButtons i s = { s with button_states := i.buttons, last_button_states := i.buttons } := by
  simp only [sampleButtons]
  split_ifs with h1 h2
  · simp at h1 h2
    rcases hm with h | h
    · exact absurd h.symm h1
    · omega
  · simp [set_button_states, set_last_button_states]
  · simp at h1
    simp [set_button_states, h1]

/-- C4. On a poll tick that reaches input sampling, if the sampled mask equals
`last_button_states` or is zero, the state after the tick is the state before with the
sampled mask stored in `button_states` and `last_button_states`: the trace (reports, LED and
timer calls), the colours, the brightness, the timers and the held flags are as before.
Consequently a second sampling tick that reads the same mask as the sampling tick before it
changes nothing at all. -/
theorem C4_no_action_without_changed_nonzero_mask (i i2 : TickInput) (s : State)
    (h : reachesSampling i s) :
    ((i.buttons = s.last_button_states ∨ i.buttons = 0) →
      pollTick i s = { s with button_states := i.buttons, last_button_states := i.buttons }) ∧
    (reachesSampling i2 (pollTick i s) → i2.buttons = i.buttons →
      pollTick i2 (pollTick i s) = pollTick i s) := by
  constructor
  · intro hm
    rw [pollTick_of_reachesSampling i s h]
    exact sampleButtons_idle i s hm
  · intro h2 hsame
    rw [pollTick_of_reachesSampling i2 _ h2]
    have hb := sampleButtons_masks i s
    rw [← pollTick_of_reachesSampling i s h] at hb
    rw [sampleButtons_idle i2 _ (Or.inl (by rw [hsame, hb.2]))]
    rw [hsame]
    apply State.ext <;> simp [hb.1, hb.2]

/-- C4 on the configuration of `Main.cpp`: key 0 held over two ready ticks that sample (the
flags are clear before the first and the transport is not ready at the second), and an
all-released sample. -/
theorem C4_no_action_without_changed_nonzero_mask_witness :
    (pollTick ⟨10, false, true, 0, true, true⟩ mainSetup =
      { mainSetup with button_states := 0, last_button_states := 0 }) ∧
    (pollTick ⟨20, false, false, 1, false, false⟩
        (pollTick ⟨10, false, true, 1, true, true⟩ mainSetup) =
      pollTick ⟨10, false, true, 1, true, true⟩ mainSetup) :=
  ⟨(C4_no_action_without_changed_nonzero_mask ⟨10, false, true, 0, true, true⟩
      ⟨20, false, false, 0, true, true⟩ mainSetup (by decide)).1 (Or.inl rfl),
   (C4_no_action_without_changed_nonzero_mask ⟨10, false, true, 1, true, true⟩
      ⟨20, false, false, 1, false, false⟩ mainSetup (by decide)).2
      (by simp [reachesSampling]) rfl⟩

/-! ## Sending reports -/

theorem rearmDimTimer_trace (s : State) :
    (rearmDimTimer s).trace =
      s.trace ++ ((if s.LEDDimClock = true then [Effect.cancel_repeating_timer]
        else [Effect.set_brightness MaxBrightness, Effect.update]) ++
        [Effect.add_repeating_timer]) := by
  unfold rearmDimTimer
  split_ifs <;> simp

theorem sampleButtons_press (i : TickInput) (s : State) (k : Nat)
    (hchg : i.buttons ≠ s.last_button_states) (hpos : 0 < i.buttons)
    (hk : bitScan i.buttons 0 = k) :
    sampleButtons i s =
      pressAction i k (rearmDimTimer (set_last_button_states i.buttons
        (set_button_states i.buttons s))) := by
  simp only [sampleButtons]
  rw [if_pos (by simpa using fun h => hchg h.symm), if_pos (by simpa using hpos)]
  simp [hk]

theorem hidReports_release (keyboard : Bool) (s : State) :
    hidReports s (released keyboard s) =
      [if keyboard then Effect.hid_keyboard_report REPORT_ID_KEYBOARD 0 [0, 0, 0, 0, 0, 0]
       else Effect.hid_report REPORT_ID_CONSUMER_CONTROL [0, 0]] := by
  cases keyboard <;> simp [hidReports, emitted, released, Effect.isHid]

/-- C5. Let key `k` (0..15) hold a consumer-control descriptor with byte code `c`, as
`SetupButton` leaves it, with both held flags false.  A poll tick with the bus not suspended
and the transport ready (at the press check and inside `SendKeypress`) that samples a changed mask whose highest set bit is `k` emits exactly
one HID report, report id 2 with the two payload bytes `c, 0`, and sets `has_consumer_key`.
The next poll tick, again not suspended and ready, emits exactly one HID report, report id 2
with payload `0, 0`, and clears `has_consumer_key`. -/
theorem C5_consumer_press_then_release (k c m : Nat) (i1 i2 : TickInput) (s : State)
    (hk : k < 16) (hc : c < 256)
    (hcfg : s.ButtonAssignments k = (c, m, REPORT_ID_CONSUMER_CONTROL))
    (hkb : s.has_keyboard_key = false) (hcc : s.has_consumer_key = false)
    (hs1 : i1.suspended = false)
    (hp1 : i1.ready_press = true) (hse1 : i1.ready_send = true)
    (hchg : i1.buttons ≠ s.last_button_states)
    (hlo : 2 ^ k ≤ i1.buttons) (hhi : i1.buttons < 2 ^ (k + 1))
    (hs2 : i2.suspended = false) (hr2 : i2.ready_release = true) :
    hidReports s (pollTick i1 s) = [Effect.hid_report 2 [c, 0]] ∧
    (pollTick i1 s).has_consumer_key = true ∧
    (pollTick i1 s).has_keyboard_key = false ∧
    hidReports (pollTick i1 s) (pollTick i2 (pollTick i1 s)) = [Effect.hid_report 2 [0, 0]] ∧
    (pollTick i2 (pollTick i1 s)).has_consumer_key = false := by
  have hdec : bitScan i1.buttons 0 = k := bitScan_of_bounds _ _ hk hlo hhi
  have hpos : 0 < i1.buttons := lt_of_lt_of_le (Nat.two_pow_pos k) hlo
  have hreach : reachesSampling i1 s := ⟨hs1, by simp [hkb, hcc]⟩
  have hdiv : c / 256 = 0 := Nat.div_eq_of_lt hc
  have hmod : c % 256 = c := Nat.mod_eq_of_lt hc
  have e1 : pollTick i1 s = pressAction i1 k (rearmDimTimer (set_last_button_states i1.buttons
      (set_button_states i1.buttons s))) := by
    rw [pollTick_of_reachesSampling i1 s hreach, sampleButtons_press i1 s k hchg hpos hdec]
  have tick1 : hidReports s (pollTick i1 s) = [Effect.hid_report 2 [c, 0]] ∧
      (pollTick i1 s).has_consumer_key = true ∧ (pollTick i1 s).has_keyboard_key = false := by
    rw [e1]
    cases hd : s.LEDDimClock <;> cases ht : s.TimerCancelled <;> cases hl : isLockKey c <;>
      simp [pressAction, pressFeedback, startFlashReset, SendKeypress, rearmDimTimer_trace,
        hidReports, emitted, Effect.isHid, hcfg, hkb, hcc, hp1, hse1, hd, ht, hl, hdiv, hmod,
        REPORT_ID_CONSUMER_CONTROL, REPORT_ID_KEYBOARD, REPORT_ID_TINYPICO]
  obtain ⟨t1, t2, t3⟩ := tick1
  have e2 := pollTick_release_consumer i2 (pollTick i1 s) hs2 hr2 t3 t2
  refine ⟨t1, t2, t3, ?_, ?_⟩
  · rw [e2, hidReports_release]; simp [REPORT_ID_CONSUMER_CONTROL]
  · rw [e2]; simp [released]

/-- C5 on the configuration of `Main.cpp`: key 2, Play/Pause, colour (0x20, 0x05, 0x20). -/
theorem C5_consumer_press_then_release_witness :
    mainSetup.ColourAssignments 2 = (0x20, 0x05, 0x20) ∧
    hidReports mainSetup (pollTick ⟨10, false, true, 4, true, true⟩ mainSetup) =
      [Effect.hid_report 2 [HID_USAGE_CONSUMER_PLAY_PAUSE, 0]] ∧
    (pollTick ⟨10, false, true, 4, true, true⟩ mainSetup).has_consumer_key = true ∧
    (pollTick ⟨10, false, true, 4, true, true⟩ mainSetup).has_keyboard_key = false ∧
    hidReports (pollTick ⟨10, false, true, 4, true, true⟩ mainSetup)
      (pollTick ⟨20, false, true, 0, true, true⟩
        (pollTick ⟨10, false, true, 4, true, true⟩ mainSetup)) =
      [Effect.hid_report 2 [0, 0]] ∧
    (pollTick ⟨20, false, true, 0, true, true⟩
      (pollTick ⟨10, false, true, 4, true, true⟩ mainSetup)).has_consumer_key = false :=
  ⟨rfl, C5_consumer_press_then_release 2 HID_USAGE_CONSUMER_PLAY_PAUSE 0
    ⟨10, false, true, 4, true, true⟩ ⟨20, false, true, 0, true, true⟩ mainSetup
    (by decide) (by decide) rfl rfl rfl rfl rfl rfl (by decide) (by decide) (by decide)
    rfl rfl⟩

/-- C6. `SendKeypress(REPORT_ID_KEYBOARD, kc, m)` with the transport ready: when
`has_consumer_key` is false it emits exactly one keyboard report with modifier byte `m` and
keycodes `kc, 0, 0, 0, 0, 0` and sets `has_keyboard_key`, changing nothing else; when
`has_consumer_key` is true it changes nothing.  With the transport not ready, `SendKeypress`
changes nothing for any report id. -/
theorem C6_SendKeypress_keyboard (kc m report_id : Nat) (s : State) :
    (s.has_consumer_key = false →
      SendKeypress true REPORT_ID_KEYBOARD kc m s =
        { s with has_keyboard_key := true,
                 trace := s.trace ++ [Effect.hid_keyboard_report 1 m [kc, 0, 0, 0, 0, 0]] }) ∧
    (s.has_consumer_key = true → SendKeypress true REPORT_ID_KEYBOARD kc m s = s) ∧
    SendKeypress false report_id kc m s = s := by
  refine ⟨fun h => ?_, fun h => ?_, ?_⟩
  · simp [SendKeypress, h, set_has_keyboard_key, tud_hid_keyboard_report, REPORT_ID_KEYBOARD]
  · simp [SendKeypress, h]
  · simp [SendKeypress]

/-- C6 on the configuration of `Main.cpp` (no key held): Ctrl+Shift+O is sent; and on the
state with a consumer key held, nothing is. -/
theorem C6_SendKeypress_keyboard_witness :
    (SendKeypress true REPORT_ID_KEYBOARD HID_KEY_O 3 mainSetup =
      { mainSetup with
          has_keyboard_key := true,
          trace := mainSetup.trace ++ [Effect.hid_keyboard_report 1 3 [HID_KEY_O, 0, 0, 0, 0, 0]] }) ∧
    (SendKeypress true REPORT_ID_KEYBOARD HID_KEY_O 3 (set_has_consumer_key true mainSetup) =
      set_has_consumer_key true mainSetup) ∧
    SendKeypress false REPORT_ID_CONSUMER_CONTROL HID_KEY_O 3 mainSetup = mainSetup :=
  ⟨(C6_SendKeypress_keyboard HID_KEY_O 3 2 mainSetup).1 rfl,
   (C6_SendKeypress_keyboard HID_KEY_O 3 2 (set_has_consumer_key true mainSetup)).2.1 rfl,
   (C6_SendKeypress_keyboard HID_KEY_O 3 REPORT_ID_CONSUMER_CONTROL mainSetup).2.2⟩

/-! ## Lock-indicator sync -/

@[simp]
theorem syncLock_frame (role led_bit kbd_leds : Nat) (s : State) :
    (syncLock role led_bit kbd_leds s).ButtonAssignments = s.ButtonAssignments ∧
    (syncLock role led_bit kbd_leds s).LockKeysOrigionalColours = s.LockKeysOrigionalColours ∧
    (syncLock role led_bit kbd_leds s).button_states = s.button_states ∧
    (syncLock role led_bit kbd_leds s).last_button_states = s.last_button_states ∧
    (syncLock role led_bit kbd_leds s).has_keyboard_key = s.has_keyboard_key ∧
    (syncLock role led_bit kbd_leds s).has_consumer_key = s.has_consumer_key ∧
    (syncLock role led_bit kbd_leds s).TimerCancelled = s.TimerCancelled ∧
    (syncLock role led_bit kbd_leds s).LEDDimClock = s.LEDDimClock ∧
    (syncLock role led_bit kbd_leds s).start_ms = s.start_ms ∧
    (syncLock role led_bit kbd_leds s).shown = s.shown ∧
    (syncLock role led_bit kbd_leds s).brightness = s.brightness ∧
    (syncLock role led_bit kbd_leds s).dim_timers = s.dim_timers ∧
    (syncLock role led_bit kbd_leds s).flash_alarms = s.flash_alarms ∧
    (syncLock role led_bit kbd_leds s).in_bootloader = s.in_bootloader := by
  simp only [syncLock]
  split_ifs <;> simp

theorem syncLock_cell (role led_bit kbd_leds k : Nat) (s : State) :
    (syncLock role led_bit kbd_leds s).ColourAssignments k =
      syncCell (s.LockKeysOrigionalColours role) led_bit kbd_leds k (s.ColourAssignments k) ∧
    (syncLock role led_bit kbd_leds s).leds k =
      syncCell (s.LockKeysOrigionalColours role) led_bit kbd_leds k (s.leds k) := by
  simp only [syncLock, syncCell]
  by_cases h0 : (s.LockKeysOrigionalColours role).2.2.2 = 0
  · simp [h0]
  · by_cases hk : (s.LockKeysOrigionalColours role).2.2.2 = k
    · subst hk
      by_cases hb : kbd_leds &&& led_bit = 0 <;> simp [h0, hb]
    · have hk2 : k ≠ (s.LockKeysOrigionalColours role).2.2.2 := fun h => hk h.symm
      by_cases hb : kbd_leds &&& led_bit = 0 <;>
        simp [h0, hb, hk, Function.update_noteq hk2]

theorem syncLock_trace (role led_bit kbd_leds : Nat) (s : State) :
    (syncLock role led_bit kbd_leds s).trace =
      s.trace ++ syncCall (s.LockKeysOrigionalColours role) led_bit kbd_leds := by
  simp only [syncLock, syncCall]
  by_cases h0 : (s.LockKeysOrigionalColours role).2.2.2 = 0
  · simp [h0]
  · by_cases hb : kbd_leds &&& led_bit = 0 <;> simp [h0, hb]

/-- A host lock-indicator update with indicator byte `b0`: what it does to the cell of key
`k`, to the lock records and to the trace. -/
theorem set_report_cell (inst b0 bufsize k : Nat) (rest : List Nat) (s : State)
    (hn : 1 ≤ bufsize) :
    (tud_hid_set_report_cb inst REPORT_ID_KEYBOARD HID_REPORT_TYPE_OUTPUT (b0 :: rest) bufsize
        s).ColourAssignments k =
      syncCell (s.LockKeysOrigionalColours 2) KEYBOARD_LED_SCROLLLOCK b0 k
        (syncCell (s.LockKeysOrigionalColours 1) KEYBOARD_LED_NUMLOCK b0 k
          (syncCell (s.LockKeysOrigionalColours 0) KEYBOARD_LED_CAPSLOCK b0 k
            (s.ColourAssignments k))) ∧
    (tud_hid_set_report_cb inst REPORT_ID_KEYBOARD HID_REPORT_TYPE_OUTPUT (b0 :: rest) bufsize
        s).leds k =
      syncCell (s.LockKeysOrigionalColours 2) KEYBOARD_LED_SCROLLLOCK b0 k
        (syncCell (s.LockKeysOrigionalColours 1) KEYBOARD_LED_NUMLOCK b0 k
          (syncCell (s.LockKeysOrigionalColours 0) KEYBOARD_LED_CAPSLOCK b0 k (s.leds k))) ∧
    (tud_hid_set_report_cb inst REPORT_ID_KEYBOARD HID_REPORT_TYPE_OUTPUT (b0 :: rest) bufsize
        s).shown =
      (tud_hid_set_report_cb inst REPORT_ID_KEYBOARD HID_REPORT_TYPE_OUTPUT (b0 :: rest) bufsize
        s).leds ∧
    (tud_hid_set_report_cb inst REPORT_ID_KEYBOARD HID_REPORT_TYPE_OUTPUT (b0 :: rest) bufsize
        s).LockKeysOrigionalColours = s.LockKeysOrigionalColours ∧
    (tud_hid_set_report_cb inst REPORT_ID_KEYBOARD HID_REPORT_TYPE_OUTPUT (b0 :: rest) bufsize
        s).ButtonAssignments = s.ButtonAssignments ∧
    emitted s (tud_hid_set_report_cb inst REPORT_ID_KEYBOARD HID_REPORT_TYPE_OUTPUT (b0 :: rest)
        bufsize s) =
      syncCall (s.LockKeysOrigionalColours 0) KEYBOARD_LED_CAPSLOCK b0 ++
        (syncCall (s.LockKeysOrigionalColours 1) KEYBOARD_LED_NUMLOCK b0 ++
          (syncCall (s.LockKeysOrigionalColours 2) KEYBOARD_LED_SCROLLLOCK b0 ++
            [Effect.update])) := by
  have hb : ¬ bufsize < 1 := by omega
  simp [tud_hid_set_report_cb, hb, syncLock_cell, syncLock_trace, emitted]

/-- For a key other than key 0, bound by `SetupButton` on freshly initialised tables, a host
update with the role's bit set paints the bound key with (0x20, 0x20, 0x20) and commits
once. -/
theorem lock_sync_paints_bound_key (role k r g b m t inst b0 bufsize : Nat) (rest : List Nat)
    (hrole : role < 3) (hk0 : k ≠ 0) (hn : 1 ≤ bufsize) (hon : b0 &&& lockLedBit role ≠ 0) :
    (tud_hid_set_report_cb inst REPORT_ID_KEYBOARD HID_REPORT_TYPE_OUTPUT (b0 :: rest) bufsize
        (SetupButton k r g b (lockKeyCode role) m t State.zero)).ColourAssignments k =
      (0x20, 0x20, 0x20) ∧
    emitted (SetupButton k r g b (lockKeyCode role) m t State.zero)
        (tud_hid_set_report_cb inst REPORT_ID_KEYBOARD HID_REPORT_TYPE_OUTPUT (b0 :: rest)
          bufsize (SetupButton k r g b (lockKeyCode role) m t State.zero)) =
      [Effect.illuminate k 0x20 0x20 0x20, Effect.update] := by
  obtain ⟨h1, -, -, -, -, h6⟩ := set_report_cell inst b0 bufsize k rest
    (SetupButton k r g b (lockKeyCode role) m t State.zero) hn
  rw [h1, h6]
  interval_cases role <;>
    simp_all [SetupButton, recordLockKey, lockKeyCode, lockLedBit, syncCell, syncCall,
      State.zero, HID_KEY_CAPS_LOCK, HID_KEY_NUM_LOCK, HID_KEY_SCROLL_LOCK]

/-- C7 fails for key 0. Key 0 is bound to caps lock with colour (1, 2, 3) on freshly
initialised tables; the host then reports the caps-lock indicator on.  The record's key
column holds 0, which the sync code reads as "no key bound": `ColourAssignments[0]` and the
LED of key 0 keep (1, 2, 3), and the only keypad call is the commit. -/
theorem C7_key0_lock_indicator_not_painted :
    (SetupButton 0 1 2 3 HID_KEY_CAPS_LOCK 0 REPORT_ID_KEYBOARD
        State.zero).LockKeysOrigionalColours 0 = (1, 2, 3, 0) ∧
    (tud_hid_set_report_cb 0 REPORT_ID_KEYBOARD HID_REPORT_TYPE_OUTPUT [KEYBOARD_LED_CAPSLOCK] 1
        (SetupButton 0 1 2 3 HID_KEY_CAPS_LOCK 0 REPORT_ID_KEYBOARD
          State.zero)).ColourAssignments 0 = (1, 2, 3) ∧
    (tud_hid_set_report_cb 0 REPORT_ID_KEYBOARD HID_REPORT_TYPE_OUTPUT [KEYBOARD_LED_CAPSLOCK] 1
        (SetupButton 0 1 2 3 HID_KEY_CAPS_LOCK 0 REPORT_ID_KEYBOARD State.zero)).shown 0 =
      (1, 2, 3) ∧
    emitted (SetupButton 0 1 2 3 HID_KEY_CAPS_LOCK 0 REPORT_ID_KEYBOARD State.zero)
        (tud_hid_set_report_cb 0 REPORT_ID_KEYBOARD HID_REPORT_TYPE_OUTPUT
          [KEYBOARD_LED_CAPSLOCK] 1
          (SetupButton 0 1 2 3 HID_KEY_CAPS_LOCK 0 REPORT_ID_KEYBOARD State.zero)) =
      [Effect.update] := by
  decide

theorem syncCell_other (record : LockRecord) (led_bit kbd_leds k : Nat) (c : Colour)
    (h : ¬ boundTo record k) : syncCell record led_bit kbd_leds k c = c := by
  unfold syncCell
  exact if_neg h

theorem SetupButton_records (k r g b kc m t role : Nat) (s : State) :
    (SetupButton k r g b kc m t s).LockKeysOrigionalColours role =
      if role < 3 ∧ kc = lockKeyCode role then (r, g, b, k)
      else s.LockKeysOrigionalColours role := by
  simp only [SetupButton, recordLockKey, set_ButtonAssignments_fields, update_fields,
    illuminate_fields, set_ColourAssignments_fields]
  by_cases h0 : kc = HID_KEY_CAPS_LOCK
  · subst h0
    rcases role with _ | _ | _ | role <;>
      simp [lockKeyCode, HID_KEY_CAPS_LOCK, HID_KEY_NUM_LOCK, HID_KEY_SCROLL_LOCK]
  · by_cases h1 : kc = HID_KEY_NUM_LOCK
    · subst h1
      rcases role with _ | _ | _ | role <;>
        simp [lockKeyCode, HID_KEY_CAPS_LOCK, HID_KEY_NUM_LOCK, HID_KEY_SCROLL_LOCK]
    · by_cases h2 : kc = HID_KEY_SCROLL_LOCK
      · subst h2
        rcases role with _ | _ | _ | role <;>
          simp [lockKeyCode, HID_KEY_CAPS_LOCK, HID_KEY_NUM_LOCK, HID_KEY_SCROLL_LOCK]
        rw [if_neg (by omega)]
      · rcases role with _ | _ | _ | role <;> simp [lockKeyCode, h0, h1, h2]

theorem SetupButton_cells (k r g b kc m t : Nat) (s : State) :
    (SetupButton k r g b kc m t s).ButtonAssignments k = (kc, m, t) ∧
    (SetupButton k r g b kc m t s).ColourAssignments k = (r, g, b) ∧
    (SetupButton k r g b kc m t s).leds k = (r, g, b) ∧
    (SetupButton k r g b kc m t s).shown k = (r, g, b) := by
  simp [SetupButton]

/-- What two successive host lock updates leave in the cell of key `k`, when the record of
`role` holds `(r, g, b, k)` and no other record is bound to `k`. -/
theorem round_trip_cell (role k r g b on_byte off_byte : Nat) (rec0 rec1 rec2 : LockRecord)
    (c : Colour) (hrole : role < 3)
    (hself : (if role = 0 then rec0 else if role = 1 then rec1 else rec2) = (r, g, b, k))
    (h0 : role ≠ 0 → ¬ boundTo rec0 k) (h1 : role ≠ 1 → ¬ boundTo rec1 k)
    (h2 : role ≠ 2 → ¬ boundTo rec2 k)
    (hc : k = 0 → c = (r, g, b))
    (hoff : off_byte &&& lockLedBit role = 0) :
    syncCell rec2 KEYBOARD_LED_SCROLLLOCK off_byte k
      (syncCell rec1 KEYBOARD_LED_NUMLOCK off_byte k
        (syncCell rec0 KEYBOARD_LED_CAPSLOCK off_byte k
          (syncCell rec2 KEYBOARD_LED_SCROLLLOCK on_byte k
            (syncCell rec1 KEYBOARD_LED_NUMLOCK on_byte k
              (syncCell rec0 KEYBOARD_LED_CAPSLOCK on_byte k c))))) = (r, g, b) := by
  interval_cases role
  · simp only [if_true] at hself
    subst hself
    rw [syncCell_other rec2 _ _ _ _ (h2 (by decide)), syncCell_other rec1 _ _ _ _ (h1 (by decide)),
      syncCell_other rec2 _ _ _ _ (h2 (by decide)), syncCell_other rec1 _ _ _ _ (h1 (by decide))]
    have hoff' : off_byte &&& KEYBOARD_LED_CAPSLOCK = 0 := by simpa [lockLedBit] using hoff
    by_cases hk : k = 0
    · simp [syncCell, hk, hc hk]
    · simp [syncCell, hk, hoff']
  · simp only [if_true, if_false, OfNat.one_ne_ofNat, one_ne_zero] at hself
    subst hself
    rw [syncCell_other rec2 _ _ _ _ (h2 (by decide)),
      syncCell_other rec2 _ _ _ _ (h2 (by decide)),
      syncCell_other rec0 _ on_byte _ _ (h0 (by decide))]
    have hoff' : off_byte &&& KEYBOARD_LED_NUMLOCK = 0 := by simpa [lockLedBit] using hoff
    by_cases hk : k = 0
    · simp [syncCell, hk, hc hk]
    · simp [syncCell, hk, hoff']
  · have hself : rec2 = (r, g, b, k) := by simpa using hself
    subst hself
    have hoff' : off_byte &&& KEYBOARD_LED_SCROLLLOCK = 0 := by simpa [lockLedBit] using hoff
    by_cases hk : k = 0
    · subst hk
      have a0 : ∀ x y, syncCell rec0 x y 0 = id := by
        intro x y; funext c; simp [syncCell]
      have a1 : ∀ x y, syncCell rec1 x y 0 = id := by
        intro x y; funext c; simp [syncCell]
      simp [a0, a1, syncCell, hc rfl]
    · simp [syncCell, hk, hoff']

/-- C8. Key `k` (0..15) is configured by `SetupButton` with the lock key code of `role` and
colour `(r, g, b)`, and `k` is not the bound key of another lock role.  Then a host lock
update (the role's bit set) followed by a host lock update with the role's bit clear leaves
`ColourAssignments[k]`, the buffered LED colour of key `k` and its committed colour equal to
`(r, g, b)`.  The proof does not use that the first byte has the bit set. -/
theorem C8_lock_indicator_round_trip (role k r g b m t inst1 inst2 on_byte off_byte n1 n2 : Nat)
    (rest1 rest2 : List Nat) (s0 : State) (hrole : role < 3) (_hk : k < 16)
    (hother : ∀ other, other < 3 → other ≠ role →
      ¬ boundTo ((SetupButton k r g b (lockKeyCode role) m t s0).LockKeysOrigionalColours other) k)
    (hn1 : 1 ≤ n1) (hn2 : 1 ≤ n2)
    (_hon : on_byte &&& lockLedBit role ≠ 0) (hoff : off_byte &&& lockLedBit role = 0) :
    (tud_hid_set_report_cb inst2 REPORT_ID_KEYBOARD HID_REPORT_TYPE_OUTPUT (off_byte :: rest2) n2
      (tud_hid_set_report_cb inst1 REPORT_ID_KEYBOARD HID_REPORT_TYPE_OUTPUT (on_byte :: rest1) n1
        (SetupButton k r g b (lockKeyCode role) m t s0))).ColourAssignments k = (r, g, b) ∧
    (tud_hid_set_report_cb inst2 REPORT_ID_KEYBOARD HID_REPORT_TYPE_OUTPUT (off_byte :: rest2) n2
      (tud_hid_set_report_cb inst1 REPORT_ID_KEYBOARD HID_REPORT_TYPE_OUTPUT (on_byte :: rest1) n1
        (SetupButton k r g b (lockKeyCode role) m t s0))).leds k = (r, g, b) ∧
    (tud_hid_set_report_cb inst2 REPORT_ID_KEYBOARD HID_REPORT_TYPE_OUTPUT (off_byte :: rest2) n2
      (tud_hid_set_report_cb inst1 REPORT_ID_KEYBOARD HID_REPORT_TYPE_OUTPUT (on_byte :: rest1) n1
        (SetupButton k r g b (lockKeyCode role) m t s0))).shown k = (r, g, b) := by
  obtain ⟨a1, a2, -, a4, -, -⟩ := set_report_cell inst1 on_byte n1 k rest1
    (SetupButton k r g b (lockKeyCode role) m t s0) hn1
  obtain ⟨b1, b2, b3, -, -, -⟩ := set_report_cell inst2 off_byte n2 k rest2
    (tud_hid_set_report_cb inst1 REPORT_ID_KEYBOARD HID_REPORT_TYPE_OUTPUT (on_byte :: rest1) n1
      (SetupButton k r g b (lockKeyCode role) m t s0)) hn2
  obtain ⟨-, c2, c3, -⟩ := SetupButton_cells k r g b (lockKeyCode role) m t s0
  have hrec := SetupButton_records k r g b (lockKeyCode role) m t role s0
  rw [if_pos ⟨hrole, rfl⟩] at hrec
  rw [b3, b1, b2, a1, a2, a4, c2, c3]
  have key := round_trip_cell role k r g b on_byte off_byte
    ((SetupButton k r g b (lockKeyCode role) m t s0).LockKeysOrigionalColours 0)
    ((SetupButton k r g b (lockKeyCode role) m t s0).LockKeysOrigionalColours 1)
    ((SetupButton k r g b (lockKeyCode role) m t s0).LockKeysOrigionalColours 2)
    (r, g, b) hrole
    (by interval_cases role <;> simpa using hrec)
    (fun h => hother 0 (by decide) (fun e => h e.symm))
    (fun h => hother 1 (by decide) (fun e => h e.symm))
    (fun h => hother 2 (by decide) (fun e => h e.symm))
    (fun _ => rfl) hoff
  exact ⟨key, key, key⟩

/-- C8 for key 12 bound to caps lock (as on line 37 of `Main.cpp`) with colour
(0x10, 0x00, 0x20), while key 13 is bound to num lock: caps lock on, then off. -/
theorem C8_lock_indicator_round_trip_witness :
    (tud_hid_set_report_cb 0 REPORT_ID_KEYBOARD HID_REPORT_TYPE_OUTPUT [0] 1
      (tud_hid_set_report_cb 0 REPORT_ID_KEYBOARD HID_REPORT_TYPE_OUTPUT [2] 1
        (SetupButton 12 0x10 0x00 0x20 (lockKeyCode 0) 0 REPORT_ID_KEYBOARD
          (SetupButton 13 0 0 0 HID_KEY_NUM_LOCK 0 REPORT_ID_KEYBOARD
            State.zero)))).ColourAssignments 12 = (0x10, 0x00, 0x20) ∧
    (tud_hid_set_report_cb 0 REPORT_ID_KEYBOARD HID_REPORT_TYPE_OUTPUT [0] 1
      (tud_hid_set_report_cb 0 REPORT_ID_KEYBOARD HID_REPORT_TYPE_OUTPUT [2] 1
        (SetupButton 12 0x10 0x00 0x20 (lockKeyCode 0) 0 REPORT_ID_KEYBOARD
          (SetupButton 13 0 0 0 HID_KEY_NUM_LOCK 0 REPORT_ID_KEYBOARD
            State.zero)))).leds 12 = (0x10, 0x00, 0x20) ∧
    (tud_hid_set_report_cb 0 REPORT_ID_KEYBOARD HID_REPORT_TYPE_OUTPUT [0] 1
      (tud_hid_set_report_cb 0 REPORT_ID_KEYBOARD HID_REPORT_TYPE_OUTPUT [2] 1
        (SetupButton 12 0x10 0x00 0x20 (lockKeyCode 0) 0 REPORT_ID_KEYBOARD
          (SetupButton 13 0 0 0 HID_KEY_NUM_LOCK 0 REPORT_ID_KEYBOARD
            State.zero)))).shown 12 = (0x10, 0x00, 0x20) :=
  C8_lock_indicator_round_trip 0 12 0x10 0x00 0x20 0 REPORT_ID_KEYBOARD 0 0 2 0 1 1
    [] [] (SetupButton 13 0 0 0 HID_KEY_NUM_LOCK 0 REPORT_ID_KEYBOARD State.zero)
    (by decide) (by decide)
    (by intro other h1 h2; interval_cases other <;> first | exact absurd rfl h2 | decide)
    (by decide) (by decide) (by decide) (by decide)

/-! ## Removing and configuring a key -/

theorem syncCall_no_illuminate (record : LockRecord) (led_bit kbd_leds k r g b : Nat)
    (h : ¬ boundTo record k) :
    Effect.illuminate k r g b ∉ syncCall record led_bit kbd_leds := by
  unfold syncCall
  intro hmem
  apply h
  split_ifs at hmem with h0 hb
  · simp at hmem; exact ⟨h0, hmem.1.symm⟩
  · simp at hmem; exact ⟨h0, hmem.1.symm⟩
  · simp at hmem

theorem set_report_fixed (inst report_id report_type bufsize k : Nat) (buffer : List Nat)
    (s : State) (h0 : ¬ boundTo (s.LockKeysOrigionalColours 0) k)
    (h1 : ¬ boundTo (s.LockKeysOrigionalColours 1) k)
    (h2 : ¬ boundTo (s.LockKeysOrigionalColours 2) k) :
    (tud_hid_set_report_cb inst report_id report_type buffer bufsize s).ColourAssignments k =
      s.ColourAssignments k ∧
    ∀ r g b, Effect.illuminate k r g b ∉
      emitted s (tud_hid_set_report_cb inst report_id report_type buffer bufsize s) := by
  by_cases ht : report_type = HID_REPORT_TYPE_OUTPUT
  · by_cases hi : report_id = REPORT_ID_KEYBOARD
    · by_cases hn : bufsize < 1
      · simp [tud_hid_set_report_cb, ht, hi, hn, emitted]
      · have key : tud_hid_set_report_cb inst report_id report_type buffer bufsize s =
            tud_hid_set_report_cb inst REPORT_ID_KEYBOARD HID_REPORT_TYPE_OUTPUT
              (buffer.headD 0 :: []) bufsize s := by
          simp [tud_hid_set_report_cb, ht, hi, hn]
        rw [key]
        obtain ⟨a1, -, -, -, -, a6⟩ := set_report_cell inst (buffer.headD 0) bufsize k [] s
          (by omega)
        rw [a1, a6, syncCell_other _ _ _ _ _ h2, syncCell_other _ _ _ _ _ h1,
          syncCell_other _ _ _ _ _ h0]
        refine ⟨rfl, fun r g b => ?_⟩
        simp only [List.mem_append, not_or]
        exact ⟨syncCall_no_illuminate _ _ _ _ _ _ _ h0, syncCall_no_illuminate _ _ _ _ _ _ _ h1,
          syncCall_no_illuminate _ _ _ _ _ _ _ h2, by simp⟩
    · simp [tud_hid_set_report_cb, ht, hi, emitted]
  · simp [tud_hid_set_report_cb, ht, emitted]

/-- C9. In any state in which the descriptor of key `k` (0..15) holds the caps-lock key code,
`RemoveButtonSetup(k)` leaves `ButtonAssignments[k]` and `ColourAssignments[k]` all zero,
sets the LED of key `k` to off and commits (its only two keypad calls), and leaves the
caps-lock record all zero.  After that, a host report with any arguments neither changes
`ColourAssignments[k]` nor illuminates key `k`, provided `k` is not the bound key of the
num-lock or the scroll-lock record. -/
theorem C9_remove_caps_lock_key (k : Nat) (s : State) (_hk : k < 16)
    (hcaps : (s.ButtonAssignments k).1 = HID_KEY_CAPS_LOCK) :
    (RemoveButtonSetup k s).ButtonAssignments k = (0, 0, 0) ∧
    (RemoveButtonSetup k s).ColourAssignments k = (0, 0, 0) ∧
    (RemoveButtonSetup k s).leds k = (0, 0, 0) ∧
    (RemoveButtonSetup k s).shown k = (0, 0, 0) ∧
    emitted s (RemoveButtonSetup k s) = [Effect.illuminate k 0 0 0, Effect.update] ∧
    (RemoveButtonSetup k s).LockKeysOrigionalColours 0 = (0, 0, 0, 0) ∧
    ∀ inst report_id report_type bufsize buffer,
      ¬ boundTo ((RemoveButtonSetup k s).LockKeysOrigionalColours 1) k →
      ¬ boundTo ((RemoveButtonSetup k s).LockKeysOrigionalColours 2) k →
      (tud_hid_set_report_cb inst report_id report_type buffer bufsize
          (RemoveButtonSetup k s)).ColourAssignments k = (0, 0, 0) ∧
      ∀ r g b, Effect.illuminate k r g b ∉
        emitted (RemoveButtonSetup k s)
          (tud_hid_set_report_cb inst report_id report_type buffer bufsize
            (RemoveButtonSetup k s)) := by
  have hrec : (RemoveButtonSetup k s).LockKeysOrigionalColours 0 = (0, 0, 0, 0) := by
    simp [RemoveButtonSetup, clearLockRecord, hcaps]
  have hcol : (RemoveButtonSetup k s).ColourAssignments k = (0, 0, 0) := by
    simp [RemoveButtonSetup]
  refine ⟨by simp [RemoveButtonSetup], hcol, by simp [RemoveButtonSetup],
    by simp [RemoveButtonSetup], ?_, hrec, ?_⟩
  · simp [RemoveButtonSetup, clearLockRecord, hcaps, emitted]
  · intro inst report_id report_type bufsize buffer h1 h2
    have h0 : ¬ boundTo ((RemoveButtonSetup k s).LockKeysOrigionalColours 0) k := by
      rw [hrec]; simp [boundTo]
    obtain ⟨a, b⟩ := set_report_fixed inst report_id report_type bufsize k buffer
      (RemoveButtonSetup k s) h0 h1 h2
    exact ⟨a.trans hcol, b⟩

/-- C9 on the configuration of `Main.cpp`: key 12 (caps lock) is removed, then the host
reports the caps-lock indicator on. -/
theorem C9_remove_caps_lock_key_witness :
    (RemoveButtonSetup 12 mainSetup).ButtonAssignments 12 = (0, 0, 0) ∧
    (RemoveButtonSetup 12 mainSetup).LockKeysOrigionalColours 0 = (0, 0, 0, 0) ∧
    (tud_hid_set_report_cb 0 REPORT_ID_KEYBOARD HID_REPORT_TYPE_OUTPUT [KEYBOARD_LED_CAPSLOCK] 1
        (RemoveButtonSetup 12 mainSetup)).ColourAssignments 12 = (0, 0, 0) ∧
    Effect.illuminate 12 0x20 0x20 0x20 ∉
      emitted (RemoveButtonSetup 12 mainSetup)
        (tud_hid_set_report_cb 0 REPORT_ID_KEYBOARD HID_REPORT_TYPE_OUTPUT
          [KEYBOARD_LED_CAPSLOCK] 1 (RemoveButtonSetup 12 mainSetup)) :=
  have h := C9_remove_caps_lock_key 12 mainSetup (by decide) rfl
  have h2 := h.2.2.2.2.2.2 0 REPORT_ID_KEYBOARD HID_REPORT_TYPE_OUTPUT 1 [KEYBOARD_LED_CAPSLOCK]
    (by decide) (by decide)
  ⟨h.1, h.2.2.2.2.2.1, h2.1, h2.2 0x20 0x20 0x20⟩

/-- C10. For key `k` (0..15) and all arguments, `SetupButton(k, r, g, b, kc, m, t)` leaves
`ButtonAssignments[k] = (kc, m, t)` and `ColourAssignments[k] = (r, g, b)`; its keypad calls
are `illuminate(k, r, g, b)` and then `update()`, so key `k` shows `(r, g, b)`; the rows of
both tables for every other key are unchanged; and the record of a lock role is modified
only if `kc` is that role's lock key code. -/
theorem C10_SetupButton_post_and_frame (k r g b kc m t : Nat) (s : State) (_hk : k < 16) :
    (SetupButton k r g b kc m t s).ButtonAssignments k = (kc, m, t) ∧
    (SetupButton k r g b kc m t s).ColourAssignments k = (r, g, b) ∧
    emitted s (SetupButton k r g b kc m t s) = [Effect.illuminate k r g b, Effect.update] ∧
    (SetupButton k r g b kc m t s).leds k = (r, g, b) ∧
    (SetupButton k r g b kc m t s).shown k = (r, g, b) ∧
    (∀ j, j ≠ k →
      (SetupButton k r g b kc m t s).ButtonAssignments j = s.ButtonAssignments j ∧
      (SetupButton k r g b kc m t s).ColourAssignments j = s.ColourAssignments j) ∧
    (∀ role, role < 3 →
      (SetupButton k r g b kc m t s).LockKeysOrigionalColours role ≠
        s.LockKeysOrigionalColours role → kc = lockKeyCode role) := by
  obtain ⟨c1, c2, c3, c4⟩ := SetupButton_cells k r g b kc m t s
  refine ⟨c1, c2, ?_, c3, c4, ?_, ?_⟩
  · have ht : (SetupButton k r g b kc m t s).trace =
        s.trace ++ [Effect.illuminate k r g b, Effect.update] := by
      simp only [SetupButton, recordLockKey]
      split_ifs <;> simp
    simp [emitted, ht]
  · intro j hj
    simp only [SetupButton, recordLockKey]
    split_ifs <;> simp [Function.update_noteq hj]
  · intro role _ hne
    rw [SetupButton_records] at hne
    by_contra hkc
    exact hne (if_neg (fun h => hkc h.2))

/-- C10 for line 37 of `Main.cpp` (key 12, colour (0, 0, 0), caps lock), on a state in
which key 2 is already configured as on line 24. -/
theorem C10_SetupButton_post_and_frame_witness :
    (SetupButton 12 0 0 0 HID_KEY_CAPS_LOCK 0 REPORT_ID_KEYBOARD
        (SetupButton 2 0x20 0x05 0x20 HID_USAGE_CONSUMER_PLAY_PAUSE 0 REPORT_ID_CONSUMER_CONTROL
          State.zero)).ButtonAssignments 12 = (HID_KEY_CAPS_LOCK, 0, REPORT_ID_KEYBOARD) ∧
    (SetupButton 12 0 0 0 HID_KEY_CAPS_LOCK 0 REPORT_ID_KEYBOARD
        (SetupButton 2 0x20 0x05 0x20 HID_USAGE_CONSUMER_PLAY_PAUSE 0 REPORT_ID_CONSUMER_CONTROL
          State.zero)).ColourAssignments 2 =
      (SetupButton 2 0x20 0x05 0x20 HID_USAGE_CONSUMER_PLAY_PAUSE 0 REPORT_ID_CONSUMER_CONTROL
          State.zero).ColourAssignments 2 :=
  have h := C10_SetupButton_post_and_frame 12 0 0 0 HID_KEY_CAPS_LOCK 0 REPORT_ID_KEYBOARD
    (SetupButton 2 0x20 0x05 0x20 HID_USAGE_CONSUMER_PLAY_PAUSE 0 REPORT_ID_CONSUMER_CONTROL
      State.zero) (by decide)
  ⟨h.1, (h.2.2.2.2.2.1 2 (by decide)).2⟩

/-! ## The flash-reset alarm -/

@[simp]
theorem alarm_done_fields (s : State) :
    (alarm_done s).ButtonAssignments = s.ButtonAssignments ∧
    (alarm_done s).ColourAssignments = s.ColourAssignments ∧
    (alarm_done s).LockKeysOrigionalColours = s.LockKeysOrigionalColours ∧
    (alarm_done s).button_states = s.button_states ∧
    (alarm_done s).last_button_states = s.last_button_states ∧
    (alarm_done s).has_keyboard_key = s.has_keyboard_key ∧
    (alarm_done s).has_consumer_key = s.has_consumer_key ∧
    (alarm_done s).TimerCancelled = s.TimerCancelled ∧
    (alarm_done s).LEDDimClock = s.LEDDimClock ∧
    (alarm_done s).start_ms = s.start_ms ∧
    (alarm_done s).leds = s.leds ∧
    (alarm_done s).shown = s.shown ∧
    (alarm_done s).brightness = s.brightness ∧
    (alarm_done s).dim_timers = s.dim_timers ∧
    (alarm_done s).flash_alarms = s.flash_alarms - 1 ∧
    (alarm_done s).in_bootloader = s.in_bootloader ∧
    (alarm_done s).trace = s.trace := by
  simp [alarm_done]

theorem repaint_eq (n : Nat) (s : State) :
    repaint n s =
      { s with leds := fun j => if j < n then s.ColourAssignments j else s.leds j,
               trace := s.trace ++ (List.range n).map (fun i =>
                 Effect.illuminate i (s.ColourAssignments i).1 (s.ColourAssignments i).2.1
                   (s.ColourAssignments i).2.2) } := by
  unfold repaint
  induction n with
  | zero => simp
  | succ n ih =>
    rw [List.range_succ, List.foldl_append, ih]
    simp only [List.foldl_cons, List.foldl_nil, illuminate, List.map_append, List.map_cons,
      List.map_nil, List.append_assoc]
    congr 1
    funext j
    by_cases hj : j = n
    · subst hj; simp
    · rw [Function.update_noteq hj]
      by_cases h1 : j < n
      · simp [h1, Nat.lt_succ_of_lt h1]
      · have h2 : ¬ j < n + 1 := by omega
        simp [h1, h2]

@[simp]
theorem ResetLEDsRepeat_fields (s : State) :
    (ResetLEDsRepeat s).ButtonAssignments = s.ButtonAssignments ∧
    (ResetLEDsRepeat s).ColourAssignments = s.ColourAssignments ∧
    (ResetLEDsRepeat s).LockKeysOrigionalColours = s.LockKeysOrigionalColours ∧
    (ResetLEDsRepeat s).button_states = s.button_states ∧
    (ResetLEDsRepeat s).last_button_states = s.last_button_states ∧
    (ResetLEDsRepeat s).has_keyboard_key = s.has_keyboard_key ∧
    (ResetLEDsRepeat s).has_consumer_key = s.has_consumer_key ∧
    (ResetLEDsRepeat s).TimerCancelled = true ∧
    (ResetLEDsRepeat s).LEDDimClock = s.LEDDimClock ∧
    (ResetLEDsRepeat s).start_ms = s.start_ms ∧
    (ResetLEDsRepeat s).leds = (fun j => if j < 16 then s.ColourAssignments j else s.leds j) ∧
    (ResetLEDsRepeat s).shown = (fun j => if j < 16 then s.ColourAssignments j else s.leds j) ∧
    (ResetLEDsRepeat s).brightness = s.brightness ∧
    (ResetLEDsRepeat s).dim_timers = s.dim_timers ∧
    (ResetLEDsRepeat s).flash_alarms = s.flash_alarms ∧
    (ResetLEDsRepeat s).in_bootloader = s.in_bootloader ∧
    (ResetLEDsRepeat s).trace =
      s.trace ++ ((List.range 16).map (fun i =>
        Effect.illuminate i (s.ColourAssignments i).1 (s.ColourAssignments i).2.1
          (s.ColourAssignments i).2.2) ++ [Effect.update]) := by
  simp [ResetLEDsRepeat, repaint_eq]

@[simp]
theorem DimLEDTimer_fields (s : State) :
    (DimLEDTimer s).ButtonAssignments = s.ButtonAssignments ∧
    (DimLEDTimer s).ColourAssignments = s.ColourAssignments ∧
    (DimLEDTimer s).LockKeysOrigionalColours = s.LockKeysOrigionalColours ∧
    (DimLEDTimer s).button_states = s.button_states ∧
    (DimLEDTimer s).last_button_states = s.last_button_states ∧
    (DimLEDTimer s).has_keyboard_key = s.has_keyboard_key ∧
    (DimLEDTimer s).has_consumer_key = s.has_consumer_key ∧
    (DimLEDTimer s).TimerCancelled = s.TimerCancelled ∧
    (DimLEDTimer s).LEDDimClock = false ∧
    (DimLEDTimer s).start_ms = s.start_ms ∧
    (DimLEDTimer s).leds = s.leds ∧
    (DimLEDTimer s).shown = s.leds ∧
    (DimLEDTimer s).brightness = MinBrightness ∧
    (DimLEDTimer s).dim_timers = s.dim_timers - 1 ∧
    (DimLEDTimer s).flash_alarms = s.flash_alarms ∧
    (DimLEDTimer s).in_bootloader = s.in_bootloader ∧
    (DimLEDTimer s).trace =
      s.trace ++ [Effect.set_brightness MinBrightness, Effect.update,
        Effect.cancel_repeating_timer] := by
  simp [DimLEDTimer]

@[simp]
theorem InitializeDevice_fields (s : State) :
    (InitializeDevice s).ButtonAssignments = s.ButtonAssignments ∧
    (InitializeDevice s).ColourAssignments = s.ColourAssignments ∧
    (InitializeDevice s).LockKeysOrigionalColours = s.LockKeysOrigionalColours ∧
    (InitializeDevice s).button_states = s.button_states ∧
    (InitializeDevice s).last_button_states = s.last_button_states ∧
    (InitializeDevice s).has_keyboard_key = s.has_keyboard_key ∧
    (InitializeDevice s).has_consumer_key = s.has_consumer_key ∧
    (InitializeDevice s).TimerCancelled = true ∧
    (InitializeDevice s).LEDDimClock = true ∧
    (InitializeDevice s).start_ms = s.start_ms ∧
    (InitializeDevice s).leds = s.leds ∧
    (InitializeDevice s).shown = s.shown ∧
    (InitializeDevice s).brightness = MaxBrightness ∧
    (InitializeDevice s).dim_timers = s.dim_timers + 1 ∧
    (InitializeDevice s).flash_alarms = s.flash_alarms ∧
    (InitializeDevice s).in_bootloader = s.in_bootloader ∧
    (InitializeDevice s).trace =
      s.trace ++ [Effect.keypad_init, Effect.set_brightness MaxBrightness,
        Effect.add_repeating_timer] := by
  simp [InitializeDevice]

theorem sampled_eq (i : TickInput) (s : State) :
    sampled i s = { s with button_states := i.buttons, last_button_states := i.buttons } := by
  simp [sampled, set_last_button_states, set_button_states]

@[simp]
theorem sampled_fields (i : TickInput) (s : State) :
    (sampled i s).ButtonAssignments = s.ButtonAssignments ∧
    (sampled i s).ColourAssignments = s.ColourAssignments ∧
    (sampled i s).LockKeysOrigionalColours = s.LockKeysOrigionalColours ∧
    (sampled i s).button_states = i.buttons ∧
    (sampled i s).last_button_states = i.buttons ∧
    (sampled i s).has_keyboard_key = s.has_keyboard_key ∧
    (sampled i s).has_consumer_key = s.has_consumer_key ∧
    (sampled i s).TimerCancelled = s.TimerCancelled ∧
    (sampled i s).LEDDimClock = s.LEDDimClock ∧
    (sampled i s).start_ms = s.start_ms ∧
    (sampled i s).leds = s.leds ∧
    (sampled i s).shown = s.shown ∧
    (sampled i s).brightness = s.brightness ∧
    (sampled i s).dim_timers = s.dim_timers ∧
    (sampled i s).flash_alarms = s.flash_alarms ∧
    (sampled i s).in_bootloader = s.in_bootloader ∧
    (sampled i s).trace = s.trace := by
  simp [sampled]

@[simp]
theorem released_fields (keyboard : Bool) (s : State) :
    (released keyboard s).ButtonAssignments = s.ButtonAssignments ∧
    (released keyboard s).ColourAssignments = s.ColourAssignments ∧
    (released keyboard s).LockKeysOrigionalColours = s.LockKeysOrigionalColours ∧
    (released keyboard s).button_states = s.button_states ∧
    (released keyboard s).last_button_states = s.last_button_states ∧
    (released keyboard s).TimerCancelled = s.TimerCancelled ∧
    (released keyboard s).LEDDimClock = s.LEDDimClock ∧
    (released keyboard s).start_ms = s.start_ms ∧
    (released keyboard s).leds = s.leds ∧
    (released keyboard s).shown = s.shown ∧
    (released keyboard s).brightness = s.brightness ∧
    (released keyboard s).dim_timers = s.dim_timers ∧
    (released keyboard s).flash_alarms = s.flash_alarms ∧
    (released keyboard s).in_bootloader = s.in_bootloader := by
  cases keyboard <;> simp [released]

/-- What a poll tick can be: a remote wakeup, a release, a sample without a press, or the
action of the key decoded from a changed nonzero mask. -/
theorem pollTick_cases (i : TickInput) (s : State) :
    pollTick i s = tud_remote_wakeup s ∨
    pollTick i s = released true s ∨
    pollTick i s = released false s ∨
    pollTick i s = sampled i s ∨
    (reachesSampling i s ∧ i.buttons ≠ s.last_button_states ∧ 0 < i.buttons ∧
      pollTick i s = pressAction i (bitScan i.buttons 0) (rearmDimTimer (sampled i s))) := by
  by_cases hs : i.suspended = true
  · left; simp [pollTick, hs]
  · have hs' : i.suspended = false := by simpa using hs
    by_cases hr : i.ready_release = true
    · by_cases hk : s.has_keyboard_key = true
      · right; left; exact pollTick_release_keyboard i s hs' hr hk
      · have hk' : s.has_keyboard_key = false := by simpa using hk
        by_cases hc : s.has_consumer_key = true
        · right; right; left; exact pollTick_release_consumer i s hs' hr hk' hc
        · have hreach : reachesSampling i s := ⟨hs', by simp [hk', hc]⟩
          rw [pollTick_of_reachesSampling i s hreach]
          by_cases hm : i.buttons = s.last_button_states ∨ i.buttons = 0
          · right; right; right; left
            rw [sampleButtons_idle i s hm, sampled_eq]
          · right; right; right; right
            have h1 : i.buttons ≠ s.last_button_states := fun h => hm (Or.inl h)
            have h2 : 0 < i.buttons := Nat.pos_of_ne_zero (fun h => hm (Or.inr h))
            exact ⟨hreach, h1, h2, sampleButtons_press i s _ h1 h2 rfl⟩
    · have hreach : reachesSampling i s := ⟨hs', by simp [hr]⟩
      rw [pollTick_of_reachesSampling i s hreach]
      by_cases hm : i.buttons = s.last_button_states ∨ i.buttons = 0
      · right; right; right; left
        rw [sampleButtons_idle i s hm, sampled_eq]
      · right; right; right; right
        have h1 : i.buttons ≠ s.last_button_states := fun h => hm (Or.inl h)
        have h2 : 0 < i.buttons := Nat.pos_of_ne_zero (fun h => hm (Or.inr h))
        exact ⟨hreach, h1, h2, sampleButtons_press i s _ h1 h2 rfl⟩


theorem SendKeypress_trace (ready : Bool) (report_id KeyCode Modifiers : Nat) (s : State) :
    (SendKeypress ready report_id KeyCode Modifiers s).trace =
      s.trace ++ sendCalls ready report_id KeyCode Modifiers s := by
  unfold SendKeypress sendCalls
  cases ready <;> cases hc : s.has_consumer_key <;> cases hk : s.has_keyboard_key <;>
    by_cases h1 : report_id = REPORT_ID_KEYBOARD <;>
    by_cases h2 : report_id = REPORT_ID_CONSUMER_CONTROL <;>
    simp [h1, h2, hc, hk, (by decide : REPORT_ID_KEYBOARD ≠ REPORT_ID_CONSUMER_CONTROL),
      (by decide : REPORT_ID_CONSUMER_CONTROL ≠ REPORT_ID_KEYBOARD)]

theorem pressFeedback_trace (i : TickInput) (k : Nat) (s : State) :
    (pressFeedback i k s).trace = s.trace ++ feedbackCalls i k s := by
  unfold pressFeedback feedbackCalls
  cases hp : i.ready_press <;> cases hl : isLockKey (s.ButtonAssignments k).1 <;>
    simp [SendKeypress_trace, sendCalls]

theorem startFlashReset_trace (k : Nat) (s : State) :
    (startFlashReset k s).trace =
      s.trace ++ (if s.TimerCancelled = true ∧ isLockKey (s.ButtonAssignments k).1 = false then
        [Effect.add_alarm_in_ms 300] else []) := by
  unfold startFlashReset
  cases ht : s.TimerCancelled <;> cases hl : isLockKey (s.ButtonAssignments k).1 <;> simp

theorem pressAction_trace (i : TickInput) (k : Nat) (s : State) :
    (pressAction i k s).trace = s.trace ++ pressCalls i k s := by
  unfold pressAction pressCalls
  split_ifs <;> simp_all [startFlashReset_trace, pressFeedback_trace]

theorem rearmDimTimer_calls (s : State) :
    (rearmDimTimer s).trace = s.trace ++ rearmCalls s := by
  rw [rearmDimTimer_trace]; rfl

theorem emitted_append (a b : State) (l : List Effect) (h : b.trace = a.trace ++ l) :
    emitted a b = l := by
  simp [emitted, h]

/-- The calls of a poll tick that acts on a press. -/
theorem press_emitted (i : TickInput) (k : Nat) (s : State) :
    emitted s (pressAction i k (rearmDimTimer (sampled i s))) =
      rearmCalls s ++ pressCalls i k (rearmDimTimer (sampled i s)) := by
  apply emitted_append
  rw [pressAction_trace, rearmDimTimer_calls]
  simp [rearmCalls]

theorem startFlashReset_timer (k : Nat) (s : State) :
    ((startFlashReset k s).TimerCancelled = false ∧
        (startFlashReset k s).flash_alarms = s.flash_alarms + 1 ∧
        s.TimerCancelled = true ∧ isLockKey (s.ButtonAssignments k).1 = false) ∨
    ((startFlashReset k s).TimerCancelled = s.TimerCancelled ∧
        (startFlashReset k s).flash_alarms = s.flash_alarms ∧
        ¬ (s.TimerCancelled = true ∧ isLockKey (s.ButtonAssignments k).1 = false)) := by
  unfold startFlashReset
  cases ht : s.TimerCancelled <;> cases hl : isLockKey (s.ButtonAssignments k).1 <;>
    simp [ht, hl]

theorem pressAction_flashInv (i : TickInput) (k : Nat) (s : State) (h : flashInv s) :
    flashInv (pressAction i k s) := by
  unfold flashInv at h ⊢
  unfold pressAction
  split_ifs
  · simpa using h
  · rcases startFlashReset_timer k (update (pressFeedback i k s)) with ⟨a, b, c, -⟩ | ⟨a, b, -⟩
    · rw [a, b]
      simp only [update_fields, pressFeedback_frame] at c ⊢
      have h0 : s.flash_alarms = 0 := by
        rcases h with ⟨h1, h2⟩
        by_contra hne
        have : s.flash_alarms = 1 := by omega
        rw [h2.1 this] at c
        exact absurd c (by decide)
      simp [h0]
    · rw [a, b]
      simpa using h

theorem pollTick_flashInv (i : TickInput) (s : State) (h : flashInv s) :
    flashInv (pollTick i s) := by
  rcases pollTick_cases i s with e | e | e | e | ⟨-, -, -, e⟩
  · rw [e]; simpa [flashInv] using h
  · rw [e]; simpa [flashInv] using h
  · rw [e]; simpa [flashInv] using h
  · rw [e]; simpa [flashInv] using h
  · rw [e]; exact pressAction_flashInv _ _ _ (by simpa [flashInv] using h)

theorem Loop_flashInv (i : TickInput) (s : State) (h : flashInv s) : flashInv (Loop i s) := by
  unfold Loop
  split_ifs
  · exact h
  · exact pollTick_flashInv _ _ (by simpa [flashInv] using h)

@[simp]
theorem tud_hid_set_report_cb_frame (inst report_id report_type bufsize : Nat)
    (buffer : List Nat) (s : State) :
    (tud_hid_set_report_cb inst report_id report_type buffer bufsize s).ButtonAssignments =
      s.ButtonAssignments ∧
    (tud_hid_set_report_cb inst report_id report_type buffer bufsize
      s).LockKeysOrigionalColours = s.LockKeysOrigionalColours ∧
    (tud_hid_set_report_cb inst report_id report_type buffer bufsize s).button_states =
      s.button_states ∧
    (tud_hid_set_report_cb inst report_id report_type buffer bufsize s).last_button_states =
      s.last_button_states ∧
    (tud_hid_set_report_cb inst report_id report_type buffer bufsize s).has_keyboard_key =
      s.has_keyboard_key ∧
    (tud_hid_set_report_cb inst report_id report_type buffer bufsize s).has_consumer_key =
      s.has_consumer_key ∧
    (tud_hid_set_report_cb inst report_id report_type buffer bufsize s).TimerCancelled =
      s.TimerCancelled ∧
    (tud_hid_set_report_cb inst report_id report_type buffer bufsize s).LEDDimClock =
      s.LEDDimClock ∧
    (tud_hid_set_report_cb inst report_id report_type buffer bufsize s).start_ms = s.start_ms ∧
    (tud_hid_set_report_cb inst report_id report_type buffer bufsize s).brightness =
      s.brightness ∧
    (tud_hid_set_report_cb inst report_id report_type buffer bufsize s).dim_timers =
      s.dim_timers ∧
    (tud_hid_set_report_cb inst report_id report_type buffer bufsize s).flash_alarms =
      s.flash_alarms ∧
    (tud_hid_set_report_cb inst report_id report_type buffer bufsize s).in_bootloader =
      s.in_bootloader := by
  unfold tud_hid_set_report_cb
  split_ifs <;> simp

@[simp]
theorem SetupButton_frame (k r g b kc m t : Nat) (s : State) :
    (SetupButton k r g b kc m t s).button_states = s.button_states ∧
    (SetupButton k r g b kc m t s).last_button_states = s.last_button_states ∧
    (SetupButton k r g b kc m t s).has_keyboard_key = s.has_keyboard_key ∧
    (SetupButton k r g b kc m t s).has_consumer_key = s.has_consumer_key ∧
    (SetupButton k r g b kc m t s).TimerCancelled = s.TimerCancelled ∧
    (SetupButton k r g b kc m t s).LEDDimClock = s.LEDDimClock ∧
    (SetupButton k r g b kc m t s).start_ms = s.start_ms ∧
    (SetupButton k r g b kc m t s).brightness = s.brightness ∧
    (SetupButton k r g b kc m t s).dim_timers = s.dim_timers ∧
    (SetupButton k r g b kc m t s).flash_alarms = s.flash_alarms ∧
    (SetupButton k r g b kc m t s).in_bootloader = s.in_bootloader := by
  simp only [SetupButton, recordLockKey]
  split_ifs <;> simp

@[simp]
theorem RemoveButtonSetup_frame (k : Nat) (s : State) :
    (RemoveButtonSetup k s).button_states = s.button_states ∧
    (RemoveButtonSetup k s).last_button_states = s.last_button_states ∧
    (RemoveButtonSetup k s).has_keyboard_key = s.has_keyboard_key ∧
    (RemoveButtonSetup k s).has_consumer_key = s.has_consumer_key ∧
    (RemoveButtonSetup k s).TimerCancelled = s.TimerCancelled ∧
    (RemoveButtonSetup k s).LEDDimClock = s.LEDDimClock ∧
    (RemoveButtonSetup k s).start_ms = s.start_ms ∧
    (RemoveButtonSetup k s).brightness = s.brightness ∧
    (RemoveButtonSetup k s).dim_timers = s.dim_timers ∧
    (RemoveButtonSetup k s).flash_alarms = s.flash_alarms ∧
    (RemoveButtonSetup k s).in_bootloader = s.in_bootloader := by
  simp only [RemoveButtonSetup, clearLockRecord]
  split_ifs <;> simp

theorem fireFlashAlarm_flashInv (s : State) (h : flashInv s) : flashInv (fireFlashAlarm s) := by
  unfold fireFlashAlarm
  split_ifs with h1 h2
  · unfold flashInv at h ⊢
    have : s.flash_alarms = 1 := by omega
    simp [this]
  · exact absurd rfl h2
  · exact h

theorem step_flashInv (e : Event) (s : State) (h : flashInv s) : flashInv (step e s) := by
  cases e with
  | tick i => exact Loop_flashInv i s h
  | flashAlarm => exact fireFlashAlarm_flashInv s h
  | dimTimer =>
    simp only [step, fireDimTimer]
    split_ifs
    · simpa [flashInv] using h
    · exact h
  | hostReport inst report_id report_type buffer bufsize => simpa [step, flashInv] using h
  | setup k r g b kc m t => simpa [step, flashInv] using h
  | remove k => simpa [step, flashInv] using h

theorem run_flashInv (events : List Event) (s : State) (h : flashInv s) :
    flashInv (run events s) := by
  unfold run
  induction events generalizing s with
  | nil => exact h
  | cons e rest ih => exact ih (step e s) (step_flashInv e s h)

theorem booted_flashInv : flashInv booted := by
  simp [flashInv, booted, State.zero]


theorem alarmsScheduled_append (a b : List Effect) :
    alarmsScheduled (a ++ b) = alarmsScheduled a + alarmsScheduled b := by
  simp [alarmsScheduled]

theorem alarmsScheduled_illuminate (l : List Nat) (r g b : Nat) :
    alarmsScheduled (l.map (fun j => Effect.illuminate j r g b)) = 0 := by
  induction l with
  | nil => rfl
  | cons a l ih =>
    simp only [alarmsScheduled, List.map_cons, List.length_eq_zero] at ih ⊢
    rw [List.filter_cons_of_neg (by simp)]
    exact ih

theorem alarmsScheduled_sendCalls (ready : Bool) (report_id KeyCode Modifiers : Nat)
    (s : State) : alarmsScheduled (sendCalls ready report_id KeyCode Modifiers s) = 0 := by
  unfold sendCalls
  split_ifs <;> simp [alarmsScheduled]

theorem alarmsScheduled_feedbackCalls (i : TickInput) (k : Nat) (s : State) :
    alarmsScheduled (feedbackCalls i k s) = 0 := by
  unfold feedbackCalls
  split_ifs
  · simp only [alarmsScheduled_append, alarmsScheduled_sendCalls]
    simp [alarmsScheduled]
  · simp only [alarmsScheduled_append, alarmsScheduled_sendCalls]
    simp [alarmsScheduled]
  · exact alarmsScheduled_illuminate _ _ _ _

theorem alarmsScheduled_rearmCalls (s : State) : alarmsScheduled (rearmCalls s) = 0 := by
  unfold rearmCalls
  split_ifs <;> simp [alarmsScheduled]

theorem alarmsScheduled_pressCalls (i : TickInput) (k : Nat) (s : State) :
    alarmsScheduled (pressCalls i k s) =
      if (s.ButtonAssignments k).2.2 = REPORT_ID_TINYPICO then 0
      else if s.TimerCancelled = true ∧ isLockKey (s.ButtonAssignments k).1 = false then 1
      else 0 := by
  unfold pressCalls
  by_cases h1 : (s.ButtonAssignments k).2.2 = REPORT_ID_TINYPICO
  · simp only [h1, if_true, alarmsScheduled_append, alarmsScheduled_illuminate]
    simp [alarmsScheduled]
  · simp only [h1, if_false, alarmsScheduled_append, alarmsScheduled_feedbackCalls]
    by_cases h2 : s.TimerCancelled = true ∧ isLockKey (s.ButtonAssignments k).1 = false
    · simp [h2, alarmsScheduled]
    · simp [h2, alarmsScheduled]

theorem pressAction_flash_alarms (i : TickInput) (k : Nat) (s : State) :
    (pressAction i k s).flash_alarms = s.flash_alarms + alarmsScheduled (pressCalls i k s) := by
  rw [alarmsScheduled_pressCalls]
  unfold pressAction
  by_cases h1 : (s.ButtonAssignments k).2.2 = REPORT_ID_TINYPICO
  · simp [h1]
  · cases ht : s.TimerCancelled <;> cases hl : isLockKey (s.ButtonAssignments k).1 <;>
      simp [h1, startFlashReset, ht, hl]

theorem pollTick_alarmsScheduled (i : TickInput) (s : State) (h : flashInv s) :
    alarmsScheduled (emitted s (pollTick i s)) + s.flash_alarms ≤ 1 := by
  obtain ⟨h1, h2⟩ := h
  rcases pollTick_cases i s with e | e | e | e | ⟨-, -, -, e⟩
  · rw [e]; simpa [emitted, alarmsScheduled] using h1
  · rw [e]; simpa [emitted, alarmsScheduled, released] using h1
  · rw [e]; simpa [emitted, alarmsScheduled, released] using h1
  · rw [e]; simpa [emitted, alarmsScheduled] using h1
  · rw [e, press_emitted, alarmsScheduled_append, alarmsScheduled_rearmCalls,
      alarmsScheduled_pressCalls]
    split_ifs with hc hd
    · omega
    · simp only [rearmDimTimer_frame, sampled_fields] at hd
      have : s.flash_alarms ≠ 1 := fun h => by
        rw [h2.1 h] at hd; exact absurd hd.1 (by decide)
      omega
    · omega

theorem fireFlashAlarm_idem (s : State) (h : flashInv s) :
    fireFlashAlarm (fireFlashAlarm s) = fireFlashAlarm s := by
  by_cases h1 : 0 < s.flash_alarms
  · have h0 : (fireFlashAlarm s).flash_alarms = 0 := by
      have : s.flash_alarms = 1 := by have := h.1; omega
      simp [fireFlashAlarm, h1, ResetLEDsRepeat_result, this]
    conv_lhs => rw [fireFlashAlarm, if_neg (by omega)]
  · have e : fireFlashAlarm s = s := by simp [fireFlashAlarm, h1]
    rw [e, e]

/-- C11. In every state reachable from `InitializeDevice` by calls of `Loop`, firings of the
flash-reset alarm and of the dim timer, host reports and configuration calls: at most one
flash-reset alarm is outstanding, and one is outstanding exactly when `TimerCancelled` is
false.  Hence a poll tick schedules an alarm only when none is outstanding (a second
qualifying press within 300 ms schedules no second alarm), and once the alarm has fired no
further firing happens, so the colours are restored once. -/
theorem C11_single_flash_reset_alarm (events : List Event) (i : TickInput) :
    (run events booted).flash_alarms ≤ 1 ∧
    ((run events booted).flash_alarms = 1 ↔ (run events booted).TimerCancelled = false) ∧
    alarmsScheduled (emitted (run events booted) (pollTick i (run events booted))) +
      (run events booted).flash_alarms ≤ 1 ∧
    (pollTick i (run events booted)).flash_alarms =
      (run events booted).flash_alarms +
        alarmsScheduled (emitted (run events booted) (pollTick i (run events booted))) ∧
    fireFlashAlarm (fireFlashAlarm (run events booted)) = fireFlashAlarm (run events booted) := by
  have h := run_flashInv events booted booted_flashInv
  refine ⟨h.1, h.2, pollTick_alarmsScheduled i _ h, ?_, fireFlashAlarm_idem _ h⟩
  generalize run events booted = s
  rcases pollTick_cases i s with e | e | e | e | ⟨-, -, -, e⟩
  · rw [e]; simp [emitted, alarmsScheduled]
  · rw [e]; simp [emitted, alarmsScheduled, released]
  · rw [e]; simp [emitted, alarmsScheduled, released]
  · rw [e]; simp [emitted, alarmsScheduled]
  · rw [e, press_emitted, alarmsScheduled_append, alarmsScheduled_rearmCalls,
      pressAction_flash_alarms]
    simp


theorem twoPresses_run :
    (run twoPresses booted).flash_alarms = 1 ∧
    (run twoPresses booted).TimerCancelled = false ∧
    alarmsScheduled (run twoPresses booted).trace = 1 ∧
    (run twoPresses booted).shown 0 = (0x20, 0x20, 0x00) ∧
    (run twoPresses booted).shown 1 = (0x20, 0x20, 0x00) ∧
    (run (twoPresses ++ [Event.flashAlarm]) booted).flash_alarms = 0 ∧
    (run (twoPresses ++ [Event.flashAlarm]) booted).shown 0 = (0x00, 0x00, 0x20) ∧
    (run (twoPresses ++ [Event.flashAlarm]) booted).shown 1 = (0x00, 0x20, 0x00) := by
  simp [run, twoPresses, step, booted, Loop, pollTick, sampleButtons, pressAction, pressFeedback,
    startFlashReset, SendKeypress, rearmDimTimer, SetupButton, recordLockKey, bitScan_values,
    fireFlashAlarm, ResetLEDsRepeat_result, State.zero, alarmsScheduled,
    REPORT_ID_KEYBOARD, REPORT_ID_TINYPICO, isLockKey, HID_KEY_O, HID_KEY_ARROW_UP,
    HID_KEY_CAPS_LOCK, HID_KEY_NUM_LOCK, HID_KEY_SCROLL_LOCK]

/-- C11 on the two-press scenario: after two qualifying presses of different keys 20 ms apart
one alarm is outstanding and one was scheduled in all; a third press schedules none; after
the alarm has fired none is outstanding and keys 0 and 1 show their configured colours. -/
theorem C11_single_flash_reset_alarm_witness :
    (run twoPresses booted).flash_alarms = 1 ∧
    (run twoPresses booted).TimerCancelled = false ∧
    alarmsScheduled (run twoPresses booted).trace = 1 ∧
    alarmsScheduled (emitted (run twoPresses booted)
        (pollTick ⟨50, false, false, 1, true, true⟩ (run twoPresses booted))) +
      (run twoPresses booted).flash_alarms ≤ 1 ∧
    (run (twoPresses ++ [Event.flashAlarm]) booted).flash_alarms = 0 ∧
    (run (twoPresses ++ [Event.flashAlarm]) booted).shown 0 = (0x00, 0x00, 0x20) ∧
    (run (twoPresses ++ [Event.flashAlarm]) booted).shown 1 = (0x00, 0x20, 0x00) :=
  ⟨twoPresses_run.1, twoPresses_run.2.1, twoPresses_run.2.2.1,
   (C11_single_flash_reset_alarm twoPresses ⟨50, false, false, 1, true, true⟩).2.2.1,
   twoPresses_run.2.2.2.2.2.1, twoPresses_run.2.2.2.2.2.2.1, twoPresses_run.2.2.2.2.2.2.2⟩

/-! ## The dim timer -/

theorem rearmDimTimer_dim (s : State) :
    (rearmDimTimer s).dim_timers = (if s.LEDDimClock = true then s.dim_timers - 1
      else s.dim_timers) + 1 ∧
    (rearmDimTimer s).brightness = (if s.LEDDimClock = true then s.brightness
      else MaxBrightness) ∧
    (rearmDimTimer s).shown = (if s.LEDDimClock = true then s.shown else s.leds) := by
  unfold rearmDimTimer
  split_ifs <;> simp

theorem rearmDimTimer_dimInv (s : State) (h : dimInv s) :
    (rearmDimTimer s).LEDDimClock = true ∧ (rearmDimTimer s).dim_timers = 1 ∧
    (rearmDimTimer s).brightness = MaxBrightness := by
  obtain ⟨a, b, c⟩ := rearmDimTimer_dim s
  rcases h with ⟨h1, h2, h3⟩ | ⟨h1, h2, h3⟩
  · simp [a, b, h1, h2, h3]
  · simp [a, b, h1, h2]

theorem pollTick_dimInv (i : TickInput) (s : State) (h : dimInv s) : dimInv (pollTick i s) := by
  rcases pollTick_cases i s with e | e | e | e | ⟨-, -, -, e⟩
  · rw [e]; simpa [dimInv] using h
  · rw [e]; simpa [dimInv] using h
  · rw [e]; simpa [dimInv] using h
  · rw [e]; simpa [dimInv] using h
  · rw [e]
    have h' : dimInv (sampled i s) := by simpa [dimInv] using h
    obtain ⟨a, b, c⟩ := rearmDimTimer_dimInv _ h'
    left
    simp [a, b, c]

theorem fireDimTimer_dimInv (s : State) (h : dimInv s) : dimInv (fireDimTimer s) := by
  unfold fireDimTimer
  split_ifs with h0
  · rcases h with ⟨h1, h2, h3⟩ | ⟨h1, h2, h3⟩
    · right; simp [h2]
    · omega
  · exact h

theorem step_dimInv (e : Event) (s : State) (h : dimInv s) : dimInv (step e s) := by
  cases e with
  | tick i =>
    simp only [step, Loop]
    split_ifs
    · exact h
    · exact pollTick_dimInv _ _ (by simpa [dimInv] using h)
  | flashAlarm =>
    simp only [step, fireFlashAlarm]
    split_ifs
    · simpa [dimInv] using h
    · simpa [dimInv] using h
    · exact h
  | dimTimer => exact fireDimTimer_dimInv s h
  | hostReport inst report_id report_type buffer bufsize => simpa [step, dimInv] using h
  | setup k r g b kc m t => simpa [step, dimInv] using h
  | remove k => simpa [step, dimInv] using h

theorem run_dimInv (events : List Event) (s : State) (h : dimInv s) :
    dimInv (run events s) := by
  unfold run
  induction events generalizing s with
  | nil => exact h
  | cons e rest ih => exact ih (step e s) (step_dimInv e s h)

theorem booted_dimInv : dimInv booted := by
  simp [dimInv, booted, State.zero]

/-- The dim state machine when every firing falls between two calls of `Loop` (no callback
runs inside a call).  In every state reachable from `InitializeDevice` by calls of `Loop`,
firings of the dim timer and of the flash-reset alarm, host reports and configuration calls,
either `LEDDimClock` is true, exactly one dim timer is armed and the brightness is `MaxBrightness`,
or `LEDDimClock` is false, no dim timer is armed and the brightness is `MinBrightness`.  So
at most one dim timer is armed; a second firing of the dim timer without a press in between
does not happen (it changes nothing); and a poll tick that samples a changed nonzero mask
arms the dim timer anew and ends with `LEDDimClock` true, one armed dim timer and maximum
brightness. -/
theorem dim_state_machine_between_calls (events : List Event) (i : TickInput) :
    (((run events booted).LEDDimClock = true ∧ (run events booted).dim_timers = 1 ∧
        (run events booted).brightness = MaxBrightness) ∨
      ((run events booted).LEDDimClock = false ∧ (run events booted).dim_timers = 0 ∧
        (run events booted).brightness = MinBrightness)) ∧
    (run events booted).dim_timers ≤ 1 ∧
    fireDimTimer (fireDimTimer (run events booted)) = fireDimTimer (run events booted) ∧
    (reachesSampling i (run events booted) →
      i.buttons ≠ (run events booted).last_button_states → 0 < i.buttons →
      (pollTick i (run events booted)).LEDDimClock = true ∧
      (pollTick i (run events booted)).dim_timers = 1 ∧
      (pollTick i (run events booted)).brightness = MaxBrightness ∧
      Effect.add_repeating_timer ∈
        emitted (run events booted) (pollTick i (run events booted))) := by
  have h := run_dimInv events booted booted_dimInv
  generalize run events booted = s at h ⊢
  refine ⟨h, ?_, ?_, ?_⟩
  · rcases h with ⟨-, h2, -⟩ | ⟨-, h2, -⟩ <;> omega
  · have h' := fireDimTimer_dimInv s h
    by_cases h0 : 0 < s.dim_timers
    · have h1 : (fireDimTimer s).dim_timers = 0 := by
        rcases h with ⟨-, h2, -⟩ | ⟨-, h2, -⟩
        · simp [fireDimTimer, h2]
        · omega
      conv_lhs => rw [fireDimTimer, if_neg (by omega)]
    · have e : fireDimTimer s = s := by simp [fireDimTimer, h0]
      rw [e, e]
  · intro hreach hchg hpos
    rw [pollTick_of_reachesSampling i s hreach, sampleButtons_press i s _ hchg hpos rfl]
    have h' : dimInv (sampled i s) := by simpa [dimInv] using h
    obtain ⟨a, b, c⟩ := rearmDimTimer_dimInv _ h'
    refine ⟨by simp, by simpa [sampled] using b,
      by simpa [sampled] using c, ?_⟩
    have e := press_emitted i (bitScan i.buttons 0) s
    simp only [sampled] at e
    rw [e]
    simp [rearmCalls]

/-- The dim state machine on the state after `InitializeDevice`: the dim timer fires between
two calls of `Loop`, then key 0 is pressed. -/
theorem dim_state_machine_between_calls_witness :
    (run [Event.dimTimer] booted).LEDDimClock = false ∧
    (run [Event.dimTimer] booted).dim_timers = 0 ∧
    (run [Event.dimTimer] booted).brightness = MinBrightness ∧
    (pollTick ⟨10, false, true, 1, true, true⟩ (run [Event.dimTimer] booted)).LEDDimClock = true ∧
    (pollTick ⟨10, false, true, 1, true, true⟩ (run [Event.dimTimer] booted)).dim_timers = 1 ∧
    (pollTick ⟨10, false, true, 1, true, true⟩ (run [Event.dimTimer] booted)).brightness =
      MaxBrightness ∧
    Effect.add_repeating_timer ∈
      emitted (run [Event.dimTimer] booted)
        (pollTick ⟨10, false, true, 1, true, true⟩ (run [Event.dimTimer] booted)) :=
  ⟨rfl, rfl, rfl,
   (dim_state_machine_between_calls [Event.dimTimer] ⟨10, false, true, 1, true, true⟩).2.2.2
     (by decide) (by decide) (by decide)⟩


/-! ## Presses without a report -/

theorem filter_isHid_illuminate (l : List Nat) (r g b : Nat) :
    (l.map (fun j => Effect.illuminate j r g b)).filter Effect.isHid = [] := by
  induction l with
  | nil => rfl
  | cons a l ih => simp [Effect.isHid, ih]

theorem filter_isHid_rearmCalls (s : State) : (rearmCalls s).filter Effect.isHid = [] := by
  unfold rearmCalls
  split_ifs <;> simp [Effect.isHid]

theorem press_fields (i : TickInput) (k : Nat) (s : State) :
    (pressAction i k (rearmDimTimer (sampled i s))).ButtonAssignments = s.ButtonAssignments ∧
    (pressAction i k (rearmDimTimer (sampled i s))).ColourAssignments = s.ColourAssignments ∧
    (pressAction i k (rearmDimTimer (sampled i s))).LockKeysOrigionalColours =
      s.LockKeysOrigionalColours ∧
    (pressAction i k (rearmDimTimer (sampled i s))).button_states = i.buttons ∧
    (pressAction i k (rearmDimTimer (sampled i s))).last_button_states = i.buttons ∧
    (pressAction i k (rearmDimTimer (sampled i s))).LEDDimClock = true ∧
    (pressAction i k (rearmDimTimer (sampled i s))).start_ms = s.start_ms := by
  simp

/-- C13. On a poll tick with the bus not suspended and the transport not ready at the release
check and at the press check, which samples a changed nonzero mask whose decoded key is not
a device-reset key: no HID report is emitted, both held flags are unchanged, each of the 16
LEDs is painted (0x20, 0x00, 0x00) and the colours are committed.  The calls of the tick are
those of the dim-timer restart, the 16 `illuminate` calls, `update()` and, when
`TimerCancelled` is true and the key is not a lock key, the flash-reset alarm. -/
theorem C13_unready_press_paints_red (i : TickInput) (s : State)
    (hs : i.suspended = false) (hr : i.ready_release = false) (hp : i.ready_press = false)
    (hchg : i.buttons ≠ s.last_button_states) (hpos : 0 < i.buttons)
    (hkind : (s.ButtonAssignments (bitScan i.buttons 0)).2.2 ≠ REPORT_ID_TINYPICO) :
    hidReports s (pollTick i s) = [] ∧
    (pollTick i s).has_keyboard_key = s.has_keyboard_key ∧
    (pollTick i s).has_consumer_key = s.has_consumer_key ∧
    (∀ j, j < 16 → (pollTick i s).leds j = (0x20, 0x00, 0x00) ∧
      (pollTick i s).shown j = (0x20, 0x00, 0x00)) ∧
    emitted s (pollTick i s) =
      rearmCalls s ++ (List.range 16).map (fun j => Effect.illuminate j 0x20 0x00 0x00) ++
        [Effect.update] ++
        (if s.TimerCancelled = true ∧
            isLockKey (s.ButtonAssignments (bitScan i.buttons 0)).1 = false then
          [Effect.add_alarm_in_ms 300] else []) := by
  have hreach : reachesSampling i s := ⟨hs, by simp [hr]⟩
  rw [pollTick_of_reachesSampling i s hreach, sampleButtons_press i s _ hchg hpos rfl]
  have hem := press_emitted i (bitScan i.buttons 0) s
  simp only [sampled] at hem
  have hcalls : pressCalls i (bitScan i.buttons 0) (rearmDimTimer
      (set_last_button_states i.buttons (set_button_states i.buttons s))) =
      (List.range 16).map (fun j => Effect.illuminate j 0x20 0x00 0x00) ++ [Effect.update] ++
        (if s.TimerCancelled = true ∧
            isLockKey (s.ButtonAssignments (bitScan i.buttons 0)).1 = false then
          [Effect.add_alarm_in_ms 300] else []) := by
    simp [pressCalls, feedbackCalls, hkind, hp]
  refine ⟨?_, ?_, ?_, ?_, ?_⟩
  · rw [hidReports, hem, hcalls]
    simp only [List.filter_append, filter_isHid_rearmCalls, filter_isHid_illuminate]
    split_ifs <;> simp [Effect.isHid]
  · simp [pressAction, hkind, pressFeedback, hp]
  · simp [pressAction, hkind, pressFeedback, hp]
  · intro j hj
    simp [pressAction, hkind, pressFeedback, hp, hj]
  · rw [hem, hcalls]; simp

/-- C13 on the configuration of `Main.cpp`: key 0 is pressed while the transport is not
ready. -/
theorem C13_unready_press_paints_red_witness :
    hidReports mainSetup (pollTick ⟨10, false, false, 1, false, false⟩ mainSetup) = [] ∧
    (pollTick ⟨10, false, false, 1, false, false⟩ mainSetup).has_keyboard_key = false ∧
    (pollTick ⟨10, false, false, 1, false, false⟩ mainSetup).shown 15 = (0x20, 0x00, 0x00) :=
  have h := C13_unready_press_paints_red ⟨10, false, false, 1, false, false⟩ mainSetup rfl rfl
    rfl (by decide) (by decide) (by simp [bitScan_values, mainSetup_keys]; decide)
  ⟨h.1, h.2.1, (h.2.2.2.1 15 (by decide)).2⟩

/-- C14. On a poll tick that samples a changed nonzero mask whose decoded key has
`ButtonAssignments[k][2] == REPORT_ID_TINYPICO`, whatever the three `tud_hid_ready()` answers
are: after the dim-timer restart the tick paints each of the 16 LEDs (0, 0, 0), commits and
calls `reset_usb_boot`, and these are all its calls; no HID report is emitted and both held
flags are unchanged. -/
theorem C14_device_reset_press (i : TickInput) (s : State)
    (hreach : reachesSampling i s)
    (hchg : i.buttons ≠ s.last_button_states) (hpos : 0 < i.buttons)
    (hkind : (s.ButtonAssignments (bitScan i.buttons 0)).2.2 = REPORT_ID_TINYPICO) :
    (∀ j, j < 16 → (pollTick i s).leds j = (0x00, 0x00, 0x00) ∧
      (pollTick i s).shown j = (0x00, 0x00, 0x00)) ∧
    (pollTick i s).in_bootloader = true ∧
    emitted s (pollTick i s) =
      rearmCalls s ++ (List.range 16).map (fun j => Effect.illuminate j 0x00 0x00 0x00) ++
        [Effect.update, Effect.reset_usb_boot] ∧
    hidReports s (pollTick i s) = [] ∧
    (pollTick i s).has_keyboard_key = s.has_keyboard_key ∧
    (pollTick i s).has_consumer_key = s.has_consumer_key := by
  rw [pollTick_of_reachesSampling i s hreach, sampleButtons_press i s _ hchg hpos rfl]
  have hem := press_emitted i (bitScan i.buttons 0) s
  simp only [sampled] at hem
  have hcalls : pressCalls i (bitScan i.buttons 0) (rearmDimTimer
      (set_last_button_states i.buttons (set_button_states i.buttons s))) =
      (List.range 16).map (fun j => Effect.illuminate j 0x00 0x00 0x00) ++
        [Effect.update, Effect.reset_usb_boot] := by
    simp [pressCalls, hkind]
  refine ⟨?_, ?_, ?_, ?_, ?_, ?_⟩
  · intro j hj
    simp [pressAction, hkind, hj]
  · simp [pressAction, hkind]
  · rw [hem, hcalls]; simp
  · rw [hidReports, hem, hcalls]
    simp only [List.filter_append, filter_isHid_rearmCalls, filter_isHid_illuminate]
    simp [Effect.isHid]
  · simp [pressAction, hkind]
  · simp [pressAction, hkind]

/-- C14 on the configuration of `Main.cpp`: key 11, the device-reset key, is pressed with
the transport ready and with the transport not ready. -/
theorem C14_device_reset_press_witness :
    (pollTick ⟨10, false, true, 2048, true, true⟩ mainSetup).in_bootloader = true ∧
    (pollTick ⟨10, false, false, 2048, false, false⟩ mainSetup).in_bootloader = true ∧
    hidReports mainSetup (pollTick ⟨10, false, true, 2048, true, true⟩ mainSetup) = [] ∧
    (pollTick ⟨10, false, true, 2048, true, true⟩ mainSetup).shown 11 = (0x00, 0x00, 0x00) :=
  have hkey : bitScan 2048 0 = 11 := by simp [bitScan]
  have h1 := C14_device_reset_press ⟨10, false, true, 2048, true, true⟩ mainSetup (by decide)
    (by decide) (by decide) (by rw [hkey]; rfl)
  have h2 := C14_device_reset_press ⟨10, false, false, 2048, false, false⟩ mainSetup (by decide)
    (by decide) (by decide) (by rw [hkey]; rfl)
  ⟨h1.2.1, h2.2.1, h1.2.2.2.1, (h1.1 11 (by decide)).2⟩

/-! ## Lock records and the action table -/

theorem SetupButton_table (k r g b kc m t j : Nat) (s : State) :
    (SetupButton k r g b kc m t s).ButtonAssignments j =
      if j = k then (kc, m, t) else s.ButtonAssignments j := by
  simp only [SetupButton, recordLockKey]
  split_ifs <;> simp_all [Function.update_apply]

theorem RemoveButtonSetup_table (k j : Nat) (s : State) :
    (RemoveButtonSetup k s).ButtonAssignments j =
      if j = k then (0, 0, 0) else s.ButtonAssignments j := by
  simp only [RemoveButtonSetup, clearLockRecord]
  split_ifs <;> simp_all [Function.update_apply]

theorem RemoveButtonSetup_records (k role : Nat) (s : State) :
    (RemoveButtonSetup k s).LockKeysOrigionalColours role =
      if role < 3 ∧ (s.ButtonAssignments k).1 = lockKeyCode role then (0, 0, 0, 0)
      else s.LockKeysOrigionalColours role := by
  simp only [RemoveButtonSetup, clearLockRecord, set_ButtonAssignments_fields, update_fields,
    illuminate_fields, set_ColourAssignments_fields]
  by_cases h0 : (s.ButtonAssignments k).1 = HID_KEY_CAPS_LOCK
  · rw [if_pos h0]
    rcases role with _ | _ | _ | role <;>
      simp [h0, lockKeyCode, HID_KEY_CAPS_LOCK, HID_KEY_NUM_LOCK, HID_KEY_SCROLL_LOCK]
  · by_cases h1 : (s.ButtonAssignments k).1 = HID_KEY_NUM_LOCK
    · rw [if_neg h0, if_pos h1]
      rcases role with _ | _ | _ | role <;>
        simp [h1, lockKeyCode, HID_KEY_CAPS_LOCK, HID_KEY_NUM_LOCK, HID_KEY_SCROLL_LOCK]
    · by_cases h2 : (s.ButtonAssignments k).1 = HID_KEY_SCROLL_LOCK
      · rw [if_neg h0, if_neg h1, if_pos h2]
        rcases role with _ | _ | _ | role <;>
          simp [h2, lockKeyCode, HID_KEY_CAPS_LOCK, HID_KEY_NUM_LOCK, HID_KEY_SCROLL_LOCK]
        rw [if_neg (by omega)]
      · rw [if_neg h0, if_neg h1, if_neg h2]
        rcases role with _ | _ | _ | role <;> simp [lockKeyCode, h0, h1, h2]

theorem isLockKey_lockKeyCode (role : Nat) : isLockKey (lockKeyCode role) = true := by
  rcases role with _ | _ | _ | role <;>
    simp [lockKeyCode, isLockKey, HID_KEY_CAPS_LOCK, HID_KEY_NUM_LOCK, HID_KEY_SCROLL_LOCK]

theorem zero_ne_lockKeyCode (role : Nat) : (0 : Nat) ≠ lockKeyCode role := by
  rcases role with _ | _ | _ | role <;>
    simp [lockKeyCode, HID_KEY_CAPS_LOCK, HID_KEY_NUM_LOCK, HID_KEY_SCROLL_LOCK]

theorem step_config_invariant (e : Event) (s : State) (ha : admissible e s)
    (hu : oneKeyPerRole s) (hi : unsetMeansUnused s) :
    oneKeyPerRole (step e s) ∧ unsetMeansUnused (step e s) := by
  cases e with
  | tick i => exact absurd ha (by simp [admissible])
  | flashAlarm => exact absurd ha (by simp [admissible])
  | dimTimer => exact absurd ha (by simp [admissible])
  | hostReport inst report_id report_type buffer bufsize => exact absurd ha (by simp [admissible])
  | setup k r g b kc m t =>
    obtain ⟨hk, hlock⟩ := ha
    constructor
    · intro role hr j1 h1 j2 h2 e1 e2
      simp only [step, SetupButton_table] at e1 e2
      by_cases c1 : j1 = k <;> by_cases c2 : j2 = k
      · rw [c1, c2]
      · rw [if_pos c1] at e1; rw [if_neg c2] at e2
        have hkc : kc = lockKeyCode role := e1
        have := (hlock (by rw [hkc]; exact isLockKey_lockKeyCode role)).2 j2 h2 c2
        exact absurd (e2.trans hkc.symm) this
      · rw [if_neg c1] at e1; rw [if_pos c2] at e2
        have hkc : kc = lockKeyCode role := e2
        have := (hlock (by rw [hkc]; exact isLockKey_lockKeyCode role)).2 j1 h1 c1
        exact absurd (e1.trans hkc.symm) this
      · rw [if_neg c1] at e1; rw [if_neg c2] at e2
        exact hu role hr j1 h1 j2 h2 e1 e2
    · intro role hr hunset j hj
      simp only [step, SetupButton_records, SetupButton_table] at hunset ⊢
      by_cases hkc : kc = lockKeyCode role
      · rw [if_pos ⟨hr, hkc⟩] at hunset
        exact absurd hunset (hlock (by rw [hkc]; exact isLockKey_lockKeyCode role)).1
      · rw [if_neg (fun h => hkc h.2)] at hunset
        by_cases c : j = k
        · rw [if_pos c]; exact hkc
        · rw [if_neg c]; exact hi role hr hunset j hj
  | remove k =>
    have hk : k < 16 := ha
    constructor
    · intro role hr j1 h1 j2 h2 e1 e2
      simp only [step, RemoveButtonSetup_table] at e1 e2
      by_cases c1 : j1 = k
      · rw [if_pos c1] at e1; exact absurd e1 (zero_ne_lockKeyCode role)
      · by_cases c2 : j2 = k
        · rw [if_pos c2] at e2; exact absurd e2 (zero_ne_lockKeyCode role)
        · rw [if_neg c1] at e1; rw [if_neg c2] at e2
          exact hu role hr j1 h1 j2 h2 e1 e2
    · intro role hr hunset j hj
      simp only [step, RemoveButtonSetup_records, RemoveButtonSetup_table] at hunset ⊢
      by_cases c : j = k
      · rw [if_pos c]; exact zero_ne_lockKeyCode role
      · rw [if_neg c]
        by_cases hkc : (s.ButtonAssignments k).1 = lockKeyCode role
        · intro hj2
          exact c (hu role hr j hj k hk hj2 hkc)
        · rw [if_neg (fun h => hkc h.2)] at hunset
          exact hi role hr hunset j hj

theorem run_config_invariant (events : List Event) (s : State)
    (ha : admissibleRun events s) (hu : oneKeyPerRole s) (hi : unsetMeansUnused s) :
    oneKeyPerRole (run events s) ∧ unsetMeansUnused (run events s) := by
  induction events generalizing s with
  | nil => exact ⟨hu, hi⟩
  | cons e rest ih =>
    obtain ⟨h1, h2⟩ := ha
    obtain ⟨a, b⟩ := step_config_invariant e s h1 hu hi
    exact ih (step e s) h2 a b

/-- C15, as amended. In every state reachable from the zero-initialised tables by calls of
`SetupButton` and `RemoveButtonSetup` with key indices in 0..15, in which a lock key code is
never given to key 0 and never given to a key while another key holds it: for each of the
three lock roles, if the role's record is unset (key column 0) then no key's descriptor
holds that role's lock key code. -/
theorem C15_unset_record_means_unused (events : List Event)
    (ha : admissibleRun events State.zero) (role j : Nat) (hrole : role < 3) (hj : j < 16)
    (hunset : ((run events State.zero).LockKeysOrigionalColours role).2.2.2 = 0) :
    ((run events State.zero).ButtonAssignments j).1 ≠ lockKeyCode role := by
  have hu : oneKeyPerRole State.zero := by
    intro role _ j1 _ j2 _ e1 _
    exact absurd e1 (zero_ne_lockKeyCode role)
  have hi : unsetMeansUnused State.zero := by
    intro role _ _ j _
    exact zero_ne_lockKeyCode role
  exact (run_config_invariant events State.zero ha hu hi).2 role hrole hunset j hj

/-- C15 on a run that binds caps lock to key 12 and removes it again, with key 3 configured
in between: the caps-lock record is unset at the end and key 12 does not hold the code. -/
theorem C15_unset_record_means_unused_witness :
    ((run [Event.setup 12 0 0 0 HID_KEY_CAPS_LOCK 0 REPORT_ID_KEYBOARD,
        Event.setup 3 0x20 0 0 HID_KEY_KEYPAD_0 5 REPORT_ID_KEYBOARD,
        Event.remove 12] State.zero).LockKeysOrigionalColours 0).2.2.2 = 0 ∧
    ((run [Event.setup 12 0 0 0 HID_KEY_CAPS_LOCK 0 REPORT_ID_KEYBOARD,
        Event.setup 3 0x20 0 0 HID_KEY_KEYPAD_0 5 REPORT_ID_KEYBOARD,
        Event.remove 12] State.zero).ButtonAssignments 12).1 ≠ lockKeyCode 0 :=
  ⟨by decide,
   C15_unset_record_means_unused
    [Event.setup 12 0 0 0 HID_KEY_CAPS_LOCK 0 REPORT_ID_KEYBOARD,
      Event.setup 3 0x20 0 0 HID_KEY_KEYPAD_0 5 REPORT_ID_KEYBOARD, Event.remove 12]
    (by decide) 0 12 (by decide) (by decide) (by decide)⟩

/-- C15 as stated fails, in three ways.  (1) Keys 1 and 2 are both given caps lock and key 2,
the bound one, is removed: the record is unset while key 1 still holds the code; the code
keeps one record per role and the last write wins.  (2) Key 0 is given caps lock: the record
holds key index 0, which reads as unset, while key 0 holds the code.  (3) Keys 1 and 2 are
both given caps lock and key 1, which is not the bound one, is removed: the record of key 2
is cleared while key 2 still holds the code. -/
theorem C15_counterexample_unset_but_used :
    (((run [Event.setup 1 1 2 3 HID_KEY_CAPS_LOCK 0 REPORT_ID_KEYBOARD,
        Event.setup 2 4 5 6 HID_KEY_CAPS_LOCK 0 REPORT_ID_KEYBOARD,
        Event.remove 2] State.zero).LockKeysOrigionalColours 0).2.2.2 = 0 ∧
      ((run [Event.setup 1 1 2 3 HID_KEY_CAPS_LOCK 0 REPORT_ID_KEYBOARD,
        Event.setup 2 4 5 6 HID_KEY_CAPS_LOCK 0 REPORT_ID_KEYBOARD,
        Event.remove 2] State.zero).ButtonAssignments 1).1 = lockKeyCode 0) ∧
    (((run [Event.setup 0 1 2 3 HID_KEY_CAPS_LOCK 0 REPORT_ID_KEYBOARD]
        State.zero).LockKeysOrigionalColours 0).2.2.2 = 0 ∧
      ((run [Event.setup 0 1 2 3 HID_KEY_CAPS_LOCK 0 REPORT_ID_KEYBOARD]
        State.zero).ButtonAssignments 0).1 = lockKeyCode 0) ∧
    (((run [Event.setup 1 1 2 3 HID_KEY_CAPS_LOCK 0 REPORT_ID_KEYBOARD,
        Event.setup 2 4 5 6 HID_KEY_CAPS_LOCK 0 REPORT_ID_KEYBOARD,
        Event.remove 1] State.zero).LockKeysOrigionalColours 0).2.2.2 = 0 ∧
      ((run [Event.setup 1 1 2 3 HID_KEY_CAPS_LOCK 0 REPORT_ID_KEYBOARD,
        Event.setup 2 4 5 6 HID_KEY_CAPS_LOCK 0 REPORT_ID_KEYBOARD,
        Event.remove 1] State.zero).ButtonAssignments 2).1 = lockKeyCode 0) := by
  decide


/-! ## Release ticks, the flash-reset callback and press feedback -/

/-- C16. On a poll tick with the bus not suspended and the transport ready at the release
check: if `has_keyboard_key` is true, the state after the tick is the state before with
`has_keyboard_key` cleared and one keyboard report with modifier 0 and six zero key codes
appended to the trace; otherwise, if `has_consumer_key` is true, it is the state before with
`has_consumer_key` cleared and one consumer report with payload 0 appended.  Nothing else
changes, whatever the button mask is: `button_states`, `last_button_states`, the LED
colours, the brightness, both timers and the other flag are as before. -/
theorem C16_release_tick_consumes_tick (i : TickInput) (s : State)
    (hs : i.suspended = false) (hr : i.ready_release = true) :
    (s.has_keyboard_key = true →
      pollTick i s =
        { s with
          has_keyboard_key := false,
          trace := s.trace ++ [Effect.hid_keyboard_report 1 0 [0, 0, 0, 0, 0, 0]] } ∧
      hidReports s (pollTick i s) = [Effect.hid_keyboard_report 1 0 [0, 0, 0, 0, 0, 0]]) ∧
    (s.has_keyboard_key = false → s.has_consumer_key = true →
      pollTick i s =
        { s with
          has_consumer_key := false,
          trace := s.trace ++ [Effect.hid_report 2 [0, 0]] } ∧
      hidReports s (pollTick i s) = [Effect.hid_report 2 [0, 0]]) := by
  constructor
  · intro hk
    rw [pollTick_release_keyboard i s hs hr hk, hidReports_release]
    simp [released, REPORT_ID_KEYBOARD]
  · intro hk hc
    rw [pollTick_release_consumer i s hs hr hk hc, hidReports_release]
    simp [released, REPORT_ID_CONSUMER_CONTROL]

/-- C16 on the configuration of `Main.cpp` with a keyboard key held and with a consumer key
held, while keys 0 and 1 are down. -/
theorem C16_release_tick_consumes_tick_witness :
    hidReports (set_has_keyboard_key true mainSetup)
        (pollTick ⟨10, false, true, 3, true, true⟩ (set_has_keyboard_key true mainSetup)) =
      [Effect.hid_keyboard_report 1 0 [0, 0, 0, 0, 0, 0]] ∧
    hidReports (set_has_consumer_key true mainSetup)
        (pollTick ⟨10, false, true, 3, true, true⟩ (set_has_consumer_key true mainSetup)) =
      [Effect.hid_report 2 [0, 0]] :=
  ⟨((C16_release_tick_consumes_tick ⟨10, false, true, 3, true, true⟩
      (set_has_keyboard_key true mainSetup) rfl rfl).1 rfl).2,
   ((C16_release_tick_consumes_tick ⟨10, false, true, 3, true, true⟩
      (set_has_consumer_key true mainSetup) rfl rfl).2 rfl rfl).2⟩

/-- C17. For every state, after `ResetLEDsRepeat` has run: the buffered and the committed
colour of every key `j` in 0..15 equal `ColourAssignments[j]`; the calls made are the 16
`illuminate` calls with those colours, in key order, and then `update()`; `TimerCancelled`
is true; the callback returns 0; and `ColourAssignments` and `ButtonAssignments` are
unchanged. -/
theorem C17_flash_reset_repaints (s : State) :
    (∀ j, j < 16 → (ResetLEDsRepeat s).shown j = s.ColourAssignments j ∧
      (ResetLEDsRepeat s).leds j = s.ColourAssignments j) ∧
    emitted s (ResetLEDsRepeat s) =
      (List.range 16).map (fun j =>
        Effect.illuminate j (s.ColourAssignments j).1 (s.ColourAssignments j).2.1
          (s.ColourAssignments j).2.2) ++ [Effect.update] ∧
    (ResetLEDsRepeat s).TimerCancelled = true ∧
    ResetLEDsRepeat_result = 0 ∧
    (ResetLEDsRepeat s).ColourAssignments = s.ColourAssignments ∧
    (ResetLEDsRepeat s).ButtonAssignments = s.ButtonAssignments := by
  refine ⟨fun j hj => by simp [hj], ?_, by simp, rfl, by simp, by simp⟩
  exact emitted_append _ _ _ (by simp)

/-- C17 on the two-press scenario, where keys 0 and 1 show the highlight colour: after
`ResetLEDsRepeat` they show the colours configured for them. -/
theorem C17_flash_reset_repaints_witness :
    (run twoPresses booted).shown 0 = (0x20, 0x20, 0x00) ∧
    (ResetLEDsRepeat (run twoPresses booted)).shown 0 =
      (run twoPresses booted).ColourAssignments 0 ∧
    (ResetLEDsRepeat (run twoPresses booted)).shown 1 =
      (run twoPresses booted).ColourAssignments 1 :=
  ⟨twoPresses_run.2.2.2.1,
   ((C17_flash_reset_repaints (run twoPresses booted)).1 0 (by decide)).1,
   ((C17_flash_reset_repaints (run twoPresses booted)).1 1 (by decide)).1⟩

theorem not_mem_rearmCalls_illuminate (s : State) (j r g b : Nat) :
    Effect.illuminate j r g b ∉ rearmCalls s := by
  unfold rearmCalls
  split_ifs <;> simp

theorem not_mem_sendCalls_illuminate (ready : Bool) (report_id KeyCode Modifiers : Nat)
    (s : State) (j r g b : Nat) :
    Effect.illuminate j r g b ∉ sendCalls ready report_id KeyCode Modifiers s := by
  unfold sendCalls
  split_ifs <;> simp

theorem not_mem_rearmCalls_alarm (s : State) (ms : Nat) :
    Effect.add_alarm_in_ms ms ∉ rearmCalls s := by
  unfold rearmCalls
  split_ifs <;> simp

theorem not_mem_sendCalls_alarm (ready : Bool) (report_id KeyCode Modifiers : Nat)
    (s : State) (ms : Nat) :
    Effect.add_alarm_in_ms ms ∉ sendCalls ready report_id KeyCode Modifiers s := by
  unfold sendCalls
  split_ifs <;> simp

theorem sendCalls_frame (ready : Bool) (report_id KeyCode Modifiers : Nat) (s t : State)
    (hk : t.has_keyboard_key = s.has_keyboard_key)
    (hc : t.has_consumer_key = s.has_consumer_key) :
    sendCalls ready report_id KeyCode Modifiers t =
      sendCalls ready report_id KeyCode Modifiers s := by
  simp [sendCalls, hk, hc]

/-- The calls of a poll tick that acts on a press of a key that is not a device-reset key,
with the transport ready at the press check. -/
theorem ready_press_emitted (i : TickInput) (s : State)
    (hp : i.ready_press = true)
    (hkind : (s.ButtonAssignments (bitScan i.buttons 0)).2.2 ≠ REPORT_ID_TINYPICO) :
    emitted s (pressAction i (bitScan i.buttons 0) (rearmDimTimer (sampled i s))) =
      rearmCalls s ++
        ((if isLockKey (s.ButtonAssignments (bitScan i.buttons 0)).1 = true then []
          else [Effect.illuminate (bitScan i.buttons 0) 0x20 0x20 0x00]) ++
        (sendCalls i.ready_send (s.ButtonAssignments (bitScan i.buttons 0)).2.2
          (s.ButtonAssignments (bitScan i.buttons 0)).1
          (s.ButtonAssignments (bitScan i.buttons 0)).2.1 s ++
        (Effect.update ::
          (if s.TimerCancelled = true ∧
              isLockKey (s.ButtonAssignments (bitScan i.buttons 0)).1 = false then
            [Effect.add_alarm_in_ms 300] else [])))) := by
  rw [press_emitted]
  have hsend := sendCalls_frame i.ready_send (s.ButtonAssignments (bitScan i.buttons 0)).2.2
    (s.ButtonAssignments (bitScan i.buttons 0)).1 (s.ButtonAssignments (bitScan i.buttons 0)).2.1
    s (rearmDimTimer (sampled i s)) (by simp) (by simp)
  simp [pressCalls, feedbackCalls, hkind, hp, hsend]


/-- C18. Take a poll tick that samples a changed nonzero mask decoding to key `k`, whose
category is not device-reset, with the transport ready at the press check.  The tick calls
`illuminate(k, 0x20, 0x20, 0x00)` if and only if the key code of `k` is not a lock key code,
and it schedules the 300 ms flash-reset alarm if and only if the key code is not a lock key
code and `TimerCancelled` is true (no alarm pending).  For a key that is not a lock key the
LED of `k` shows the highlight colour after the tick.  For a lock key the tick makes no
`illuminate` call, leaves the LED buffer, `TimerCancelled` and the pending alarms as they
were.  In both cases the calls of the tick are the dim-timer restart, the highlight (not for
a lock key), what `SendKeypress` sends for the descriptor of `k`, `update()` and the alarm
(if scheduled), and the held flags are those `SendKeypress` leaves. -/
theorem C18_qualifying_press_feedback (i : TickInput) (s : State)
    (hreach : reachesSampling i s)
    (hchg : i.buttons ≠ s.last_button_states) (hpos : 0 < i.buttons)
    (hp : i.ready_press = true)
    (hkind : (s.ButtonAssignments (bitScan i.buttons 0)).2.2 ≠ REPORT_ID_TINYPICO) :
    (Effect.illuminate (bitScan i.buttons 0) 0x20 0x20 0x00 ∈ emitted s (pollTick i s) ↔
      isLockKey (s.ButtonAssignments (bitScan i.buttons 0)).1 = false) ∧
    (Effect.add_alarm_in_ms 300 ∈ emitted s (pollTick i s) ↔
      (isLockKey (s.ButtonAssignments (bitScan i.buttons 0)).1 = false ∧
        s.TimerCancelled = true)) ∧
    (isLockKey (s.ButtonAssignments (bitScan i.buttons 0)).1 = false →
      (pollTick i s).leds (bitScan i.buttons 0) = (0x20, 0x20, 0x00) ∧
      (pollTick i s).shown (bitScan i.buttons 0) = (0x20, 0x20, 0x00) ∧
      (s.TimerCancelled = true →
        (pollTick i s).TimerCancelled = false ∧
        (pollTick i s).flash_alarms = s.flash_alarms + 1)) ∧
    (isLockKey (s.ButtonAssignments (bitScan i.buttons 0)).1 = true →
      (pollTick i s).leds = s.leds ∧
      (∀ j r g b, Effect.illuminate j r g b ∉ emitted s (pollTick i s)) ∧
      (pollTick i s).TimerCancelled = s.TimerCancelled ∧
      (pollTick i s).flash_alarms = s.flash_alarms) ∧
    emitted s (pollTick i s) =
      rearmCalls s ++
        ((if isLockKey (s.ButtonAssignments (bitScan i.buttons 0)).1 = true then []
          else [Effect.illuminate (bitScan i.buttons 0) 0x20 0x20 0x00]) ++
        (sendCalls i.ready_send (s.ButtonAssignments (bitScan i.buttons 0)).2.2
          (s.ButtonAssignments (bitScan i.buttons 0)).1
          (s.ButtonAssignments (bitScan i.buttons 0)).2.1 s ++
        (Effect.update ::
          (if s.TimerCancelled = true ∧
              isLockKey (s.ButtonAssignments (bitScan i.buttons 0)).1 = false then
            [Effect.add_alarm_in_ms 300] else [])))) ∧
    (pollTick i s).has_keyboard_key =
      (SendKeypress i.ready_send (s.ButtonAssignments (bitScan i.buttons 0)).2.2
        (s.ButtonAssignments (bitScan i.buttons 0)).1
        (s.ButtonAssignments (bitScan i.buttons 0)).2.1 s).has_keyboard_key ∧
    (pollTick i s).has_consumer_key =
      (SendKeypress i.ready_send (s.ButtonAssignments (bitScan i.buttons 0)).2.2
        (s.ButtonAssignments (bitScan i.buttons 0)).1
        (s.ButtonAssignments (bitScan i.buttons 0)).2.1 s).has_consumer_key := by
  have hem := ready_press_emitted i s hp hkind
  rw [pollTick_of_reachesSampling i s hreach, sampleButtons_press i s _ hchg hpos rfl]
  simp only [sampled] at hem
  rw [hem]
  generalize hk : bitScan i.buttons 0 = k at *
  have hflags : ∀ t : State, t.has_keyboard_key = s.has_keyboard_key →
      t.has_consumer_key = s.has_consumer_key →
      (SendKeypress i.ready_send (s.ButtonAssignments k).2.2 (s.ButtonAssignments k).1
        (s.ButtonAssignments k).2.1 t).has_keyboard_key =
      (SendKeypress i.ready_send (s.ButtonAssignments k).2.2 (s.ButtonAssignments k).1
        (s.ButtonAssignments k).2.1 s).has_keyboard_key ∧
      (SendKeypress i.ready_send (s.ButtonAssignments k).2.2 (s.ButtonAssignments k).1
        (s.ButtonAssignments k).2.1 t).has_consumer_key =
      (SendKeypress i.ready_send (s.ButtonAssignments k).2.2 (s.ButtonAssignments k).1
        (s.ButtonAssignments k).2.1 s).has_consumer_key := by
    intro t h1 h2
    unfold SendKeypress
    split_ifs <;> simp_all
  cases hl : isLockKey (s.ButtonAssignments k).1 <;> cases ht : s.TimerCancelled
  all_goals
    refine ⟨?_, ?_, ?_, ?_, ?_, ?_, ?_⟩
    · simp [not_mem_rearmCalls_illuminate, not_mem_sendCalls_illuminate]
    · simp [not_mem_rearmCalls_alarm, not_mem_sendCalls_alarm]
    · simp [pressAction, hkind, pressFeedback, hp, hl, ht, startFlashReset]
    · simp [pressAction, hkind, pressFeedback, hp, hl, ht, startFlashReset,
        not_mem_rearmCalls_illuminate, not_mem_sendCalls_illuminate]
    · simp
    · simp only [pressAction, pressFeedback]
      simp [hkind, hp, hl]
      exact (hflags _ (by simp) (by simp)).1
    · simp only [pressAction, pressFeedback]
      simp [hkind, hp, hl]
      exact (hflags _ (by simp) (by simp)).2


/-- C18 on the configuration of `Main.cpp`: a press of key 0 (Ctrl+Shift+O) is highlighted
and schedules the alarm; a press of key 12 (caps lock) leaves the LED buffer and
`TimerCancelled` as they were. -/
theorem C18_qualifying_press_feedback_witness :
    Effect.illuminate (bitScan 1 0) 0x20 0x20 0x00 ∈
      emitted mainSetup (pollTick ⟨10, false, true, 1, true, true⟩ mainSetup) ∧
    Effect.add_alarm_in_ms 300 ∈
      emitted mainSetup (pollTick ⟨10, false, true, 1, true, true⟩ mainSetup) ∧
    (pollTick ⟨10, false, true, 4096, true, true⟩ mainSetup).leds = mainSetup.leds ∧
    (pollTick ⟨10, false, true, 4096, true, true⟩ mainSetup).TimerCancelled =
      mainSetup.TimerCancelled :=
  have k0 : bitScan 1 0 = 0 := bitScan_values.1
  have k12 : bitScan 4096 0 = 12 := by simp [bitScan]
  have h0 := C18_qualifying_press_feedback ⟨10, false, true, 1, true, true⟩ mainSetup
    (by decide) (by decide) (by decide) rfl (by rw [k0]; decide)
  have h12 := C18_qualifying_press_feedback ⟨10, false, true, 4096, true, true⟩ mainSetup
    (by decide) (by decide) (by decide) rfl (by rw [k12]; decide)
  have l0 : isLockKey (mainSetup.ButtonAssignments (bitScan 1 0)).1 = false := by
    rw [k0]; decide
  have l12 : isLockKey (mainSetup.ButtonAssignments (bitScan 4096 0)).1 = true := by
    rw [k12]; decide
  ⟨h0.1.2 l0, h0.2.1.2 ⟨l0, rfl⟩, (h12.2.2.2.1 l12).1, (h12.2.2.2.1 l12).2.2.1⟩

/-! ## Colours that are not restored -/

/-- C19 fails on the configuration of `Main.cpp`.  Key 12 (caps lock) is pressed while the
transport is not ready: the tick paints all 16 LEDs red and commits, but, the key being a
lock key, schedules no flash-reset alarm.  After the tick key 0 shows (0x20, 0, 0) while
`ColourAssignments[0]` is (0, 0, 0x20), `TimerCancelled` is true and no alarm is
outstanding, so no firing will repaint the keys. -/
theorem C19_red_after_unready_lock_press :
    mainSetup.TimerCancelled = true ∧ mainSetup.flash_alarms = 0 ∧
    mainSetup.shown 0 = mainSetup.ColourAssignments 0 ∧
    (pollTick ⟨10, false, false, 4096, false, false⟩ mainSetup).shown 0 = (0x20, 0x00, 0x00) ∧
    (pollTick ⟨10, false, false, 4096, false, false⟩ mainSetup).ColourAssignments 0 =
      (0x00, 0x00, 0x20) ∧
    (pollTick ⟨10, false, false, 4096, false, false⟩ mainSetup).TimerCancelled = true ∧
    (pollTick ⟨10, false, false, 4096, false, false⟩ mainSetup).flash_alarms = 0 ∧
    alarmsScheduled
      (emitted mainSetup (pollTick ⟨10, false, false, 4096, false, false⟩ mainSetup)) = 0 ∧
    fireFlashAlarm (pollTick ⟨10, false, false, 4096, false, false⟩ mainSetup) =
      pollTick ⟨10, false, false, 4096, false, false⟩ mainSetup := by
  have k12 : bitScan 4096 0 = 12 := by simp [bitScan]
  have hreach : reachesSampling ⟨10, false, false, 4096, false, false⟩ mainSetup := by decide
  have e : pollTick ⟨10, false, false, 4096, false, false⟩ mainSetup =
      pressAction ⟨10, false, false, 4096, false, false⟩ 12
        (rearmDimTimer (sampled ⟨10, false, false, 4096, false, false⟩ mainSetup)) := by
    rw [pollTick_of_reachesSampling _ _ hreach,
      sampleButtons_press _ mainSetup 12 (by decide) (by decide) k12]
    rfl
  have hkind : (mainSetup.ButtonAssignments 12).2.2 ≠ REPORT_ID_TINYPICO := by decide
  have hlock : isLockKey (mainSetup.ButtonAssignments 12).1 = true := by decide
  have hcol : mainSetup.ColourAssignments 0 = (0x00, 0x00, 0x20) := rfl
  have ht : mainSetup.TimerCancelled = true := rfl
  have hf : mainSetup.flash_alarms = 0 := rfl
  have hfl : (pollTick ⟨10, false, false, 4096, false, false⟩ mainSetup).flash_alarms = 0 := by
    rw [e]; simp [pressAction, hkind, pressFeedback, startFlashReset, hlock, hf]
  refine ⟨rfl, rfl, rfl, ?_, ?_, ?_, hfl, ?_, ?_⟩
  · rw [e]; simp [pressAction, hkind, pressFeedback]
  · rw [e]; simp [hcol]
  · rw [e]; simp [pressAction, hkind, pressFeedback, startFlashReset, hlock, ht]
  · rw [e, press_emitted, alarmsScheduled_append, alarmsScheduled_rearmCalls,
      alarmsScheduled_pressCalls]
    simp [hkind, hlock]
  · unfold fireFlashAlarm
    rw [if_neg (by rw [hfl]; decide)]

/-! ## When a key action runs -/

/-- C20, as amended. A poll tick is one of five things.  It requests remote wakeup, or sends
the keyboard release report, or sends the consumer release report, or stores a sampled mask
that is unchanged or zero: in these four cases no key action runs.  Or it samples a mask
that differs from `last_button_states` and is nonzero, and then it runs the action of
exactly one key, the key `k` decoded from the mask, which for a 16-bit mask is the highest
set bit.  So the action of key `k` runs only on a change of the mask that leaves `k` the
highest key held; bit `k` need not have been clear before. -/
theorem C20_action_only_on_changed_mask (i : TickInput) (s : State) :
    (pollTick i s = tud_remote_wakeup s ∨
      pollTick i s = released true s ∨
      pollTick i s = released false s ∨
      pollTick i s = { s with button_states := i.buttons, last_button_states := i.buttons }) ∨
    (reachesSampling i s ∧ i.buttons ≠ s.last_button_states ∧ 0 < i.buttons ∧
      pollTick i s = pressAction i (bitScan i.buttons 0) (rearmDimTimer (sampled i s)) ∧
      (i.buttons < 2 ^ 16 →
        i.buttons.testBit (bitScan i.buttons 0) = true ∧
        ∀ j, bitScan i.buttons 0 < j → i.buttons.testBit j = false)) := by
  rcases pollTick_cases i s with e | e | e | e | ⟨h1, h2, h3, e⟩
  · exact Or.inl (Or.inl e)
  · exact Or.inl (Or.inr (Or.inl e))
  · exact Or.inl (Or.inr (Or.inr (Or.inl e)))
  · exact Or.inl (Or.inr (Or.inr (Or.inr (by rw [e, sampled_eq]))))
  · refine Or.inr ⟨h1, h2, h3, e, fun h16 => ?_⟩
    have hlog := bitScan_eq_log2 i.buttons (by omega) h16
    have hle : 2 ^ Nat.log2 i.buttons ≤ i.buttons := Nat.log2_self_le (by omega)
    have hlt : i.buttons < 2 ^ (Nat.log2 i.buttons + 1) := Nat.lt_log2_self
    rw [hlog]
    constructor
    · obtain ⟨low, hlow⟩ := Nat.exists_eq_add_of_le hle
      have hl : low < 2 ^ Nat.log2 i.buttons := by rw [pow_succ] at hlt; omega
      generalize Nat.log2 i.buttons = k at *
      rw [hlow, Nat.testBit_two_pow_add_eq, Nat.testBit_lt_two_pow hl]; rfl
    · intro j hj
      apply Nat.testBit_lt_two_pow
      exact lt_of_lt_of_le hlt (Nat.pow_le_pow_right (by decide) hj)

/-- C20 as stated fails. On the configuration of `Main.cpp`, keys 0 and 1 go down together:
the tick runs the action of key 1 and the next tick sends the release report.  Then key 0
is released while key 1 stays held: the mask changes from 3 to 2, bit 1 was set in
`last_button_states`, and the tick runs the action of key 1 again (highlight and the
Ctrl+Up key-down report). -/
theorem C20_counterexample_held_key_fires_again :
    (pollTick ⟨20, false, true, 3, true, true⟩
      (pollTick ⟨10, false, true, 3, true, true⟩ mainSetup)).last_button_states = 3 ∧
    Nat.testBit 3 1 = true ∧ Nat.testBit 2 1 = true ∧
    hidReports
      (pollTick ⟨20, false, true, 3, true, true⟩
        (pollTick ⟨10, false, true, 3, true, true⟩ mainSetup))
      (pollTick ⟨30, false, true, 2, true, true⟩
        (pollTick ⟨20, false, true, 3, true, true⟩
          (pollTick ⟨10, false, true, 3, true, true⟩ mainSetup))) =
      [Effect.hid_keyboard_report 1 1 [0x52, 0, 0, 0, 0, 0]] ∧
    Effect.illuminate 1 0x20 0x20 0x00 ∈
      emitted
        (pollTick ⟨20, false, true, 3, true, true⟩
          (pollTick ⟨10, false, true, 3, true, true⟩ mainSetup))
        (pollTick ⟨30, false, true, 2, true, true⟩
          (pollTick ⟨20, false, true, 3, true, true⟩
            (pollTick ⟨10, false, true, 3, true, true⟩ mainSetup))) := by
  have k3 : bitScan 3 0 = 1 := by simp [bitScan]
  refine ⟨?_, by decide, by decide, ?_, ?_⟩
  all_goals
    simp [pollTick, sampleButtons, pressAction, pressFeedback, startFlashReset, SendKeypress,
      rearmDimTimer, mainSetup_flags, mainSetup_keys, bitScan_values, k3, REPORT_ID_KEYBOARD,
      REPORT_ID_TINYPICO, isLockKey, HID_KEY_O, HID_KEY_ARROW_UP, HID_KEY_CAPS_LOCK,
      HID_KEY_NUM_LOCK, HID_KEY_SCROLL_LOCK, hidReports, emitted, Effect.isHid]

/-- C20 on the configuration of `Main.cpp`: a tick that reads the mask it read before (key 0
held) only stores the sample. -/
theorem C20_action_only_on_changed_mask_witness :
    (pollTick ⟨20, false, false, 1, false, false⟩
        (pollTick ⟨10, false, true, 1, true, true⟩ mainSetup) =
      tud_remote_wakeup (pollTick ⟨10, false, true, 1, true, true⟩ mainSetup) ∨
     pollTick ⟨20, false, false, 1, false, false⟩
        (pollTick ⟨10, false, true, 1, true, true⟩ mainSetup) =
      released true (pollTick ⟨10, false, true, 1, true, true⟩ mainSetup) ∨
     pollTick ⟨20, false, false, 1, false, false⟩
        (pollTick ⟨10, false, true, 1, true, true⟩ mainSetup) =
      released false (pollTick ⟨10, false, true, 1, true, true⟩ mainSetup) ∨
     pollTick ⟨20, false, false, 1, false, false⟩
        (pollTick ⟨10, false, true, 1, true, true⟩ mainSetup) =
      { pollTick ⟨10, false, true, 1, true, true⟩ mainSetup with
        button_states := 1, last_button_states := 1 }) :=
  (C20_action_only_on_changed_mask ⟨20, false, false, 1, false, false⟩
    (pollTick ⟨10, false, true, 1, true, true⟩ mainSetup)).resolve_right (by
      intro h
      have hm := (sampleButtons_masks ⟨10, false, true, 1, true, true⟩ mainSetup).2
      rw [← pollTick_of_reachesSampling _ _ (by decide)] at hm
      exact h.2.1 hm.symm)

theorem pressAction_restoreInv (i : TickInput) (k : Nat) (s : State)
    (h : (∀ j, j < 16 → s.leds j = s.ColourAssignments j) ∨ s.TimerCancelled = false)
    (hkind : (s.ButtonAssignments k).2.2 ≠ REPORT_ID_TINYPICO)
    (hready : i.ready_press = false → isLockKey (s.ButtonAssignments k).1 = false) :
    restoreInv (pressAction i k s) := by
  unfold pressAction
  rw [if_neg hkind]
  have hl : (startFlashReset k (update (pressFeedback i k s))).leds =
      (startFlashReset k (update (pressFeedback i k s))).shown := by simp
  refine ⟨fun j _ => by rw [hl], ?_⟩
  intro ht j hj
  rcases startFlashReset_timer k (update (pressFeedback i k s)) with ⟨a, -, -, -⟩ | ⟨a, -, c⟩
  · rw [a] at ht; exact absurd ht (by decide)
  · rw [a] at ht
    simp only [update_fields, pressFeedback_frame] at ht c
    have hlock : isLockKey (s.ButtonAssignments k).1 = true := by
      cases hl2 : isLockKey (s.ButtonAssignments k).1
      · exact absurd ⟨ht, hl2⟩ c
      · rfl
    have hp : i.ready_press = true := by
      cases hp2 : i.ready_press
      · rw [hready hp2] at hlock; exact absurd hlock (by decide)
      · rfl
    rcases h with h | h
    · simp [pressFeedback, hp, hlock, h j hj]
    · rw [h] at ht; exact absurd ht (by decide)

theorem pollTick_restoreInv (i : TickInput) (s : State) (h : restoreInv s)
    (ho : ordinaryTick i s) : restoreInv (pollTick i s) := by
  rcases pollTick_cases i s with e | e | e | e | ⟨h1, h2, h3, e⟩
  · rw [e]; simpa [restoreInv] using h
  · rw [e]; simpa [restoreInv] using h
  · rw [e]; simpa [restoreInv] using h
  · rw [e]; simpa [restoreInv] using h
  · rw [e]
    obtain ⟨a, b⟩ := ho h1 h2 h3
    apply pressAction_restoreInv
    · cases ht : s.TimerCancelled
      · right; simp [ht]
      · left
        intro j hj
        simp only [rearmDimTimer_frame, sampled_fields]
        rw [h.1 j hj, h.2 ht j hj]
    · simpa using a
    · simpa using b

theorem set_report_restoreInv (inst report_id report_type bufsize : Nat) (buffer : List Nat)
    (s : State) (h : restoreInv s) :
    restoreInv (tud_hid_set_report_cb inst report_id report_type buffer bufsize s) := by
  by_cases ht : report_type = HID_REPORT_TYPE_OUTPUT
  · by_cases hi : report_id = REPORT_ID_KEYBOARD
    · by_cases hn : bufsize < 1
      · simpa [tud_hid_set_report_cb, ht, hi, hn] using h
      · have key : tud_hid_set_report_cb inst report_id report_type buffer bufsize s =
            tud_hid_set_report_cb inst REPORT_ID_KEYBOARD HID_REPORT_TYPE_OUTPUT
              (buffer.headD 0 :: []) bufsize s := by
          simp [tud_hid_set_report_cb, ht, hi, hn]
        rw [key]
        have hcell := fun j => set_report_cell inst (buffer.headD 0) bufsize j [] s (by omega)
        refine ⟨fun j _ => by rw [(hcell j).2.2.1], ?_⟩
        intro htc j hj
        rw [(hcell j).2.2.1, (hcell j).2.1, (hcell j).1]
        have htc' : s.TimerCancelled = true := by simpa using htc
        rw [h.1 j hj, h.2 htc' j hj]
    · simpa [tud_hid_set_report_cb, ht, hi] using h
  · simpa [tud_hid_set_report_cb, ht] using h

theorem SetupButton_colours (k r g b kc m t : Nat) (s : State) :
    (SetupButton k r g b kc m t s).ColourAssignments =
      Function.update s.ColourAssignments k (r, g, b) ∧
    (SetupButton k r g b kc m t s).leds = Function.update s.leds k (r, g, b) ∧
    (SetupButton k r g b kc m t s).shown = Function.update s.leds k (r, g, b) := by
  simp only [SetupButton, recordLockKey]
  split_ifs <;> simp

theorem RemoveButtonSetup_colours (k : Nat) (s : State) :
    (RemoveButtonSetup k s).ColourAssignments = Function.update s.ColourAssignments k (0, 0, 0) ∧
    (RemoveButtonSetup k s).leds = Function.update s.leds k (0, 0, 0) ∧
    (RemoveButtonSetup k s).shown = Function.update s.leds k (0, 0, 0) := by
  simp only [RemoveButtonSetup, clearLockRecord]
  split_ifs <;> simp

theorem step_restoreInv (e : Event) (s : State) (h : restoreInv s)
    (ho : ∀ i, e = Event.tick i → ordinaryTick i s) : restoreInv (step e s) := by
  cases e with
  | tick i =>
    simp only [step, Loop]
    split_ifs
    · exact h
    · apply pollTick_restoreInv
      · simpa [restoreInv] using h
      · have := ho i rfl
        simpa [ordinaryTick, reachesSampling] using this
  | flashAlarm =>
    simp only [step, fireFlashAlarm]
    split_ifs with h1 h2
    · constructor
      · intro j hj; simp
      · intro _ j hj; simp [hj]
    · exact absurd rfl h2
    · exact h
  | dimTimer =>
    simp only [step, fireDimTimer]
    split_ifs
    · constructor
      · intro j hj; simp
      · intro ht j hj
        have ht' : s.TimerCancelled = true := by simpa using ht
        simp [h.1 j hj, h.2 ht' j hj]
    · exact h
  | hostReport inst report_id report_type buffer bufsize =>
    exact set_report_restoreInv inst report_id report_type bufsize buffer s h
  | setup k r g b kc m t =>
    obtain ⟨a, b2, c⟩ := SetupButton_colours k r g b kc m t s
    constructor
    · intro j _; simp only [step]; rw [b2, c]
    · intro ht j hj
      have ht' : s.TimerCancelled = true := by simpa [step] using ht
      simp only [step]; rw [a, c]
      by_cases e : j = k
      · subst e; simp
      · rw [Function.update_noteq e, Function.update_noteq e, h.1 j hj, h.2 ht' j hj]
  | remove k =>
    obtain ⟨a, b2, c⟩ := RemoveButtonSetup_colours k s
    constructor
    · intro j _; simp only [step]; rw [b2, c]
    · intro ht j hj
      have ht' : s.TimerCancelled = true := by simpa [step] using ht
      simp only [step]; rw [a, c]
      by_cases e : j = k
      · subst e; simp
      · rw [Function.update_noteq e, Function.update_noteq e, h.1 j hj, h.2 ht' j hj]

/-- Apart from device-reset presses and presses of a lock key with the transport not ready,
the displayed colours are restored: in every state reached from `InitializeDevice` by a run
whose calls of `Loop` are ordinary ticks, a key whose displayed colour differs from its
`ColourAssignments` entry has a flash-reset alarm pending (`TimerCancelled` is false). -/
theorem colours_restored_on_ordinary_runs (events : List Event)
    (ho : ordinaryRun events booted) (j : Nat) (hj : j < 16)
    (hne : (run events booted).shown j ≠ (run events booted).ColourAssignments j) :
    (run events booted).TimerCancelled = false := by
  have hb : restoreInv booted := by
    constructor
    · intro j _; simp [booted, State.zero]
    · intro _ j _; simp [booted, State.zero]
  have key : ∀ (evs : List Event) (s : State), restoreInv s → ordinaryRun evs s →
      restoreInv (run evs s) := by
    intro evs
    induction evs with
    | nil => intro s h _; exact h
    | cons e rest ih =>
      intro s h hrun
      cases e with
      | tick i =>
        exact ih _ (step_restoreInv _ s h (fun i' he => by cases he; exact hrun.1)) hrun.2
      | flashAlarm =>
        exact ih _ (step_restoreInv _ s h (fun i' he => by cases he)) hrun
      | dimTimer =>
        exact ih _ (step_restoreInv _ s h (fun i' he => by cases he)) hrun
      | hostReport inst report_id report_type buffer bufsize =>
        exact ih _ (step_restoreInv _ s h (fun i' he => by cases he)) hrun
      | setup k r g b kc m t =>
        exact ih _ (step_restoreInv _ s h (fun i' he => by cases he)) hrun
      | remove k =>
        exact ih _ (step_restoreInv _ s h (fun i' he => by cases he)) hrun
  have hinv := key events booted hb ho
  cases ht : (run events booted).TimerCancelled
  · rfl
  · exact absurd (hinv.2 ht j hj) hne

/-! ## Lock bindings and reconfigured keys -/

/-- C21 fails when a bound lock key is given another key code by `SetupButton`.  On
zero-initialised tables key 1 is configured as caps lock with colour (1, 2, 3) and then as
the letter A with colour (4, 5, 6).  `SetupButton` does not clear the caps-lock record: it
still names key 1 and holds (1, 2, 3), while the descriptor of key 1 holds `HID_KEY_A` and
its colour row is (4, 5, 6).  A host update with the caps-lock indicator on then overwrites
the colour of key 1 with (0x20, 0x20, 0x20), and one with the indicator off overwrites it
with the stale (1, 2, 3). -/
theorem C21_stale_binding_after_reconfigure :
    (run [Event.setup 1 1 2 3 HID_KEY_CAPS_LOCK 0 REPORT_ID_KEYBOARD,
        Event.setup 1 4 5 6 HID_KEY_A 0 REPORT_ID_KEYBOARD]
      State.zero).LockKeysOrigionalColours 0 = (1, 2, 3, 1) ∧
    ((run [Event.setup 1 1 2 3 HID_KEY_CAPS_LOCK 0 REPORT_ID_KEYBOARD,
        Event.setup 1 4 5 6 HID_KEY_A 0 REPORT_ID_KEYBOARD]
      State.zero).ButtonAssignments 1).1 = HID_KEY_A ∧
    HID_KEY_A ≠ lockKeyCode 0 ∧ isLockKey HID_KEY_A = false ∧
    (run [Event.setup 1 1 2 3 HID_KEY_CAPS_LOCK 0 REPORT_ID_KEYBOARD,
        Event.setup 1 4 5 6 HID_KEY_A 0 REPORT_ID_KEYBOARD]
      State.zero).ColourAssignments 1 = (4, 5, 6) ∧
    (tud_hid_set_report_cb 0 REPORT_ID_KEYBOARD HID_REPORT_TYPE_OUTPUT [KEYBOARD_LED_CAPSLOCK] 1
      (run [Event.setup 1 1 2 3 HID_KEY_CAPS_LOCK 0 REPORT_ID_KEYBOARD,
          Event.setup 1 4 5 6 HID_KEY_A 0 REPORT_ID_KEYBOARD]
        State.zero)).ColourAssignments 1 = (0x20, 0x20, 0x20) ∧
    (tud_hid_set_report_cb 0 REPORT_ID_KEYBOARD HID_REPORT_TYPE_OUTPUT [0] 1
      (run [Event.setup 1 1 2 3 HID_KEY_CAPS_LOCK 0 REPORT_ID_KEYBOARD,
          Event.setup 1 4 5 6 HID_KEY_A 0 REPORT_ID_KEYBOARD]
        State.zero)).ColourAssignments 1 = (1, 2, 3) ∧
    (tud_hid_set_report_cb 0 REPORT_ID_KEYBOARD HID_REPORT_TYPE_OUTPUT [0] 1
      (run [Event.setup 1 1 2 3 HID_KEY_CAPS_LOCK 0 REPORT_ID_KEYBOARD,
          Event.setup 1 4 5 6 HID_KEY_A 0 REPORT_ID_KEYBOARD]
        State.zero)).shown 1 = (1, 2, 3) := by
  decide

theorem step_bindingInv (e : Event) (s : State) (hk : keepsBindings e s)
    (h : bindingInv s) : bindingInv (step e s) := by
  cases e with
  | tick i => exact absurd hk (by simp [keepsBindings])
  | flashAlarm => exact absurd hk (by simp [keepsBindings])
  | dimTimer => exact absurd hk (by simp [keepsBindings])
  | hostReport inst report_id report_type buffer bufsize =>
    exact absurd hk (by simp [keepsBindings])
  | setup k r g b kc m t =>
    obtain ⟨-, hkeep⟩ := hk
    intro role hr hne
    simp only [step] at hne ⊢
    obtain ⟨c1, c2, -, -⟩ := SetupButton_cells k r g b kc m t s
    by_cases hkc : kc = lockKeyCode role
    · have hrec := SetupButton_records k r g b kc m t role s
      rw [if_pos ⟨hr, hkc⟩] at hrec
      rw [hrec]
      exact ⟨by rw [c1]; exact hkc, c2⟩
    · have hrec := SetupButton_records k r g b kc m t role s
      rw [if_neg (fun hh => hkc hh.2)] at hrec
      rw [hrec] at hne ⊢
      obtain ⟨a, b2⟩ := h role hr hne
      have hk' : (s.LockKeysOrigionalColours role).2.2.2 ≠ k := fun e =>
        hkc (hkeep role hr ⟨hne, e⟩)
      rw [SetupButton_table, if_neg hk', (SetupButton_colours k r g b kc m t s).1,
        Function.update_noteq hk']
      exact ⟨a, b2⟩
  | remove k =>
    intro role hr hne
    simp only [step] at hne ⊢
    have hrec := RemoveButtonSetup_records k role s
    by_cases hkc : (s.ButtonAssignments k).1 = lockKeyCode role
    · rw [if_pos ⟨hr, hkc⟩] at hrec
      rw [hrec] at hne
      exact absurd rfl hne
    · rw [if_neg (fun hh => hkc hh.2)] at hrec
      rw [hrec] at hne ⊢
      obtain ⟨a, b2⟩ := h role hr hne
      have hk' : (s.LockKeysOrigionalColours role).2.2.2 ≠ k := fun e => hkc (by rw [← e]; exact a)
      rw [RemoveButtonSetup_table, if_neg hk', (RemoveButtonSetup_colours k s).1,
        Function.update_noteq hk']
      exact ⟨a, b2⟩

theorem run_bindingInv (events : List Event) (s : State) (hk : keepsBindingsRun events s)
    (h : bindingInv s) : bindingInv (run events s) := by
  induction events generalizing s with
  | nil => exact h
  | cons e rest ih => exact ih (step e s) hk.2 (step_bindingInv e s hk.1 h)

/-- As long as `SetupButton` is not used to give the bound key of a lock role another key
code, the lock bindings track the action table: in every state reached from the
zero-initialised tables by such calls of `SetupButton` and `RemoveButtonSetup`, a record
that names a key `k` (key column `k`, not 0) has `ButtonAssignments[k][0]` equal to the
role's lock key code and its saved colour equal to `ColourAssignments[k]`; and a host report
leaves the colour row of every key whose key code is not a lock key code. -/
theorem bindings_track_table_without_reconfigure (events : List Event)
    (hk : keepsBindingsRun events State.zero) :
    (∀ role, role < 3 → ∀ k, boundTo ((run events State.zero).LockKeysOrigionalColours role) k →
      ((run events State.zero).ButtonAssignments k).1 = lockKeyCode role ∧
      (run events State.zero).ColourAssignments k =
        (((run events State.zero).LockKeysOrigionalColours role).1,
          ((run events State.zero).LockKeysOrigionalColours role).2.1,
          ((run events State.zero).LockKeysOrigionalColours role).2.2.1)) ∧
    (∀ j inst report_id report_type bufsize buffer,
      isLockKey ((run events State.zero).ButtonAssignments j).1 = false →
      (tud_hid_set_report_cb inst report_id report_type buffer bufsize
        (run events State.zero)).ColourAssignments j =
      (run events State.zero).ColourAssignments j) := by
  have h0 : bindingInv State.zero := by
    intro role _ hne
    exact absurd rfl hne
  have h := run_bindingInv events State.zero hk h0
  generalize run events State.zero = s at h
  have hb : ∀ role, role < 3 → ∀ k, boundTo (s.LockKeysOrigionalColours role) k →
      (s.ButtonAssignments k).1 = lockKeyCode role ∧
      s.ColourAssignments k = ((s.LockKeysOrigionalColours role).1,
        (s.LockKeysOrigionalColours role).2.1, (s.LockKeysOrigionalColours role).2.2.1) := by
    intro role hr k hbound
    obtain ⟨h1, h2⟩ := hbound
    subst h2
    exact h role hr h1
  refine ⟨hb, ?_⟩
  intro j inst report_id report_type bufsize buffer hlock
  have hnot : ∀ role, role < 3 → ¬ boundTo (s.LockKeysOrigionalColours role) j := by
    intro role hr hbound
    have := (hb role hr j hbound).1
    rw [this, isLockKey_lockKeyCode] at hlock
    exact absurd hlock (by decide)
  exact (set_report_fixed inst report_id report_type bufsize j buffer s
    (hnot 0 (by decide)) (hnot 1 (by decide)) (hnot 2 (by decide))).1

/-! ## The dim timer firing inside a key press -/

theorem pollTickInterrupted_id (i : TickInput) (s : State) :
    pollTickInterrupted id i s = pollTick i s := rfl

theorem mainSetup_dim :
    mainSetup.LEDDimClock = true ∧ mainSetup.dim_timers = 1 ∧
    mainSetup.brightness = MaxBrightness ∧ mainSetup.has_keyboard_key = false ∧
    mainSetup.has_consumer_key = false ∧ mainSetup.last_button_states = 0 :=
  ⟨rfl, rfl, rfl, rfl, rfl, rfl⟩

/-- C12 fails when the dim timer fires inside a key press.  On the configuration of
`Main.cpp` (`LEDDimClock` true, one dim timer armed, maximum brightness) key 0 is pressed,
and `DimLEDTimer` fires between the test of `LEDDimClock` on line 453 and the cancel on
line 455.  The callback dims the keypad and clears `LEDDimClock`; `Loop` goes on in the
branch it had chosen, which cancels, re-arms and sets `LEDDimClock` without restoring the
brightness.  The press ends with `LEDDimClock` true and one timer armed but the brightness
at `MinBrightness`, a state outside both states of the claim; the same press without the
interrupt ends at `MaxBrightness`.  The later release tick and a press of key 1 leave the
brightness at `MinBrightness` as well. -/
theorem C12_dim_timer_fires_inside_press :
    (mainSetup.LEDDimClock = true ∧ mainSetup.dim_timers = 1 ∧
      mainSetup.brightness = MaxBrightness) ∧
    ((pollTickInterrupted fireDimTimer ⟨10, false, true, 1, true, true⟩ mainSetup).LEDDimClock =
        true ∧
      (pollTickInterrupted fireDimTimer ⟨10, false, true, 1, true, true⟩ mainSetup).dim_timers =
        1 ∧
      (pollTickInterrupted fireDimTimer ⟨10, false, true, 1, true, true⟩ mainSetup).brightness =
        MinBrightness) ∧
    MinBrightness ≠ MaxBrightness ∧
    (pollTick ⟨10, false, true, 1, true, true⟩ mainSetup).brightness = MaxBrightness ∧
    ((pollTick ⟨30, false, true, 2, true, true⟩
        (pollTick ⟨20, false, true, 1, true, true⟩
          (pollTickInterrupted fireDimTimer ⟨10, false, true, 1, true, true⟩
            mainSetup))).LEDDimClock = true ∧
      (pollTick ⟨30, false, true, 2, true, true⟩
        (pollTick ⟨20, false, true, 1, true, true⟩
          (pollTickInterrupted fireDimTimer ⟨10, false, true, 1, true, true⟩
            mainSetup))).brightness = MinBrightness) := by
  refine ⟨⟨rfl, rfl, rfl⟩, ⟨?_, ?_, ?_⟩, by decide, ?_, ?_, ?_⟩
  all_goals
    simp [pollTickInterrupted, sampleButtonsInterrupted, rearmDimTimerInterrupted, fireDimTimer,
      pollTick, sampleButtons, pressAction, pressFeedback, startFlashReset, SendKeypress,
      rearmDimTimer, mainSetup_flags, mainSetup_keys, mainSetup_dim, bitScan_values,
      REPORT_ID_KEYBOARD, REPORT_ID_TINYPICO, isLockKey, HID_KEY_O, HID_KEY_ARROW_UP,
      HID_KEY_CAPS_LOCK, HID_KEY_NUM_LOCK, HID_KEY_SCROLL_LOCK]



end RGBMacroPad
